import Mathlib

/-!
# The buffer mapping state machine of `dawn_native` (`Buffer.cpp`)

A shallow embedding of `dawn_native::BufferBase` and of the error buffer variant.

* Unsigned 64-bit quantities (`uint64_t`, and `size_t`, which the interface description
  gives as 64 bits wide) are natural numbers; every subtraction of the source is the
  wrap-around subtraction `u64sub`, so that an underflow would be visible.
* Pointers (`void*`, function pointers) are addresses, `nullptr` being `0`.
* The object mutated by the member functions, together with everything the member
  functions do to their collaborators (device, queue, backend hooks, application
  callback), is a `World`: the buffer fields and the chronological list of effects.
* The device and the backend are read through `DeviceBase` and `BufferBackend`, which
  give the answers of the collaborators for the call at hand.
* A call of the application callback is an effect. The functions of the namespace
  `Reentrant` take what the callback does to the buffer as a parameter (`Application`);
  the functions outside it are these functions for callbacks that do not act on the
  buffer.
-/

namespace dawn_native

/-! ## Machine integers and pointers -/

/-- Subtraction of two `uint64_t` values, wrapping around modulo `2 ^ 64`. -/
def u64sub (a b : Nat) : Nat := (a + 2 ^ 64 - b) % 2 ^ 64

/-- The null pointer. -/
def nullptr : Nat := 0

/-- Modelled from the spec: `wgpu::kWholeMapSize`, declared in `webgpu_cpp.h` (not among the
sources) as `SIZE_MAX`; the interface gives `size` as `u64 | WHOLE`, so it is `2 ^ 64 - 1`. -/
def kWholeMapSize : Nat := 2 ^ 64 - 1

/-! ## Enumerations and bit masks -/

/-- The states of `BufferBase::BufferState`. -/
inductive BufferState
  | Unmapped
  | MappedAtCreation
  | Mapped
  | Destroyed
deriving DecidableEq, Repr

/-- Modelled from the spec: the callback status values ("enumerated, exhaustive") of
`WGPUBufferMapAsyncStatus`, declared in `webgpu.h` (not among the sources). -/
inductive WGPUBufferMapAsyncStatus
  | Success
  | Error
  | DeviceLost
  | DestroyedBeforeCallback
  | UnmappedBeforeCallback
deriving DecidableEq, Repr

namespace MapMode

/-- The bit `wgpu::MapMode::Read`. -/
def Read : Nat := 1

/-- The bit `wgpu::MapMode::Write`. -/
def Write : Nat := 2

end MapMode

namespace BufferUsage

/-- The bit `wgpu::BufferUsage::MapRead`. -/
def MapRead : Nat := 1

/-- The bit `wgpu::BufferUsage::MapWrite`. -/
def MapWrite : Nat := 2

/-- The bit `wgpu::BufferUsage::CopySrc`. -/
def CopySrc : Nat := 4

/-- The bit `wgpu::BufferUsage::CopyDst`. -/
def CopyDst : Nat := 8

/-- The bit `wgpu::BufferUsage::Storage`. -/
def Storage : Nat := 0x80

/-- The bit `wgpu::BufferUsage::Indirect`. -/
def Indirect : Nat := 0x100

/-- The bit `wgpu::BufferUsage::QueryResolve`. -/
def QueryResolve : Nat := 0x200

end BufferUsage

/-- The internal usage bit `kReadOnlyStorageBuffer`; its value is that of the header of
`dawn_native`, which is not among the sources. -/
def kReadOnlyStorageBuffer : Nat := 0x80000000

/-- The internal usage bit `kInternalStorageBuffer`; its value is that of the header of
`dawn_native`, which is not among the sources. -/
def kInternalStorageBuffer : Nat := 0x40000000

/-- The largest `size_t`, `std::numeric_limits<size_t>::max()`, for the 64-bit `size_t`. -/
def SIZE_MAX : Nat := 2 ^ 64 - 1

/-- Modelled from the spec: `IsSubset(subset, set)`, declared outside the sources: a usage
is "paired only with" the bits of `set` when every bit of `subset` is a bit of `set`. -/
def IsSubset (subset set : Nat) : Bool := subset &&& set == subset

/-- The conversion to `bool` of the masked value `flags & bit`. -/
def hasBit (flags bit : Nat) : Bool := flags &&& bit != 0

/-! ## Errors -/

/-- The errors built by the validation functions of `Buffer.cpp` (one constructor per
message), and the errors handed back by a backend hook or a collaborator. -/
inductive ErrorData
  | deviceIsLost
  | objectIsInvalid
  | offsetLargerThanSize
  | offsetNotMultipleOf8
  | sizeNotMultipleOf4
  | rangeDoesNotFit
  | alreadyMapped
  | isDestroyed
  | isUnmapped
  | modeNotReadOrWrite
  | usageDoesNotContain (bit : Nat)
  | backend (code : Nat)
  | nextInChainNotNull
  | usageNotSubset (bit allowed : Nat)
  | mappedAtCreationSizeNotMultipleOf4
deriving DecidableEq, Repr

/-- The result type `MaybeError`. -/
abbrev MaybeError := Except ErrorData Unit

deriving instance DecidableEq for Except

/-! ## Data model -/

/-- A staging buffer: its host pointer and its size. -/
structure StagingBufferBase where
  mappedPointer : Nat
  size : Nat
deriving DecidableEq, Repr

/-- Modelled from the spec: the fields of `BufferBase`, declared in `Buffer.h` (not among
the sources), with the names `Buffer.cpp` uses. Sizes and offsets are 64-bit unsigned; the
request id `mLastMapID` is "a strictly increasing counter, never reused", a natural number.
`isError` is `IsError()` (the object was built with `ObjectBase::kError`, that is, it is an
`ErrorBuffer`), and `mFakeMappedData` is the field of `ErrorBuffer` (`nullptr` when nothing
is allocated). -/
structure BufferBase where
  isError : Bool
  mSize : Nat
  mAllocatedSize : Nat
  mUsage : Nat
  mState : BufferState
  mIsDataInitialized : Bool
  mStagingBuffer : Option StagingBufferBase
  mMapCallback : Nat
  mMapUserdata : Nat
  mLastMapID : Nat
  mMapMode : Nat
  mMapOffset : Nat
  mMapSize : Nat
  mFakeMappedData : Nat
deriving DecidableEq, Repr

/-- The backend hooks of `BufferBase`, in the order of their declaration in `ErrorBuffer`. -/
inductive Hook
  | IsCPUWritableAtCreation
  | MapAtCreationImpl
  | MapAsyncImpl
  | GetMappedPointerImpl
  | UnmapImpl
  | DestroyImpl
deriving DecidableEq, Repr

/-- What a member function of the buffer does to the outside, in the order of the source.
`mapCallback` is a call `callback(status, userdata)` of the application callback; its last
component is the buffer as it is at the moment of the call. -/
inductive Event
  | deprecationWarning
  | consumedError (error : ErrorData)
  | mapCallback (callback : Nat) (status : WGPUBufferMapAsyncStatus) (userdata : Nat)
      (seen : BufferBase)
  | hook (h : Hook) (arguments : List Nat)
  | trackTask (mapID : Nat) (serial : Nat)
  | createStagingBuffer (size : Nat)
  | copyFromStagingToBuffer (staging : Option StagingBufferBase) (sourceOffset
      destinationOffset size : Nat)
  | releaseStagingBuffer (staging : Option StagingBufferBase)
  | memset (pointer value size : Nat)
  | incrementLazyClearCountForTesting
  | assertFailed
  | unreachable (h : Hook)
deriving DecidableEq, Repr

/-- The buffer and the effects produced so far, oldest first. -/
structure World where
  buffer : BufferBase
  trace : List Event
deriving DecidableEq, Repr

/-- Whether an effect is a call of the application callback. -/
def Event.isMapCallback : Event → Bool
  | .mapCallback _ _ _ _ => true
  | _ => false

/-- Record one effect. -/
def World.emit (w : World) (e : Event) : World :=
  { w with trace := w.trace ++ [e] }

/-- The answers of the device (`DeviceBase`, `Device.cpp` is not among the sources) during
one call: `alive` is whether `ValidateIsAlive()` succeeds, `lost` is `IsLost()`. -/
structure DeviceBase where
  alive : Bool
  lost : Bool
  validationEnabled : Bool
  lazyClearResourceOnFirstUse : Bool
  nonzeroClearResourcesOnCreationForTesting : Bool
  pendingCommandSerial : Nat
deriving DecidableEq, Repr

/-- The answers of the backend during one call: the hooks of a valid buffer, and the two
device calls the buffer makes for its staging buffer (`CreateStagingBuffer(size)` and
`CopyFromStagingToBuffer`). -/
structure BufferBackend where
  isCPUWritableAtCreation : Bool
  mapAtCreationImpl : MaybeError
  mapAsyncImpl : Nat → Nat → Nat → MaybeError
  mappedPointerImpl : Nat
  createStagingBuffer : Nat → Except ErrorData StagingBufferBase
  copyFromStagingToBuffer : MaybeError

/-! ## Collaborators -/

/-- The call `DeviceBase::ValidateIsAlive()`. -/
def DeviceBase.ValidateIsAlive (device : DeviceBase) : MaybeError :=
  if device.alive then .ok () else .error .deviceIsLost

/-- Modelled from the spec: `DeviceBase::ValidateObject` (`Device.cpp` is not among the
sources), "buffer object must be valid": it fails exactly for an error object. -/
def DeviceBase.ValidateObject (_device : DeviceBase) (object : BufferBase) : MaybeError :=
  if object.isError then .error .objectIsInvalid else .ok ()

/-- The call `DeviceBase::IsLost()`. -/
def DeviceBase.IsLost (device : DeviceBase) : Bool := device.lost

/-- Modelled from the spec: `DeviceBase::ConsumedError` (`Device.cpp` is not among the
sources): it tells whether the result is an error, and hands the error to the device. -/
def ConsumedError (result : MaybeError) (w : World) : Bool × World :=
  match result with
  | .error e => (true, w.emit (.consumedError e))
  | .ok _ => (false, w)

/-- The check `ASSERT(condition)`: a failing assertion is recorded. -/
def ASSERT (condition : Bool) (w : World) : World :=
  if condition then w else w.emit .assertFailed

/-! ## `BufferBase::ValidateMapAsync` -/

/-- The function `BufferBase::ValidateMapAsync`; the second component is the value left
in `*status`. -/
def ValidateMapAsync (device : DeviceBase) (self : BufferBase) (mode offset size : Nat) :
    MaybeError × WGPUBufferMapAsyncStatus :=
  -- *status = WGPUBufferMapAsyncStatus_DeviceLost;
  match device.ValidateIsAlive with
  | .error e => (.error e, .DeviceLost)
  | .ok _ =>
    -- *status = WGPUBufferMapAsyncStatus_Error;
    match device.ValidateObject self with
    | .error e => (.error e, .Error)
    | .ok _ =>
      if offset > self.mSize then (.error .offsetLargerThanSize, .Error)
      else if offset % 8 ≠ 0 then (.error .offsetNotMultipleOf8, .Error)
      else if size % 4 ≠ 0 then (.error .sizeNotMultipleOf4, .Error)
      else if size > u64sub self.mSize offset then (.error .rangeDoesNotFit, .Error)
      else
        match self.mState with
        | .Mapped => (.error .alreadyMapped, .Error)
        | .MappedAtCreation => (.error .alreadyMapped, .Error)
        | .Destroyed => (.error .isDestroyed, .Error)
        | .Unmapped =>
          let isReadMode := hasBit mode MapMode.Read
          let isWriteMode := hasBit mode MapMode.Write
          if !(xor isReadMode isWriteMode) then (.error .modeNotReadOrWrite, .Error)
          else if hasBit mode MapMode.Read then
            if !(hasBit self.mUsage BufferUsage.MapRead) then
              (.error (.usageDoesNotContain BufferUsage.MapRead), .Error)
            else
              -- *status = WGPUBufferMapAsyncStatus_Success;
              (.ok (), .Success)
          else
            -- ASSERT(mode & wgpu::MapMode::Write) holds here: exactly one bit is set
            if !(hasBit self.mUsage BufferUsage.MapWrite) then
              (.error (.usageDoesNotContain BufferUsage.MapWrite), .Error)
            else
              -- *status = WGPUBufferMapAsyncStatus_Success;
              (.ok (), .Success)

/-! ## Backend hooks -/

/-- The virtual call `MapAsyncImpl(mode, offset, size)`: `UNREACHABLE()` for an error
buffer, the backend of the buffer otherwise. -/
def MapAsyncImpl (backend : BufferBackend) (mode offset size : Nat) (w : World) :
    MaybeError × World :=
  if w.buffer.isError then (.ok (), w.emit (.unreachable .MapAsyncImpl))
  else (backend.mapAsyncImpl mode offset size, w.emit (.hook .MapAsyncImpl [mode, offset, size]))

/-- The virtual call `GetMappedPointerImpl()`: `mFakeMappedData.get()` for an error buffer,
the backend of the buffer otherwise. -/
def GetMappedPointerImpl (backend : BufferBackend) (w : World) : Nat × World :=
  if w.buffer.isError then (w.buffer.mFakeMappedData, w.emit (.hook .GetMappedPointerImpl []))
  else (backend.mappedPointerImpl, w.emit (.hook .GetMappedPointerImpl []))

/-! ## Map requests -/

/-- The function `BufferBase::CallMapCallback`. The call of the application callback is
recorded as an effect and the callback is taken not to act on the buffer;
`Reentrant.CallMapCallback` is the function for a callback that does. -/
def CallMapCallback (device : DeviceBase) (mapID : Nat) (status : WGPUBufferMapAsyncStatus)
    (w : World) : World :=
  let w := ASSERT (!w.buffer.isError) w
  if w.buffer.mMapCallback != nullptr && mapID == w.buffer.mLastMapID then
    -- Tag the callback as fired before firing it
    let callback := w.buffer.mMapCallback
    let w := { w with buffer := { w.buffer with mMapCallback := nullptr } }
    if device.IsLost then
      w.emit (.mapCallback callback .DeviceLost w.buffer.mMapUserdata w.buffer)
    else
      w.emit (.mapCallback callback status w.buffer.mMapUserdata w.buffer)
  else w

/-- The first part of `BufferBase::APIMapAsync` (the two `if` blocks that default
`size`): the value of the local `size` afterwards, and the world. The result of
`mSize - offset` is a `uint64_t` stored in a `size_t` of the same width. -/
def APIMapAsync.defaultSize (offset size : Nat) (w : World) : Nat × World :=
  let (size, w) :=
    if size = 0 then (kWholeMapSize, w.emit .deprecationWarning) else (size, w)
  if size = kWholeMapSize ∧ offset ≤ w.buffer.mSize then (u64sub w.buffer.mSize offset, w)
  else (size, w)

/-- The second part of `BufferBase::APIMapAsync`, from the declaration of `status` on,
for the value `size` left by the first part. -/
def APIMapAsync.validateAndMap (device : DeviceBase) (backend : BufferBackend)
    (mode offset size callback userdata : Nat) (w : World) : World :=
  let (result, status) := ValidateMapAsync device w.buffer mode offset size
  let (consumed, w) := ConsumedError result w
  if consumed then
    if callback ≠ nullptr then w.emit (.mapCallback callback status userdata w.buffer) else w
  else
    let w := ASSERT (!w.buffer.isError) w
    let w := { w with buffer := { w.buffer with
      mLastMapID := w.buffer.mLastMapID + 1
      mMapMode := mode
      mMapOffset := offset
      mMapSize := size
      mMapCallback := callback
      mMapUserdata := userdata
      mState := .Mapped } }
    let (result, w) := MapAsyncImpl backend mode offset size w
    let (consumed, w) := ConsumedError result w
    if consumed then
      CallMapCallback device w.buffer.mLastMapID .DeviceLost w
    else
      -- std::make_unique<MapRequestTask>(this, mLastMapID), tracked on the queue
      w.emit (.trackTask w.buffer.mLastMapID device.pendingCommandSerial)

/-- The function `BufferBase::APIMapAsync`. -/
def APIMapAsync (device : DeviceBase) (backend : BufferBackend)
    (mode offset size callback userdata : Nat) (w : World) : World :=
  let (size, w) := APIMapAsync.defaultSize offset size w
  APIMapAsync.validateAndMap device backend mode offset size callback userdata w

/-- The function `BufferBase::OnMapRequestCompleted`. -/
def OnMapRequestCompleted (device : DeviceBase) (mapID : Nat)
    (status : WGPUBufferMapAsyncStatus) (w : World) : World :=
  CallMapCallback device mapID status w

/-- The task `MapRequestTask` tracked on the queue (its buffer is the buffer of the world). -/
structure MapRequestTask where
  id : Nat
deriving DecidableEq, Repr

/-- The method `MapRequestTask::Finish`. -/
def MapRequestTask.Finish (task : MapRequestTask) (device : DeviceBase) (w : World) : World :=
  OnMapRequestCompleted device task.id .Success w

/-- The method `MapRequestTask::HandleDeviceLoss`. -/
def MapRequestTask.HandleDeviceLoss (task : MapRequestTask) (device : DeviceBase)
    (w : World) : World :=
  OnMapRequestCompleted device task.id .DeviceLost w

/-- A sequence of completion notifications `(device answers, id, status)` delivered to the
buffer one after the other by `OnMapRequestCompleted`. -/
def runCompletions (completions : List (DeviceBase × Nat × WGPUBufferMapAsyncStatus))
    (w : World) : World :=
  completions.foldl (fun acc c => OnMapRequestCompleted c.1 c.2.1 c.2.2 acc) w

/-! ## Mapped ranges -/

/-- The range test of `BufferBase::CanGetMappedRange` (its first three `if`s): whether the
function gets past them. -/
def CanGetMappedRange.rangeTest (self : BufferBase) (offset size : Nat) : Bool :=
  if offset % 8 ≠ 0 ∨ size % 4 ≠ 0 then false
  else if size > self.mMapSize ∨ offset < self.mMapOffset then false
  else
    let offsetInMappedRange := u64sub offset self.mMapOffset
    if offsetInMappedRange > u64sub self.mMapSize size then false
    else true

/-- The function `BufferBase::CanGetMappedRange`. The `ASSERT` of the `Mapped` case reads
`mMapMode` only and has no part in the result. -/
def CanGetMappedRange (self : BufferBase) (writable : Bool) (offset size : Nat) : Bool :=
  if !CanGetMappedRange.rangeTest self offset size then false
  else
    match self.mState with
    | .MappedAtCreation => true
    | .Mapped => !writable || hasBit self.mMapMode MapMode.Write
    | .Unmapped => false
    | .Destroyed => false

/-- The function `BufferBase::GetMappedRange`; the pointer returned, and the world. -/
def GetMappedRange (backend : BufferBackend) (offset size : Nat) (writable : Bool)
    (w : World) : Nat × World :=
  if !CanGetMappedRange w.buffer writable offset size then (nullptr, w)
  else
    match w.buffer.mStagingBuffer with
    | some staging => (staging.mappedPointer + offset, w)
    | none =>
      if w.buffer.mSize = 0 then (0xCAFED00D, w)
      else
        let (start, w) := GetMappedPointerImpl backend w
        (if start = nullptr then nullptr else start + offset, w)

/-- The function `BufferBase::APIGetMappedRange`. -/
def APIGetMappedRange (backend : BufferBackend) (offset size : Nat) (w : World) :
    Nat × World :=
  GetMappedRange backend offset size true w

/-- The function `BufferBase::APIGetConstMappedRange`. -/
def APIGetConstMappedRange (backend : BufferBackend) (offset size : Nat) (w : World) :
    Nat × World :=
  GetMappedRange backend offset size false w

/-! ## More backend hooks -/

/-- The virtual call `IsCPUWritableAtCreation()`: `UNREACHABLE()` for an error buffer, the
backend of the buffer otherwise. -/
def IsCPUWritableAtCreation (backend : BufferBackend) (w : World) : Bool × World :=
  if w.buffer.isError then (false, w.emit (.unreachable .IsCPUWritableAtCreation))
  else (backend.isCPUWritableAtCreation, w.emit (.hook .IsCPUWritableAtCreation []))

/-- The virtual call `MapAtCreationImpl()`: `UNREACHABLE()` for an error buffer, the backend
of the buffer otherwise. -/
def MapAtCreationImpl (backend : BufferBackend) (w : World) : MaybeError × World :=
  if w.buffer.isError then (.ok (), w.emit (.unreachable .MapAtCreationImpl))
  else (backend.mapAtCreationImpl, w.emit (.hook .MapAtCreationImpl []))

/-- The virtual call `UnmapImpl()`: `UNREACHABLE()` for an error buffer, the backend of the
buffer otherwise. -/
def UnmapImpl (w : World) : World :=
  if w.buffer.isError then w.emit (.unreachable .UnmapImpl) else w.emit (.hook .UnmapImpl [])

/-- The virtual call `DestroyImpl()`: `UNREACHABLE()` for an error buffer, the backend of
the buffer otherwise. -/
def DestroyImpl (w : World) : World :=
  if w.buffer.isError then w.emit (.unreachable .DestroyImpl)
  else w.emit (.hook .DestroyImpl [])

/-- The method `ErrorBuffer::ClearMappedData`: `mFakeMappedData.reset()`. -/
def ClearMappedData (w : World) : World :=
  { w with buffer := { w.buffer with mFakeMappedData := nullptr } }

/-- The function `BufferBase::GetAllocatedSize`, with its two assertions. -/
def GetAllocatedSize (w : World) : Nat × World :=
  let w := ASSERT (!w.buffer.isError) w
  let w := ASSERT (w.buffer.mAllocatedSize != 0) w
  (w.buffer.mAllocatedSize, w)

/-! ## Unmap and Destroy -/

/-- The function `BufferBase::ValidateUnmap`. -/
def ValidateUnmap (device : DeviceBase) (self : BufferBase) : MaybeError :=
  match device.ValidateIsAlive with
  | .error e => .error e
  | .ok _ =>
    match device.ValidateObject self with
    | .error e => .error e
    | .ok _ =>
      match self.mState with
      | .Mapped => .ok ()
      | .MappedAtCreation => .ok ()
      | .Unmapped => .error .isUnmapped
      | .Destroyed => .error .isDestroyed

/-- The function `BufferBase::ValidateDestroy`. -/
def ValidateDestroy (device : DeviceBase) (self : BufferBase) : MaybeError :=
  match device.ValidateObject self with
  | .error e => .error e
  | .ok _ => .ok ()

/-- The function `BufferBase::DestroyInternal`. -/
def DestroyInternal (w : World) : World :=
  let w := if w.buffer.mState ≠ .Destroyed then DestroyImpl w else w
  { w with buffer := { w.buffer with mState := .Destroyed } }

/-- The function `BufferBase::CopyFromStagingBuffer`. -/
def CopyFromStagingBuffer (backend : BufferBackend) (w : World) : MaybeError × World :=
  let w := ASSERT w.buffer.mStagingBuffer.isSome w
  if w.buffer.mSize = 0 then
    -- Staging buffer is not created if zero size.
    let w := ASSERT w.buffer.mStagingBuffer.isNone w
    (.ok (), w)
  else
    let (size, w) := GetAllocatedSize w
    let w := w.emit (.copyFromStagingToBuffer w.buffer.mStagingBuffer 0 0 size)
    match backend.copyFromStagingToBuffer with
    | .error e => (.error e, w)
    | .ok _ =>
      let w := w.emit (.releaseStagingBuffer w.buffer.mStagingBuffer)
      (.ok (), { w with buffer := { w.buffer with mStagingBuffer := none } })

/-- The function `BufferBase::UnmapInternal`. The condition of
`ASSERT(IsCPUWritableAtCreation())` is the answer of the backend. -/
def UnmapInternal (device : DeviceBase) (backend : BufferBackend)
    (callbackStatus : WGPUBufferMapAsyncStatus) (w : World) : World :=
  let w :=
    if w.buffer.isError then
      -- It is an error to call Unmap() on an ErrorBuffer, but we still need to reclaim the
      -- fake mapped staging data.
      let w := ClearMappedData w
      { w with buffer := { w.buffer with mState := .Unmapped } }
    else w
  let (consumed, w) := ConsumedError (ValidateUnmap device w.buffer) w
  if consumed then w
  else
    let w := ASSERT (!w.buffer.isError) w
    let w :=
      match w.buffer.mState with
      | .Mapped =>
        let w := CallMapCallback device w.buffer.mLastMapID callbackStatus w
        let w := UnmapImpl w
        { w with buffer := { w.buffer with mMapCallback := nullptr, mMapUserdata := 0 } }
      | .MappedAtCreation =>
        if w.buffer.mStagingBuffer.isSome then
          let (result, w) := CopyFromStagingBuffer backend w
          (ConsumedError result w).2
        else if w.buffer.mSize ≠ 0 then
          let w := ASSERT backend.isCPUWritableAtCreation w
          UnmapImpl w
        else w
      | _ => w
    { w with buffer := { w.buffer with mState := .Unmapped } }

/-- The function `BufferBase::Unmap`. -/
def Unmap (device : DeviceBase) (backend : BufferBackend) (w : World) : World :=
  UnmapInternal device backend .UnmappedBeforeCallback w

/-- The function `BufferBase::APIUnmap`. -/
def APIUnmap (device : DeviceBase) (backend : BufferBackend) (w : World) : World :=
  Unmap device backend w

/-- The function `BufferBase::APIDestroy`. The condition of
`ASSERT(IsCPUWritableAtCreation())` is the answer of the backend. -/
def APIDestroy (device : DeviceBase) (backend : BufferBackend) (w : World) : World :=
  let w :=
    if w.buffer.isError then
      -- It is an error to call Destroy() on an ErrorBuffer, but we still need to reclaim
      -- the fake mapped staging data.
      let w := ClearMappedData w
      { w with buffer := { w.buffer with mState := .Destroyed } }
    else w
  let (consumed, w) := ConsumedError (ValidateDestroy device w.buffer) w
  if consumed then w
  else
    let w := ASSERT (!w.buffer.isError) w
    let w :=
      match w.buffer.mState with
      | .Mapped => UnmapInternal device backend .DestroyedBeforeCallback w
      | .MappedAtCreation =>
        if w.buffer.mStagingBuffer.isSome then
          { w with buffer := { w.buffer with mStagingBuffer := none } }
        else if w.buffer.mSize ≠ 0 then
          let w := ASSERT backend.isCPUWritableAtCreation w
          UnmapInternal device backend .DestroyedBeforeCallback w
        else w
      | _ => w
    DestroyInternal w

/-! ## Creation -/

/-- Modelled from the spec: the creation descriptor `BufferDescriptor`, declared in
`webgpu_cpp.h` (not among the sources): "`{ size: u64, usage: UsageFlags,
mappedAtCreation: bool, label: string? }`", and the extension chain `nextInChain`, a
pointer. The label has no part in the buffer's behaviour and is left out. -/
structure BufferDescriptor where
  nextInChain : Nat
  usage : Nat
  size : Nat
  mappedAtCreation : Bool
deriving DecidableEq, Repr

/-- The function `ValidateBufferDescriptor`; `ValidateBufferUsage` is generated code that
is not among the sources, and is a parameter. -/
def ValidateBufferDescriptor (ValidateBufferUsage : Nat → MaybeError)
    (descriptor : BufferDescriptor) : MaybeError :=
  if descriptor.nextInChain ≠ nullptr then .error .nextInChainNotNull
  else
    match ValidateBufferUsage descriptor.usage with
    | .error e => .error e
    | .ok _ =>
      let usage := descriptor.usage
      let kMapWriteAllowedUsages := BufferUsage.MapWrite ||| BufferUsage.CopySrc
      if hasBit usage BufferUsage.MapWrite && !IsSubset usage kMapWriteAllowedUsages then
        .error (.usageNotSubset BufferUsage.MapWrite kMapWriteAllowedUsages)
      else
        let kMapReadAllowedUsages := BufferUsage.MapRead ||| BufferUsage.CopyDst
        if hasBit usage BufferUsage.MapRead && !IsSubset usage kMapReadAllowedUsages then
          .error (.usageNotSubset BufferUsage.MapRead kMapReadAllowedUsages)
        else if descriptor.mappedAtCreation && descriptor.size % 4 != 0 then
          .error .mappedAtCreationSizeNotMultipleOf4
        else .ok ()

/-- Modelled from the spec: the members of a `BufferBase` that no constructor of
`Buffer.cpp` sets (their initialisers are in `Buffer.h`, not among the sources): no
pending request, no staging buffer, no map window, data not initialised. -/
def BufferBase.initial (isError : Bool) (size : Nat) : BufferBase :=
  { isError := isError, mSize := size, mAllocatedSize := 0, mUsage := 0,
    mState := .Unmapped, mIsDataInitialized := false, mStagingBuffer := none,
    mMapCallback := nullptr, mMapUserdata := 0, mLastMapID := 0, mMapMode := 0,
    mMapOffset := 0, mMapSize := 0, mFakeMappedData := nullptr }

/-- The constructor `BufferBase::BufferBase(device, descriptor)` of a valid buffer. -/
def BufferBase.new (device : DeviceBase) (descriptor : BufferDescriptor) : BufferBase :=
  let self := { BufferBase.initial false descriptor.size with mUsage := descriptor.usage }
  let self :=
    if hasBit self.mUsage BufferUsage.Storage then
      { self with mUsage := self.mUsage ||| kReadOnlyStorageBuffer }
    else self
  let self :=
    if hasBit self.mUsage BufferUsage.QueryResolve then
      { self with mUsage := self.mUsage ||| kInternalStorageBuffer }
    else self
  if hasBit self.mUsage BufferUsage.Indirect && device.validationEnabled then
    { self with mUsage := self.mUsage ||| kInternalStorageBuffer }
  else self

/-- The constructor `BufferBase::BufferBase(device, descriptor, ObjectBase::kError)`. -/
def BufferBase.newError (descriptor : BufferDescriptor) : BufferBase :=
  let self := BufferBase.initial true descriptor.size
  if descriptor.mappedAtCreation then
    { self with
      mState := .MappedAtCreation
      mMapOffset := 0
      mMapSize := self.mSize }
  else self

/-- The constructor `ErrorBuffer::ErrorBuffer`; `AllocNoThrow` gives the address of the
allocation, `nullptr` when it fails. -/
def ErrorBuffer.new (AllocNoThrow : Nat → Nat) (descriptor : BufferDescriptor) : BufferBase :=
  let self := BufferBase.newError descriptor
  if descriptor.mappedAtCreation then
    let isValidSize := descriptor.size != 0 && decide (descriptor.size < SIZE_MAX)
    if isValidSize then { self with mFakeMappedData := AllocNoThrow descriptor.size }
    else self
  else self

/-- The function `BufferBase::MakeError`. -/
def MakeError (AllocNoThrow : Nat → Nat) (descriptor : BufferDescriptor) : BufferBase :=
  ErrorBuffer.new AllocNoThrow descriptor

/-- The function `BufferBase::MapAtCreationInternal`. -/
def MapAtCreationInternal (backend : BufferBackend) (w : World) : MaybeError × World :=
  let w := ASSERT (!w.buffer.isError) w
  let w := { w with buffer := { w.buffer with
    mState := .MappedAtCreation
    mMapOffset := 0
    mMapSize := w.buffer.mSize } }
  -- 0-sized buffers are not supposed to be written to
  if w.buffer.mSize = 0 then (.ok (), w)
  else
    let (writable, w) := IsCPUWritableAtCreation backend w
    if writable then MapAtCreationImpl backend w
    else
      let (size, w) := GetAllocatedSize w
      let w := w.emit (.createStagingBuffer size)
      match backend.createStagingBuffer size with
      | .error e => (.error e, w)
      | .ok staging =>
        (.ok (), { w with buffer := { w.buffer with mStagingBuffer := some staging } })

/-- The function `BufferBase::SetIsDataInitialized`. -/
def SetIsDataInitialized (w : World) : World :=
  { w with buffer := { w.buffer with mIsDataInitialized := true } }

/-- The function `BufferBase::MapAtCreation`. -/
def MapAtCreation (device : DeviceBase) (backend : BufferBackend) (w : World) :
    MaybeError × World :=
  match MapAtCreationInternal backend w with
  | (.error e, w) => (.error e, w)
  | (.ok _, w) =>
    if w.buffer.mSize = 0 then (.ok (), w)
    else
      let (ptr, size, w) :=
        match w.buffer.mStagingBuffer with
        | some staging =>
          -- If there is a staging buffer for initialization, clear its contents directly.
          let (allocated, w) := GetAllocatedSize w
          (staging.mappedPointer, staging.size, ASSERT (staging.size == allocated) w)
        | none =>
          -- Otherwise, the buffer is directly mappable on the CPU.
          let (ptr, w) := GetMappedPointerImpl backend w
          let (size, w) := GetAllocatedSize w
          (ptr, size, w)
      if device.lazyClearResourceOnFirstUse then
        let w := w.emit (.memset ptr 0 size)
        let w := SetIsDataInitialized w
        (.ok (), w.emit .incrementLazyClearCountForTesting)
      else if device.nonzeroClearResourcesOnCreationForTesting then
        (.ok (), w.emit (.memset ptr 1 size))
      else (.ok (), w)

/-! ## Sequences of operations -/

/-- The operations on a buffer: the five public entry points, and the notification of the
queue `OnMapRequestCompleted`. -/
inductive Op
  | mapAsync (mode offset size callback userdata : Nat)
  | getMappedRange (offset size : Nat)
  | getConstMappedRange (offset size : Nat)
  | unmap
  | destroy
  | mapRequestCompleted (mapID : Nat) (status : WGPUBufferMapAsyncStatus)
deriving DecidableEq, Repr

/-- One call: the operation, and the answers of the device and of the backend while it
runs (the device may be alive for one call and lost for the next). -/
structure Call where
  device : DeviceBase
  backend : BufferBackend
  op : Op

/-- The world after one call. -/
def step (c : Call) (w : World) : World :=
  match c.op with
  | .mapAsync mode offset size callback userdata =>
    APIMapAsync c.device c.backend mode offset size callback userdata w
  | .getMappedRange offset size => (APIGetMappedRange c.backend offset size w).2
  | .getConstMappedRange offset size => (APIGetConstMappedRange c.backend offset size w).2
  | .unmap => APIUnmap c.device c.backend w
  | .destroy => APIDestroy c.device c.backend w
  | .mapRequestCompleted mapID status => OnMapRequestCompleted c.device mapID status w

/-- The world after a sequence of calls. -/
def run (calls : List Call) (w : World) : World :=
  calls.foldl (fun acc c => step c acc) w

/-- Whether an effect is a call of the application callback `callback` with the userdata
`userdata`. -/
def Event.isCallbackOf (callback userdata : Nat) : Event → Bool
  | .mapCallback c _ u _ => c == callback && u == userdata
  | _ => false

/-- Whether an effect is a call of the backend hook `h`. -/
def Event.isHook (h : Hook) : Event → Bool
  | .hook h' _ => h' == h
  | _ => false

/-- Whether an effect breaks the contract of the error buffer: an `UNREACHABLE()` hook
is reached, an assertion fails, or a hook other than `GetMappedPointerImpl` is called. -/
def Event.isContractViolation : Event → Bool
  | .unreachable _ => true
  | .assertFailed => true
  | .hook h _ => h != .GetMappedPointerImpl
  | _ => false

/-- Whether a call is one of the five public operations (not the notification of the
queue). -/
def Call.isPublic (c : Call) : Bool :=
  match c.op with
  | .mapRequestCompleted _ _ => false
  | _ => true

/-- The number of calls of the application callback `callback` with `userdata` so far. -/
def World.deliveries (w : World) (callback userdata : Nat) : Nat :=
  w.trace.countP (Event.isCallbackOf callback userdata)

/-- The number of calls of the backend `DestroyImpl` so far. -/
def World.destroyImplCalls (w : World) : Nat :=
  w.trace.countP (Event.isHook .DestroyImpl)

/-- Whether a call is the notification `OnMapRequestCompleted` for the request `mapID`. -/
def Call.completes (mapID : Nat) (c : Call) : Bool :=
  match c.op with
  | .mapRequestCompleted id _ => id == mapID
  | _ => false

/-! ## Application callbacks that call back into the buffer -/

/-- What the application callbacks do: `app callback status userdata w` is the world in
which the call `callback(status, userdata)`, made in the world `w`, returns. The functions
above record that call and take the callback not to act on the buffer; the functions of
`Reentrant` below are the same functions of the source, for callbacks that may act on it
(the comment in `CallMapCallback` names a callback that calls `Unmap()`). -/
abbrev Application := Nat → WGPUBufferMapAsyncStatus → Nat → World → World

/-- The application whose callbacks do not act on the buffer. -/
def Application.inert : Application := fun _ _ _ w => w

namespace Reentrant

/-- The function `BufferBase::CallMapCallback`; the callback runs as `app` says. -/
def CallMapCallback (app : Application) (device : DeviceBase) (mapID : Nat)
    (status : WGPUBufferMapAsyncStatus) (w : World) : World :=
  let w := ASSERT (!w.buffer.isError) w
  if w.buffer.mMapCallback != nullptr && mapID == w.buffer.mLastMapID then
    -- Tag the callback as fired before firing it
    let callback := w.buffer.mMapCallback
    let w := { w with buffer := { w.buffer with mMapCallback := nullptr } }
    if device.IsLost then
      app callback .DeviceLost w.buffer.mMapUserdata
        (w.emit (.mapCallback callback .DeviceLost w.buffer.mMapUserdata w.buffer))
    else
      app callback status w.buffer.mMapUserdata
        (w.emit (.mapCallback callback status w.buffer.mMapUserdata w.buffer))
  else w

/-- The second part of `BufferBase::APIMapAsync`, from the declaration of `status` on,
for the value `size` left by the first part; the callback runs as `app` says. -/
def APIMapAsync.validateAndMap (app : Application) (device : DeviceBase)
    (backend : BufferBackend) (mode offset size callback userdata : Nat) (w : World) : World :=
  let (result, status) := ValidateMapAsync device w.buffer mode offset size
  let (consumed, w) := ConsumedError result w
  if consumed then
    if callback ≠ nullptr then
      app callback status userdata (w.emit (.mapCallback callback status userdata w.buffer))
    else w
  else
    let w := ASSERT (!w.buffer.isError) w
    let w := { w with buffer := { w.buffer with
      mLastMapID := w.buffer.mLastMapID + 1
      mMapMode := mode
      mMapOffset := offset
      mMapSize := size
      mMapCallback := callback
      mMapUserdata := userdata
      mState := .Mapped } }
    let (result, w) := MapAsyncImpl backend mode offset size w
    let (consumed, w) := ConsumedError result w
    if consumed then
      CallMapCallback app device w.buffer.mLastMapID .DeviceLost w
    else
      -- std::make_unique<MapRequestTask>(this, mLastMapID), tracked on the queue
      w.emit (.trackTask w.buffer.mLastMapID device.pendingCommandSerial)

/-- The function `BufferBase::APIMapAsync`; the callback runs as `app` says. -/
def APIMapAsync (app : Application) (device : DeviceBase) (backend : BufferBackend)
    (mode offset size callback userdata : Nat) (w : World) : World :=
  let (size, w) := APIMapAsync.defaultSize offset size w
  APIMapAsync.validateAndMap app device backend mode offset size callback userdata w

/-- The function `BufferBase::OnMapRequestCompleted`; the callback runs as `app` says. -/
def OnMapRequestCompleted (app : Application) (device : DeviceBase) (mapID : Nat)
    (status : WGPUBufferMapAsyncStatus) (w : World) : World :=
  CallMapCallback app device mapID status w

/-- The function `BufferBase::UnmapInternal`; the callback runs as `app` says. The branch
is chosen on the state before the callback, and the statements after the callback act on
the buffer as the callback left it. -/
def UnmapInternal (app : Application) (device : DeviceBase) (backend : BufferBackend)
    (callbackStatus : WGPUBufferMapAsyncStatus) (w : World) : World :=
  let w :=
    if w.buffer.isError then
      -- It is an error to call Unmap() on an ErrorBuffer, but we still need to reclaim the
      -- fake mapped staging data.
      let w := ClearMappedData w
      { w with buffer := { w.buffer with mState := .Unmapped } }
    else w
  let (consumed, w) := ConsumedError (ValidateUnmap device w.buffer) w
  if consumed then w
  else
    let w := ASSERT (!w.buffer.isError) w
    let w :=
      match w.buffer.mState with
      | .Mapped =>
        let w := CallMapCallback app device w.buffer.mLastMapID callbackStatus w
        let w := UnmapImpl w
        { w with buffer := { w.buffer with mMapCallback := nullptr, mMapUserdata := 0 } }
      | .MappedAtCreation =>
        if w.buffer.mStagingBuffer.isSome then
          let (result, w) := CopyFromStagingBuffer backend w
          (ConsumedError result w).2
        else if w.buffer.mSize ≠ 0 then
          let w := ASSERT backend.isCPUWritableAtCreation w
          UnmapImpl w
        else w
      | _ => w
    { w with buffer := { w.buffer with mState := .Unmapped } }

/-- The function `BufferBase::Unmap`; the callback runs as `app` says. -/
def Unmap (app : Application) (device : DeviceBase) (backend : BufferBackend) (w : World) :
    World :=
  UnmapInternal app device backend .UnmappedBeforeCallback w

/-- The function `BufferBase::APIUnmap`; the callback runs as `app` says. -/
def APIUnmap (app : Application) (device : DeviceBase) (backend : BufferBackend)
    (w : World) : World :=
  Unmap app device backend w

/-- The function `BufferBase::APIDestroy`; the callback runs as `app` says. -/
def APIDestroy (app : Application) (device : DeviceBase) (backend : BufferBackend)
    (w : World) : World :=
  let w :=
    if w.buffer.isError then
      -- It is an error to call Destroy() on an ErrorBuffer, but we still need to reclaim
      -- the fake mapped staging data.
      let w := ClearMappedData w
      { w with buffer := { w.buffer with mState := .Destroyed } }
    else w
  let (consumed, w) := ConsumedError (ValidateDestroy device w.buffer) w
  if consumed then w
  else
    let w := ASSERT (!w.buffer.isError) w
    let w :=
      match w.buffer.mState with
      | .Mapped => UnmapInternal app device backend .DestroyedBeforeCallback w
      | .MappedAtCreation =>
        if w.buffer.mStagingBuffer.isSome then
          { w with buffer := { w.buffer with mStagingBuffer := none } }
        else if w.buffer.mSize ≠ 0 then
          let w := ASSERT backend.isCPUWritableAtCreation w
          UnmapInternal app device backend .DestroyedBeforeCallback w
        else w
      | _ => w
    DestroyInternal w

/-- The world after one call; the callbacks run as `app` says. -/
def step (app : Application) (c : Call) (w : World) : World :=
  match c.op with
  | .mapAsync mode offset size callback userdata =>
    APIMapAsync app c.device c.backend mode offset size callback userdata w
  | .getMappedRange offset size => (APIGetMappedRange c.backend offset size w).2
  | .getConstMappedRange offset size => (APIGetConstMappedRange c.backend offset size w).2
  | .unmap => APIUnmap app c.device c.backend w
  | .destroy => APIDestroy app c.device c.backend w
  | .mapRequestCompleted mapID status => OnMapRequestCompleted app c.device mapID status w

/-- The world after a sequence of calls; the callbacks run as `app` says. -/
def run (app : Application) (calls : List Call) (w : World) : World :=
  calls.foldl (fun acc c => step app c acc) w

end Reentrant

/-- The application whose callback `callback`, called with `(status, userdata)`, makes the
calls `behaviour callback status userdata` on the buffer one after the other; the
callbacks called during these calls do the same, down to `depth` levels of nesting, and
the callbacks below that level do not act on the buffer. -/
def Application.scripted (behaviour : Nat → WGPUBufferMapAsyncStatus → Nat → List Call) :
    Nat → Application
  | 0 => Application.inert
  | depth + 1 => fun callback status userdata w =>
    Reentrant.run (Application.scripted behaviour depth) (behaviour callback status userdata) w

/-! ## The validation list of the specification -/

/-- The nine checks of the validation list of `MapAsync` as the specification words them,
in the listed order: whether the check passes, the failure it reports and the status it
yields. -/
def mapAsyncChecks (device : DeviceBase) (self : BufferBase) (mode offset size : Nat) :
    List (Bool × ErrorData × WGPUBufferMapAsyncStatus) :=
  [ (device.alive, .deviceIsLost, .DeviceLost),
    (!self.isError, .objectIsInvalid, .Error),
    (decide (offset ≤ self.mSize), .offsetLargerThanSize, .Error),
    (decide (offset % 8 = 0), .offsetNotMultipleOf8, .Error),
    (decide (size % 4 = 0), .sizeNotMultipleOf4, .Error),
    (decide ((size : Int) ≤ (self.mSize : Int) - (offset : Int)), .rangeDoesNotFit, .Error),
    (decide (self.mState = .Unmapped),
      if self.mState = .Destroyed then .isDestroyed else .alreadyMapped, .Error),
    (xor (hasBit mode MapMode.Read) (hasBit mode MapMode.Write), .modeNotReadOrWrite, .Error),
    (if hasBit mode MapMode.Read then hasBit self.mUsage BufferUsage.MapRead
      else hasBit self.mUsage BufferUsage.MapWrite,
      .usageDoesNotContain
        (if hasBit mode MapMode.Read then BufferUsage.MapRead else BufferUsage.MapWrite),
      .Error) ]

/-- The outcome the validation list prescribes: that of the first check that fails, and
success with status `Success` when none does. -/
def mapAsyncFirstFailure (device : DeviceBase) (self : BufferBase) (mode offset size : Nat) :
    MaybeError × WGPUBufferMapAsyncStatus :=
  match (mapAsyncChecks device self mode offset size).find? (fun c => !c.1) with
  | some (_, e, status) => (.error e, status)
  | none => (.ok (), .Success)

/-! ## Concrete inputs -/

/-- A valid unmapped buffer of 16 bytes with usage `MapRead | CopyDst`. -/
def exampleBuffer : BufferBase :=
  { isError := false, mSize := 16, mAllocatedSize := 16, mUsage := 9, mState := .Unmapped,
    mIsDataInitialized := false, mStagingBuffer := none, mMapCallback := 0, mMapUserdata := 0,
    mLastMapID := 0, mMapMode := 0, mMapOffset := 0, mMapSize := 0, mFakeMappedData := 0 }

/-- A live device whose pending command serial is 7. -/
def exampleDevice : DeviceBase :=
  { alive := true, lost := false, validationEnabled := true,
    lazyClearResourceOnFirstUse := false,
    nonzeroClearResourcesOnCreationForTesting := false, pendingCommandSerial := 7 }

/-- A backend whose hooks succeed and whose mapped pointer is `4096`. -/
def exampleBackend : BufferBackend :=
  { isCPUWritableAtCreation := true, mapAtCreationImpl := .ok (),
    mapAsyncImpl := fun _ _ _ => .ok (), mappedPointerImpl := 4096,
    createStagingBuffer := fun size => .ok { mappedPointer := 8192, size := size },
    copyFromStagingToBuffer := .ok () }

/-- A backend like `exampleBackend` whose `MapAsyncImpl` fails. -/
def failingBackend : BufferBackend :=
  { exampleBackend with mapAsyncImpl := fun _ _ _ => .error (.backend 1) }

/-- A descriptor that fails validation: 16 bytes, usage `MapRead | MapWrite`, mapped at
creation. -/
def invalidDescriptor : BufferDescriptor :=
  { nextInChain := 0, usage := 3, size := 16, mappedAtCreation := true }

/-- A descriptor of size 0 with usage `MapWrite | CopySrc`, mapped at creation. -/
def zeroSizeDescriptor : BufferDescriptor :=
  { nextInChain := 0, usage := 6, size := 0, mappedAtCreation := true }

/-- The world of the error buffer made for `invalidDescriptor`, its scratch data at
`5000`. -/
def exampleErrorWorld : World :=
  { buffer := MakeError (fun _ => 5000) invalidDescriptor, trace := [] }

/-- Four public calls on a live device: map, read the range, unmap, destroy. -/
def examplePublicCalls : List Call :=
  [ { device := exampleDevice, backend := exampleBackend, op := .mapAsync 1 0 16 77 88 },
    { device := exampleDevice, backend := exampleBackend, op := .getMappedRange 0 16 },
    { device := exampleDevice, backend := exampleBackend, op := .unmap },
    { device := exampleDevice, backend := exampleBackend, op := .destroy } ]

/-- Calls on a live device: map, a completion of request 1, unmap, destroy, destroy, and
a late completion. -/
def exampleCalls : List Call :=
  [ { device := exampleDevice, backend := exampleBackend, op := .mapAsync 1 0 16 77 88 },
    { device := exampleDevice, backend := exampleBackend,
      op := .mapRequestCompleted 1 .Success },
    { device := exampleDevice, backend := exampleBackend, op := .unmap },
    { device := exampleDevice, backend := exampleBackend, op := .destroy },
    { device := exampleDevice, backend := exampleBackend, op := .destroy },
    { device := exampleDevice, backend := exampleBackend,
      op := .mapRequestCompleted 1 .Success } ]

/-- The world of `exampleBuffer` before any effect. -/
def exampleWorld : World := { buffer := exampleBuffer, trace := [] }

/-- The example buffer once `[0, 16)` is mapped for reading by request 1. -/
def exampleMapped : BufferBase :=
  { exampleBuffer with
    mState := .Mapped
    mMapMode := 1
    mMapOffset := 0
    mMapSize := 16
    mMapCallback := 77
    mMapUserdata := 88
    mLastMapID := 1 }

/-- A device that is lost: `ValidateIsAlive()` fails and `IsLost()` holds. -/
def lostDevice : DeviceBase :=
  { exampleDevice with
    alive := false
    lost := true }

/-- The example buffer mapped at creation through a staging buffer of 16 bytes at `8192`. -/
def exampleStaged : BufferBase :=
  { exampleBuffer with
    mState := .MappedAtCreation
    mMapOffset := 0
    mMapSize := 16
    mStagingBuffer := some { mappedPointer := 8192, size := 16 } }

/-- A backend whose buffers are not CPU-writable at creation, so that a staging buffer is
used, and whose `CopyFromStagingToBuffer` fails. -/
def stagingBackend : BufferBackend :=
  { exampleBackend with
    isCPUWritableAtCreation := false
    copyFromStagingToBuffer := .error (.backend 2) }

/-- A live device with the toggle `LazyClearResourceOnFirstUse`. -/
def lazyClearDevice : DeviceBase :=
  { exampleDevice with lazyClearResourceOnFirstUse := true }

/-- The application whose callbacks call `Unmap()` on the buffer (live device). -/
def unmapInCallback : Application :=
  Application.scripted
    (fun _ _ _ => [{ device := exampleDevice, backend := exampleBackend, op := .unmap }]) 1

/-- The application whose callbacks call `Destroy()` on the buffer (live device). -/
def destroyInCallback : Application :=
  Application.scripted
    (fun _ _ _ => [{ device := exampleDevice, backend := exampleBackend, op := .destroy }]) 1

/-! ## Shared lemmas -/

theorem u64sub_eq_sub {a b : Nat} (ha : a < 2 ^ 64) (hb : b ≤ a) : u64sub a b = a - b := by
  unfold u64sub
  have h : a + 2 ^ 64 - b = (a - b) + 2 ^ 64 := by omega
  rw [h, Nat.add_mod_right]
  exact Nat.mod_eq_of_lt (by omega)

theorem defaultSize_buffer (offset size : Nat) (w : World) :
    (APIMapAsync.defaultSize offset size w).2.buffer = w.buffer := by
  unfold APIMapAsync.defaultSize
  by_cases h : size = 0 <;> simp [h, World.emit] <;> split <;> simp

theorem defaultSize_trace (offset size : Nat) (w : World) :
    (APIMapAsync.defaultSize offset size w).2.trace
      = w.trace ++ (if size = 0 then [Event.deprecationWarning] else []) := by
  unfold APIMapAsync.defaultSize
  by_cases h : size = 0 <;> simp [h, World.emit] <;> split <;> simp

theorem defaultSize_fst (offset size : Nat) (w : World) :
    (APIMapAsync.defaultSize offset size w).1
      = if (size = 0 ∨ size = kWholeMapSize) ∧ offset ≤ w.buffer.mSize
          then u64sub w.buffer.mSize offset
        else if size = 0 then kWholeMapSize else size := by
  unfold APIMapAsync.defaultSize
  by_cases h : size = 0
  · simp [h, World.emit]; split <;> simp
  · simp [h]; split <;> simp

theorem ValidateMapAsync_ok_imp {device : DeviceBase} {self : BufferBase}
    {mode offset size : Nat}
    (h : (ValidateMapAsync device self mode offset size).1 = .ok ()) :
    device.alive = true ∧ self.isError = false ∧ offset ≤ self.mSize ∧
      self.mState = .Unmapped ∧ size % 4 = 0 ∧ offset % 8 = 0 ∧
      ¬ (size > u64sub self.mSize offset) := by
  unfold ValidateMapAsync DeviceBase.ValidateIsAlive DeviceBase.ValidateObject at h
  cases hA : device.alive <;> simp [hA] at h
  cases hE : self.isError <;> simp [hE] at h
  by_cases h3 : offset > self.mSize
  · simp [h3] at h
  by_cases h4 : offset % 8 = 0 <;> simp [h3, h4] at h
  by_cases h5 : size % 4 = 0 <;> simp [h5] at h
  by_cases h6 : size > u64sub self.mSize offset
  · simp [h6] at h
  cases hS : self.mState <;> simp [hS, h6] at h
  exact ⟨rfl, rfl, by omega, rfl, h5, h4, h6⟩

theorem rangeTest_iff (self : BufferBase) (offset size : Nat)
    (hOffset : offset < 2 ^ 64) (hMap : self.mMapSize < 2 ^ 64) :
    CanGetMappedRange.rangeTest self offset size = true ↔
      offset % 8 = 0 ∧ size % 4 = 0 ∧ self.mMapOffset ≤ offset ∧
        offset + size ≤ self.mMapOffset + self.mMapSize := by
  unfold CanGetMappedRange.rangeTest
  by_cases h1 : offset % 8 ≠ 0 ∨ size % 4 ≠ 0
  · simp only [h1, if_true]
    constructor
    · intro h; cases h
    · rintro ⟨a, b, -, -⟩; omega
  by_cases h2 : size > self.mMapSize ∨ offset < self.mMapOffset
  · simp only [h1, h2, if_true, if_false]
    constructor
    · intro h; cases h
    · rintro ⟨-, -, a, b⟩; omega
  have hs : size ≤ self.mMapSize := by omega
  have ho : self.mMapOffset ≤ offset := by omega
  simp only [h1, h2, if_false, u64sub_eq_sub hOffset ho, u64sub_eq_sub hMap hs]
  by_cases h3 : offset - self.mMapOffset > self.mMapSize - size
  · simp only [h3, if_true]
    constructor
    · intro h; cases h
    · rintro ⟨-, -, a, b⟩; omega
  · simp only [h3, if_false, true_iff]
    omega

theorem GetMappedRange_nonnull {backend : BufferBackend} {offset size : Nat} {writable : Bool}
    {w : World} (h : (GetMappedRange backend offset size writable w).1 ≠ nullptr) :
    CanGetMappedRange.rangeTest w.buffer offset size = true ∧
      (w.buffer.mState = .MappedAtCreation ∨ w.buffer.mState = .Mapped) := by
  unfold GetMappedRange at h
  by_cases hc : CanGetMappedRange w.buffer writable offset size = true
  · unfold CanGetMappedRange at hc
    by_cases ht : CanGetMappedRange.rangeTest w.buffer offset size = true
    · refine ⟨ht, ?_⟩
      cases hS : w.buffer.mState <;> simp [ht, hS] at hc ⊢
    · simp [ht] at hc
  · simp [hc] at h

theorem CallMapCallback_eq (device : DeviceBase) (mapID : Nat)
    (status : WGPUBufferMapAsyncStatus) (w : World) :
    CallMapCallback device mapID status w =
      if w.buffer.mMapCallback ≠ nullptr ∧ mapID = w.buffer.mLastMapID then
        { buffer := { w.buffer with mMapCallback := nullptr },
          trace := w.trace ++ (if w.buffer.isError then [Event.assertFailed] else []) ++
            [Event.mapCallback w.buffer.mMapCallback
              (if device.lost then .DeviceLost else status) w.buffer.mMapUserdata
              { w.buffer with mMapCallback := nullptr }] }
      else
        { buffer := w.buffer,
          trace := w.trace ++ (if w.buffer.isError then [Event.assertFailed] else []) } := by
  unfold CallMapCallback ASSERT DeviceBase.IsLost World.emit
  cases hE : w.buffer.isError <;> cases hL : device.lost <;>
    by_cases hf : w.buffer.mMapCallback ≠ nullptr ∧ mapID = w.buffer.mLastMapID <;>
    simp [hf]

theorem CallMapCallback_buffer (device : DeviceBase) (mapID : Nat)
    (status : WGPUBufferMapAsyncStatus) (w : World) :
    ∃ cb, (cb = w.buffer.mMapCallback ∨ cb = nullptr) ∧
      (CallMapCallback device mapID status w).buffer = { w.buffer with mMapCallback := cb } := by
  rw [CallMapCallback_eq]
  split
  · exact ⟨nullptr, Or.inr rfl, rfl⟩
  · exact ⟨w.buffer.mMapCallback, Or.inl rfl, rfl⟩

theorem validateAndMap_error {device : DeviceBase} {backend : BufferBackend}
    {mode offset size callback userdata : Nat} {w : World} {e : ErrorData}
    (h : (ValidateMapAsync device w.buffer mode offset size).1 = .error e) :
    APIMapAsync.validateAndMap device backend mode offset size callback userdata w =
      { buffer := w.buffer,
        trace := w.trace ++ [Event.consumedError e] ++
          (if callback = nullptr then []
            else [Event.mapCallback callback
              (ValidateMapAsync device w.buffer mode offset size).2 userdata w.buffer]) } := by
  unfold APIMapAsync.validateAndMap
  generalize ValidateMapAsync device w.buffer mode offset size = v at *
  obtain ⟨res, st⟩ := v
  simp only at h
  subst h
  by_cases hc : callback = nullptr <;> simp [ConsumedError, World.emit, hc]

theorem validateAndMap_ok {device : DeviceBase} {backend : BufferBackend}
    {mode offset size callback userdata : Nat} {w : World}
    (h : (ValidateMapAsync device w.buffer mode offset size).1 = .ok ()) :
    APIMapAsync.validateAndMap device backend mode offset size callback userdata w =
      match backend.mapAsyncImpl mode offset size with
      | .ok _ =>
        { buffer := { w.buffer with
            mLastMapID := w.buffer.mLastMapID + 1
            mMapMode := mode
            mMapOffset := offset
            mMapSize := size
            mMapCallback := callback
            mMapUserdata := userdata
            mState := .Mapped },
          trace := w.trace ++ [Event.hook .MapAsyncImpl [mode, offset, size],
            Event.trackTask (w.buffer.mLastMapID + 1) device.pendingCommandSerial] }
      | .error e =>
        { buffer := { w.buffer with
            mLastMapID := w.buffer.mLastMapID + 1
            mMapMode := mode
            mMapOffset := offset
            mMapSize := size
            mMapCallback := nullptr
            mMapUserdata := userdata
            mState := .Mapped },
          trace := w.trace ++ [Event.hook .MapAsyncImpl [mode, offset, size],
            Event.consumedError e] ++
            (if callback = nullptr then []
              else [Event.mapCallback callback .DeviceLost userdata
                { w.buffer with
                  mLastMapID := w.buffer.mLastMapID + 1
                  mMapMode := mode
                  mMapOffset := offset
                  mMapSize := size
                  mMapCallback := nullptr
                  mMapUserdata := userdata
                  mState := .Mapped }]) } := by
  obtain ⟨_, hE, -⟩ := ValidateMapAsync_ok_imp h
  unfold APIMapAsync.validateAndMap
  generalize ValidateMapAsync device w.buffer mode offset size = v at *
  obtain ⟨res, st⟩ := v
  simp only at h
  subst h
  cases hI : backend.mapAsyncImpl mode offset size with
  | ok u => simp [ConsumedError, World.emit, ASSERT, MapAsyncImpl, hE, hI]
  | error e =>
    by_cases hc : callback = nullptr
    · simp [ConsumedError, World.emit, ASSERT, MapAsyncImpl, hE, hI, CallMapCallback_eq, hc]
    · cases hL : device.lost <;>
        simp [ConsumedError, World.emit, ASSERT, MapAsyncImpl, hE, hI, CallMapCallback_eq, hc, hL]

theorem validateAndMap_frame (device : DeviceBase) (backend : BufferBackend)
    (mode offset size callback userdata : Nat) (b : BufferBase) (t : List Event) :
    APIMapAsync.validateAndMap device backend mode offset size callback userdata
        { buffer := b, trace := t } =
      { buffer := (APIMapAsync.validateAndMap device backend mode offset size callback
          userdata { buffer := b, trace := [] }).buffer,
        trace := t ++ (APIMapAsync.validateAndMap device backend mode offset size callback
          userdata { buffer := b, trace := [] }).trace } := by
  cases hv : (ValidateMapAsync device b mode offset size).1 with
  | error e =>
    rw [validateAndMap_error (w := { buffer := b, trace := t }) hv,
      validateAndMap_error (w := { buffer := b, trace := [] }) hv]
    simp
  | ok u =>
    rw [validateAndMap_ok (w := { buffer := b, trace := t }) hv,
      validateAndMap_ok (w := { buffer := b, trace := [] }) hv]
    cases hI : backend.mapAsyncImpl mode offset size <;> simp

theorem ValidateMapAsync_ok_of {device : DeviceBase} {self : BufferBase}
    {mode offset size : Nat} (hSize : self.mSize < 2 ^ 64)
    (hAlive : device.alive = true) (hValid : self.isError = false)
    (hState : self.mState = .Unmapped) (hOff : offset % 8 = 0) (hSz : size % 4 = 0)
    (hFit : offset + size ≤ self.mSize)
    (hMode : hasBit mode MapMode.Read ≠ hasBit mode MapMode.Write)
    (hRead : hasBit mode MapMode.Read = true → hasBit self.mUsage BufferUsage.MapRead = true)
    (hWrite : hasBit mode MapMode.Write = true →
      hasBit self.mUsage BufferUsage.MapWrite = true) :
    (ValidateMapAsync device self mode offset size).1 = .ok () := by
  have h3 : ¬ offset > self.mSize := by omega
  have h3' : offset ≤ self.mSize := by omega
  have h6 : ¬ size > self.mSize - offset := by omega
  unfold ValidateMapAsync DeviceBase.ValidateIsAlive DeviceBase.ValidateObject
  simp only [hAlive, hValid, if_true, h3, if_false, hOff, hSz, u64sub_eq_sub hSize h3', h6,
    hState, ne_eq, not_true_eq_false, Bool.false_eq_true]
  cases hR : hasBit mode MapMode.Read <;> cases hW : hasBit mode MapMode.Write <;>
    simp_all

theorem APIMapAsync_eq_validateAndMap (device : DeviceBase) (backend : BufferBackend)
    (mode offset size callback userdata : Nat) (w : World) :
    APIMapAsync device backend mode offset size callback userdata w =
      APIMapAsync.validateAndMap device backend mode offset
        (APIMapAsync.defaultSize offset size w).1 callback userdata
        { buffer := w.buffer,
          trace := w.trace ++ (if size = 0 then [Event.deprecationWarning] else []) } := by
  have hb := defaultSize_buffer offset size w
  have ht := defaultSize_trace offset size w
  unfold APIMapAsync
  generalize APIMapAsync.defaultSize offset size w = p at *
  obtain ⟨sz, w1⟩ := p
  obtain ⟨b1, t1⟩ := w1
  simp only at hb ht ⊢
  rw [hb, ht]

theorem APIMapAsync_ok_buffer {device : DeviceBase} (backend : BufferBackend)
    {mode offset size : Nat} (callback userdata : Nat) {w : World}
    (hok : (ValidateMapAsync device w.buffer mode offset
      (APIMapAsync.defaultSize offset size w).1).1 = .ok ()) :
    ∃ cb, (cb = callback ∨ cb = nullptr) ∧
      (APIMapAsync device backend mode offset size callback userdata w).buffer =
        { w.buffer with
          mLastMapID := w.buffer.mLastMapID + 1
          mMapMode := mode
          mMapOffset := offset
          mMapSize := (APIMapAsync.defaultSize offset size w).1
          mMapCallback := cb
          mMapUserdata := userdata
          mState := .Mapped } := by
  rw [APIMapAsync_eq_validateAndMap, validateAndMap_ok (w := ⟨w.buffer,
      w.trace ++ (if size = 0 then [Event.deprecationWarning] else [])⟩) hok]
  cases hI : backend.mapAsyncImpl mode offset (APIMapAsync.defaultSize offset size w).1 with
  | ok u => exact ⟨callback, Or.inl rfl, rfl⟩
  | error e => exact ⟨nullptr, Or.inr rfl, rfl⟩

theorem APIMapAsync_error_buffer {device : DeviceBase} {backend : BufferBackend}
    {mode offset size callback userdata : Nat} {w : World} {e : ErrorData}
    (hfail : (ValidateMapAsync device w.buffer mode offset
      (APIMapAsync.defaultSize offset size w).1).1 = .error e) :
    (APIMapAsync device backend mode offset size callback userdata w).buffer = w.buffer := by
  rw [APIMapAsync_eq_validateAndMap, validateAndMap_error (w := ⟨w.buffer,
      w.trace ++ (if size = 0 then [Event.deprecationWarning] else [])⟩) hfail]

theorem kWholeMapSize_mod : kWholeMapSize % 4 = 3 := by decide

theorem kWholeMapSize_ne_zero : kWholeMapSize ≠ 0 := by decide

theorem APIMapAsync_frame (device : DeviceBase) (backend : BufferBackend)
    (mode offset size callback userdata : Nat) (b : BufferBase) (t : List Event) :
    APIMapAsync device backend mode offset size callback userdata { buffer := b, trace := t } =
      { buffer := (APIMapAsync device backend mode offset size callback userdata
          { buffer := b, trace := [] }).buffer,
        trace := t ++ (APIMapAsync device backend mode offset size callback userdata
          { buffer := b, trace := [] }).trace } := by
  have hd : (APIMapAsync.defaultSize offset size { buffer := b, trace := t }).1
      = (APIMapAsync.defaultSize offset size { buffer := b, trace := [] }).1 := by
    rw [defaultSize_fst, defaultSize_fst]
  rw [APIMapAsync_eq_validateAndMap, APIMapAsync_eq_validateAndMap, hd, validateAndMap_frame]
  conv_rhs => rw [validateAndMap_frame]
  simp

theorem runCompletions_buffer (cs : List (DeviceBase × Nat × WGPUBufferMapAsyncStatus))
    (w : World) :
    ∃ cb, (cb = w.buffer.mMapCallback ∨ cb = nullptr) ∧
      (runCompletions cs w).buffer = { w.buffer with mMapCallback := cb } := by
  unfold runCompletions
  induction cs generalizing w with
  | nil => exact ⟨w.buffer.mMapCallback, Or.inl rfl, rfl⟩
  | cons c cs ih =>
    obtain ⟨cb1, h1, hb1⟩ := CallMapCallback_buffer c.1 c.2.1 c.2.2 w
    obtain ⟨cb2, h2, hb2⟩ := ih (OnMapRequestCompleted c.1 c.2.1 c.2.2 w)
    refine ⟨cb2, ?_, ?_⟩
    · unfold OnMapRequestCompleted at h2
      rw [hb1] at h2
      rcases h2 with h2 | h2
      · rcases h1 with h1 | h1
        · exact Or.inl (h2.trans h1)
        · exact Or.inr (h2.trans h1)
      · exact Or.inr h2
    · rw [List.foldl_cons, hb2]
      unfold OnMapRequestCompleted
      rw [hb1]

theorem ValidateMapAsync_not_unmapped {device : DeviceBase} {self : BufferBase}
    {mode offset size : Nat} (h : self.mState ≠ .Unmapped) :
    (ValidateMapAsync device self mode offset size).1 ≠ .ok () := fun hok =>
  h (ValidateMapAsync_ok_imp hok).2.2.2.1

theorem ValidateMapAsync_alreadyMapped {device : DeviceBase} {self : BufferBase}
    {mode offset size : Nat} (hSize : self.mSize < 2 ^ 64)
    (hAlive : device.alive = true) (hValid : self.isError = false)
    (hOffset : offset ≤ self.mSize) (hOff : offset % 8 = 0) (hSz : size % 4 = 0)
    (hFit : size ≤ self.mSize - offset)
    (hState : self.mState = .Mapped ∨ self.mState = .MappedAtCreation) :
    (ValidateMapAsync device self mode offset size).1 = .error .alreadyMapped := by
  have h3 : ¬ offset > self.mSize := by omega
  have h6 : ¬ size > self.mSize - offset := by omega
  unfold ValidateMapAsync DeviceBase.ValidateIsAlive DeviceBase.ValidateObject
  simp only [hAlive, hValid, if_true, h3, if_false, hOff, hSz, u64sub_eq_sub hSize hOffset,
    h6, ne_eq, not_true_eq_false, Bool.false_eq_true]
  rcases hState with hS | hS <;> simp [hS]

theorem ValidateUnmap_error_buffer (device : DeviceBase) (self : BufferBase)
    (hE : self.isError = true) :
    ValidateUnmap device self
      = .error (if device.alive then .objectIsInvalid else .deviceIsLost) := by
  unfold ValidateUnmap DeviceBase.ValidateIsAlive DeviceBase.ValidateObject
  cases hA : device.alive <;> simp [hE]

theorem ValidateUnmap_ok_iff (device : DeviceBase) (self : BufferBase) :
    ValidateUnmap device self = .ok () ↔
      device.alive = true ∧ self.isError = false ∧
        (self.mState = .Mapped ∨ self.mState = .MappedAtCreation) := by
  unfold ValidateUnmap DeviceBase.ValidateIsAlive DeviceBase.ValidateObject
  cases hA : device.alive <;> cases hE : self.isError <;> cases hS : self.mState <;> simp

theorem UnmapInternal_error_buffer (device : DeviceBase) (backend : BufferBackend)
    (status : WGPUBufferMapAsyncStatus) (w : World) (hE : w.buffer.isError = true) :
    UnmapInternal device backend status w =
      { buffer := { w.buffer with mFakeMappedData := nullptr, mState := .Unmapped },
        trace := w.trace ++
          [Event.consumedError (if device.alive then .objectIsInvalid else .deviceIsLost)] } := by
  unfold UnmapInternal
  simp only [hE, if_true, ClearMappedData]
  rw [ValidateUnmap_error_buffer _ _ rfl]
  simp [ConsumedError, World.emit]

theorem UnmapInternal_valid_eq (device : DeviceBase) (backend : BufferBackend)
    (status : WGPUBufferMapAsyncStatus) (w : World) (hE : w.buffer.isError = false) :
    UnmapInternal device backend status w =
      match ValidateUnmap device w.buffer with
      | .error e => w.emit (.consumedError e)
      | .ok _ =>
        match w.buffer.mState with
        | .Mapped =>
          { buffer := { (UnmapImpl (CallMapCallback device w.buffer.mLastMapID status w)).buffer
              with mMapCallback := nullptr, mMapUserdata := 0, mState := .Unmapped },
            trace := (UnmapImpl (CallMapCallback device w.buffer.mLastMapID status w)).trace }
        | .MappedAtCreation =>
          if w.buffer.mStagingBuffer.isSome then
            { buffer := { (ConsumedError (CopyFromStagingBuffer backend w).1
                (CopyFromStagingBuffer backend w).2).2.buffer with mState := .Unmapped },
              trace := (ConsumedError (CopyFromStagingBuffer backend w).1
                (CopyFromStagingBuffer backend w).2).2.trace }
          else if w.buffer.mSize ≠ 0 then
            { buffer := { (UnmapImpl (ASSERT backend.isCPUWritableAtCreation w)).buffer
                with mState := .Unmapped },
              trace := (UnmapImpl (ASSERT backend.isCPUWritableAtCreation w)).trace }
          else { buffer := { w.buffer with mState := .Unmapped }, trace := w.trace }
        | _ => { buffer := { w.buffer with mState := .Unmapped }, trace := w.trace } := by
  unfold UnmapInternal
  simp only [hE, Bool.false_eq_true, if_false]
  cases hv : ValidateUnmap device w.buffer with
  | error e => simp [ConsumedError]
  | ok u =>
    simp only [ConsumedError, Bool.false_eq_true, if_false, ASSERT, hE, Bool.not_false, if_true]
    cases hS : w.buffer.mState <;> simp only []
    all_goals first
      | (simp [hE]; done)
      | (split <;> first | (simp [hE]; done) | (split <;> simp [hE]))

theorem UnmapInternal_invalid (device : DeviceBase) (backend : BufferBackend)
    (status : WGPUBufferMapAsyncStatus) (w : World) (e : ErrorData)
    (hE : w.buffer.isError = false) (hv : ValidateUnmap device w.buffer = .error e) :
    UnmapInternal device backend status w =
      { buffer := w.buffer, trace := w.trace ++ [Event.consumedError e] } := by
  rw [UnmapInternal_valid_eq _ _ _ _ hE, hv]
  rfl

theorem UnmapInternal_mapped (device : DeviceBase) (backend : BufferBackend)
    (status : WGPUBufferMapAsyncStatus) (w : World)
    (hA : device.alive = true) (hE : w.buffer.isError = false)
    (hS : w.buffer.mState = .Mapped) :
    UnmapInternal device backend status w =
      { buffer := { w.buffer with
          mMapCallback := nullptr
          mMapUserdata := 0
          mState := .Unmapped },
        trace := w.trace ++
          (if w.buffer.mMapCallback = nullptr then []
            else [Event.mapCallback w.buffer.mMapCallback
              (if device.lost then .DeviceLost else status) w.buffer.mMapUserdata
              { w.buffer with mMapCallback := nullptr }]) ++
          [Event.hook .UnmapImpl []] } := by
  have hv : ValidateUnmap device w.buffer = .ok () :=
    (ValidateUnmap_ok_iff _ _).mpr ⟨hA, hE, Or.inl hS⟩
  rw [UnmapInternal_valid_eq _ _ _ _ hE, hv]
  simp only [hS, CallMapCallback_eq, UnmapImpl, World.emit]
  by_cases hc : w.buffer.mMapCallback = nullptr <;> simp [hc, hE]

theorem UnmapInternal_mappedAtCreation (device : DeviceBase) (backend : BufferBackend)
    (status : WGPUBufferMapAsyncStatus) (w : World)
    (hA : device.alive = true) (hE : w.buffer.isError = false)
    (hS : w.buffer.mState = .MappedAtCreation) :
    ∃ (staging : Option StagingBufferBase) (events : List Event),
      UnmapInternal device backend status w =
        { buffer := { w.buffer with mStagingBuffer := staging, mState := .Unmapped },
          trace := w.trace ++ events } ∧
      ∀ e ∈ events, e.isMapCallback = false ∧ e.isHook .DestroyImpl = false := by
  have hv : ValidateUnmap device w.buffer = .ok () :=
    (ValidateUnmap_ok_iff _ _).mpr ⟨hA, hE, Or.inr hS⟩
  rw [UnmapInternal_valid_eq _ _ _ _ hE, hv]
  simp only [hS]
  cases hst : w.buffer.mStagingBuffer with
  | none =>
    by_cases h0 : w.buffer.mSize = 0
    · refine ⟨none, [], ?_, by simp⟩
      simp [h0, hst]
    · cases hw : backend.isCPUWritableAtCreation
      · refine ⟨none, [Event.assertFailed, Event.hook .UnmapImpl []], ?_, ?_⟩
        · simp [h0, hst, hE, ASSERT, UnmapImpl, World.emit]
        · simp [Event.isMapCallback, Event.isHook]
      · refine ⟨none, [Event.hook .UnmapImpl []], ?_, ?_⟩
        · simp [h0, hst, hE, ASSERT, UnmapImpl, World.emit]
        · simp [Event.isMapCallback, Event.isHook]
  | some s =>
    by_cases h0 : w.buffer.mSize = 0
    · refine ⟨some s, [Event.assertFailed], ?_, ?_⟩
      · simp [h0, hst, hE, ASSERT, CopyFromStagingBuffer, ConsumedError, World.emit]
      · simp [Event.isMapCallback, Event.isHook]
    · by_cases ha : w.buffer.mAllocatedSize = 0
      · cases hc : backend.copyFromStagingToBuffer with
        | error e =>
          refine ⟨some s, [Event.assertFailed, Event.copyFromStagingToBuffer (some s) 0 0 0,
            Event.consumedError e], ?_, ?_⟩
          · simp [h0, hst, hE, ha, hc, ASSERT, CopyFromStagingBuffer, ConsumedError, World.emit,
              GetAllocatedSize]
          · simp [Event.isMapCallback, Event.isHook]
        | ok u =>
          refine ⟨none, [Event.assertFailed, Event.copyFromStagingToBuffer (some s) 0 0 0,
            Event.releaseStagingBuffer (some s)], ?_, ?_⟩
          · simp [h0, hst, hE, ha, hc, ASSERT, CopyFromStagingBuffer, ConsumedError, World.emit,
              GetAllocatedSize]
          · simp [Event.isMapCallback, Event.isHook]
      · cases hc : backend.copyFromStagingToBuffer with
        | error e =>
          refine ⟨some s, [Event.copyFromStagingToBuffer (some s) 0 0 w.buffer.mAllocatedSize,
            Event.consumedError e], ?_, ?_⟩
          · simp [h0, hst, hE, ha, hc, ASSERT, CopyFromStagingBuffer, ConsumedError, World.emit,
              GetAllocatedSize]
          · simp [Event.isMapCallback, Event.isHook]
        | ok u =>
          refine ⟨none, [Event.copyFromStagingToBuffer (some s) 0 0 w.buffer.mAllocatedSize,
            Event.releaseStagingBuffer (some s)], ?_, ?_⟩
          · simp [h0, hst, hE, ha, hc, ASSERT, CopyFromStagingBuffer, ConsumedError, World.emit,
              GetAllocatedSize]
          · simp [Event.isMapCallback, Event.isHook]

theorem APIDestroy_error_buffer (device : DeviceBase) (backend : BufferBackend) (w : World)
    (hE : w.buffer.isError = true) :
    APIDestroy device backend w =
      { buffer := { w.buffer with mFakeMappedData := nullptr, mState := .Destroyed },
        trace := w.trace ++ [Event.consumedError .objectIsInvalid] } := by
  unfold APIDestroy
  simp [hE, ClearMappedData, ValidateDestroy, DeviceBase.ValidateObject, ConsumedError,
    World.emit]

theorem APIDestroy_valid_eq (device : DeviceBase) (backend : BufferBackend) (w : World)
    (hE : w.buffer.isError = false) :
    APIDestroy device backend w =
      DestroyInternal
        (match w.buffer.mState with
        | .Mapped => UnmapInternal device backend .DestroyedBeforeCallback w
        | .MappedAtCreation =>
          if w.buffer.mStagingBuffer.isSome then
            { buffer := { w.buffer with mStagingBuffer := none }, trace := w.trace }
          else if w.buffer.mSize ≠ 0 then
            UnmapInternal device backend .DestroyedBeforeCallback
              (ASSERT backend.isCPUWritableAtCreation w)
          else w
        | _ => w) := by
  unfold APIDestroy
  simp only [hE, Bool.false_eq_true, if_false, ValidateDestroy, DeviceBase.ValidateObject,
    ConsumedError, ASSERT, Bool.not_false, if_true]

theorem DestroyInternal_eq (w : World) :
    DestroyInternal w =
      { buffer := { w.buffer with mState := .Destroyed },
        trace := w.trace ++
          (if w.buffer.mState = .Destroyed then []
            else if w.buffer.isError then [Event.unreachable .DestroyImpl]
            else [Event.hook .DestroyImpl []]) } := by
  unfold DestroyInternal DestroyImpl World.emit
  by_cases hS : w.buffer.mState = .Destroyed
  · simp [hS]
  · cases hE : w.buffer.isError <;> simp [hS, hE]

theorem APIDestroy_destroyed (device : DeviceBase) (backend : BufferBackend) (w : World)
    (hE : w.buffer.isError = false) (hS : w.buffer.mState = .Destroyed) :
    APIDestroy device backend w = w := by
  rw [APIDestroy_valid_eq _ _ _ hE]
  simp only [hS, DestroyInternal_eq]
  obtain ⟨b, t⟩ := w
  obtain ⟨⟩ := b
  simp only at hS
  subst hS
  simp

theorem APIDestroy_unmapped (device : DeviceBase) (backend : BufferBackend) (w : World)
    (hE : w.buffer.isError = false) (hS : w.buffer.mState = .Unmapped) :
    APIDestroy device backend w =
      { buffer := { w.buffer with mState := .Destroyed },
        trace := w.trace ++ [Event.hook .DestroyImpl []] } := by
  rw [APIDestroy_valid_eq _ _ _ hE]
  simp only [hS, DestroyInternal_eq]
  simp [hE]

theorem APIDestroy_mapped_alive (device : DeviceBase) (backend : BufferBackend) (w : World)
    (hA : device.alive = true) (hE : w.buffer.isError = false)
    (hS : w.buffer.mState = .Mapped) :
    APIDestroy device backend w =
      { buffer := { w.buffer with
          mMapCallback := nullptr
          mMapUserdata := 0
          mState := .Destroyed },
        trace := w.trace ++
          (if w.buffer.mMapCallback = nullptr then []
            else [Event.mapCallback w.buffer.mMapCallback
              (if device.lost then .DeviceLost else .DestroyedBeforeCallback)
              w.buffer.mMapUserdata
              { w.buffer with mMapCallback := nullptr }]) ++
          [Event.hook .UnmapImpl [], Event.hook .DestroyImpl []] } := by
  rw [APIDestroy_valid_eq _ _ _ hE]
  simp only [hS, UnmapInternal_mapped _ _ _ _ hA hE hS, DestroyInternal_eq]
  simp [hE]

theorem APIDestroy_mapped_dead (device : DeviceBase) (backend : BufferBackend) (w : World)
    (hA : device.alive = false) (hE : w.buffer.isError = false)
    (hS : w.buffer.mState = .Mapped) :
    APIDestroy device backend w =
      { buffer := { w.buffer with mState := .Destroyed },
        trace := w.trace ++
          [Event.consumedError .deviceIsLost, Event.hook .DestroyImpl []] } := by
  have hv : ValidateUnmap device w.buffer = .error .deviceIsLost := by
    simp [ValidateUnmap, DeviceBase.ValidateIsAlive, hA]
  rw [APIDestroy_valid_eq _ _ _ hE]
  simp only [hS, UnmapInternal_invalid _ _ _ _ _ hE hv, DestroyInternal_eq]
  simp [hE]

theorem APIDestroy_mappedAtCreation (device : DeviceBase) (backend : BufferBackend)
    (w : World) (hE : w.buffer.isError = false) (hS : w.buffer.mState = .MappedAtCreation) :
    ∃ (staging : Option StagingBufferBase) (events : List Event),
      APIDestroy device backend w =
        { buffer := { w.buffer with mStagingBuffer := staging, mState := .Destroyed },
          trace := w.trace ++ events ++ [Event.hook .DestroyImpl []] } ∧
      ∀ e ∈ events, e.isMapCallback = false ∧ e.isHook .DestroyImpl = false := by
  rw [APIDestroy_valid_eq _ _ _ hE]
  simp only [hS]
  cases hst : w.buffer.mStagingBuffer with
  | some s =>
    refine ⟨none, [], ?_, by simp⟩
    simp [DestroyInternal_eq, hE]
  | none =>
    by_cases h0 : w.buffer.mSize = 0
    · refine ⟨none, [], ?_, by simp⟩
      simp [h0, DestroyInternal_eq, hE, hS, hst]
    · simp only [Option.isSome_none, Bool.false_eq_true, if_false, ne_eq, h0,
        not_false_eq_true, if_true]
      have hE' : (ASSERT backend.isCPUWritableAtCreation w).buffer.isError = false := by
        unfold ASSERT; split <;> simp [World.emit, hE]
      have hS' : (ASSERT backend.isCPUWritableAtCreation w).buffer.mState
          = .MappedAtCreation := by
        unfold ASSERT; split <;> simp [World.emit, hS]
      have hb' : (ASSERT backend.isCPUWritableAtCreation w).buffer = w.buffer := by
        unfold ASSERT; split <;> simp [World.emit]
      have ht' : ∃ a, (ASSERT backend.isCPUWritableAtCreation w).trace = w.trace ++ a ∧
          ∀ e ∈ a, e.isMapCallback = false ∧ e.isHook .DestroyImpl = false := by
        unfold ASSERT; split
        · exact ⟨[], by simp, by simp⟩
        · exact ⟨[Event.assertFailed], by simp [World.emit],
            by simp [Event.isMapCallback, Event.isHook]⟩
      obtain ⟨a, hta, hpa⟩ := ht'
      cases hA : device.alive
      · have hv : ValidateUnmap device (ASSERT backend.isCPUWritableAtCreation w).buffer
            = .error .deviceIsLost := by
          simp [ValidateUnmap, DeviceBase.ValidateIsAlive, hA]
        refine ⟨none, a ++ [Event.consumedError .deviceIsLost], ?_, ?_⟩
        · rw [UnmapInternal_invalid _ _ _ _ _ hE' hv, DestroyInternal_eq]
          simp [hb', hta, hS, hE, hst]
        · intro e he
          rcases List.mem_append.mp he with h | h
          · exact hpa e h
          · simp at h; subst h; simp [Event.isMapCallback, Event.isHook]
      · obtain ⟨st, ev, heq, hp⟩ := UnmapInternal_mappedAtCreation device backend
          .DestroyedBeforeCallback _ hA hE' hS'
        refine ⟨st, a ++ ev, ?_, ?_⟩
        · rw [heq, DestroyInternal_eq]
          simp [hb', hta, hE]
        · intro e he
          rcases List.mem_append.mp he with h | h
          · exact hpa e h
          · exact hp e h

theorem runCompletions_no_callback (completions : List (DeviceBase × Nat × WGPUBufferMapAsyncStatus))
    (w : World) (hE : w.buffer.isError = false) (hc : w.buffer.mMapCallback = nullptr) :
    runCompletions completions w = w := by
  unfold runCompletions
  induction completions with
  | nil => rfl
  | cons c cs ih =>
    have h1 : OnMapRequestCompleted c.1 c.2.1 c.2.2 w = w := by
      unfold OnMapRequestCompleted
      rw [CallMapCallback_eq]
      simp [hc, hE]
    rw [List.foldl_cons, h1]
    exact ih

theorem GetMappedRange_of_not_mapped (backend : BufferBackend) (offset size : Nat)
    (writable : Bool) (w : World)
    (h : w.buffer.mState = .Unmapped ∨ w.buffer.mState = .Destroyed) :
    GetMappedRange backend offset size writable w = (nullptr, w) := by
  have hc : CanGetMappedRange w.buffer writable offset size = false := by
    unfold CanGetMappedRange
    rcases h with h | h <;> simp [h]
  unfold GetMappedRange
  simp [hc]

theorem not_subset_of_MapRead_MapWrite (usage : Nat)
    (hR : hasBit usage BufferUsage.MapRead = true)
    (hS : IsSubset usage (BufferUsage.MapWrite ||| BufferUsage.CopySrc) = true) : False := by
  unfold IsSubset at hS
  unfold hasBit at hR
  have h1 : usage &&& (BufferUsage.MapWrite ||| BufferUsage.CopySrc) = usage := by
    simpa using hS
  have h2 : usage &&& BufferUsage.MapRead
      = usage &&& ((BufferUsage.MapWrite ||| BufferUsage.CopySrc) &&& BufferUsage.MapRead) := by
    rw [← Nat.land_assoc, h1]
  have h3 : (BufferUsage.MapWrite ||| BufferUsage.CopySrc) &&& BufferUsage.MapRead = 0 := by
    decide
  rw [h3] at h2
  have h4 : usage &&& BufferUsage.MapRead = 0 := by simpa using h2
  simp [h4] at hR

theorem run_nil (w : World) : run [] w = w := rfl

theorem run_cons (c : Call) (cs : List Call) (w : World) :
    run (c :: cs) w = run cs (step c w) := rfl

theorem run_append (as bs : List Call) (w : World) :
    run (as ++ bs) w = run bs (run as w) := by
  unfold run
  rw [List.foldl_append]

theorem GetMappedRange_world (backend : BufferBackend) (offset size : Nat) (writable : Bool)
    (w : World) :
    (GetMappedRange backend offset size writable w).2 = w ∨
      (GetMappedRange backend offset size writable w).2
        = { buffer := w.buffer, trace := w.trace ++ [Event.hook .GetMappedPointerImpl []] } := by
  unfold GetMappedRange
  split
  · exact Or.inl rfl
  · split
    · exact Or.inl rfl
    · split
      · exact Or.inl rfl
      · right
        unfold GetMappedPointerImpl World.emit
        cases hE : w.buffer.isError <;> simp

theorem APIMapAsync_cases (device : DeviceBase) (backend : BufferBackend)
    (mode offset size callback userdata : Nat) (w : World) :
    (∃ e status,
      APIMapAsync device backend mode offset size callback userdata w =
        { buffer := w.buffer,
          trace := w.trace ++ (if size = 0 then [Event.deprecationWarning] else []) ++
            [Event.consumedError e] ++
            (if callback = nullptr then []
              else [Event.mapCallback callback status userdata w.buffer]) }) ∨
    (w.buffer.isError = false ∧ w.buffer.mState = .Unmapped ∧
      ∃ sz,
        APIMapAsync device backend mode offset size callback userdata w =
          { buffer := { w.buffer with
              mLastMapID := w.buffer.mLastMapID + 1
              mMapMode := mode
              mMapOffset := offset
              mMapSize := sz
              mMapCallback := callback
              mMapUserdata := userdata
              mState := .Mapped },
            trace := w.trace ++ (if size = 0 then [Event.deprecationWarning] else []) ++
              [Event.hook .MapAsyncImpl [mode, offset, sz],
                Event.trackTask (w.buffer.mLastMapID + 1) device.pendingCommandSerial] }) ∨
    (w.buffer.isError = false ∧ w.buffer.mState = .Unmapped ∧
      ∃ sz e,
        APIMapAsync device backend mode offset size callback userdata w =
          { buffer := { w.buffer with
              mLastMapID := w.buffer.mLastMapID + 1
              mMapMode := mode
              mMapOffset := offset
              mMapSize := sz
              mMapCallback := nullptr
              mMapUserdata := userdata
              mState := .Mapped },
            trace := w.trace ++ (if size = 0 then [Event.deprecationWarning] else []) ++
              [Event.hook .MapAsyncImpl [mode, offset, sz], Event.consumedError e] ++
              (if callback = nullptr then []
                else [Event.mapCallback callback .DeviceLost userdata
                  { w.buffer with
                    mLastMapID := w.buffer.mLastMapID + 1
                    mMapMode := mode
                    mMapOffset := offset
                    mMapSize := sz
                    mMapCallback := nullptr
                    mMapUserdata := userdata
                    mState := .Mapped }]) }) := by
  rw [APIMapAsync_eq_validateAndMap]
  cases hv : (ValidateMapAsync device w.buffer mode offset
      (APIMapAsync.defaultSize offset size w).1).1 with
  | error e =>
    left
    refine ⟨e, (ValidateMapAsync device w.buffer mode offset
      (APIMapAsync.defaultSize offset size w).1).2, ?_⟩
    rw [validateAndMap_error (w := ⟨w.buffer,
      w.trace ++ (if size = 0 then [Event.deprecationWarning] else [])⟩) hv]
  | ok u =>
    obtain ⟨_, hE, _, hS, _⟩ := ValidateMapAsync_ok_imp hv
    right
    rw [validateAndMap_ok (w := ⟨w.buffer,
      w.trace ++ (if size = 0 then [Event.deprecationWarning] else [])⟩) hv]
    cases hI : backend.mapAsyncImpl mode offset (APIMapAsync.defaultSize offset size w).1 with
    | ok u' =>
      left
      exact ⟨hE, hS, _, rfl⟩
    | error e =>
      right
      exact ⟨hE, hS, _, e, rfl⟩
theorem countP_isHook_of_quiet (events : List Event)
    (h : ∀ e ∈ events, e.isMapCallback = false ∧ e.isHook .DestroyImpl = false) :
    events.countP (Event.isHook .DestroyImpl) = 0 := by
  rw [List.countP_eq_zero]
  intro e he
  simp [(h e he).2]

theorem UnmapInternal_valid_cases (device : DeviceBase) (backend : BufferBackend)
    (status : WGPUBufferMapAsyncStatus) (w : World) (hE : w.buffer.isError = false) :
    ((device.alive = false ∨ w.buffer.mState = .Unmapped ∨ w.buffer.mState = .Destroyed) ∧
      ∃ e, UnmapInternal device backend status w =
        { buffer := w.buffer, trace := w.trace ++ [Event.consumedError e] }) ∨
    (device.alive = true ∧ w.buffer.mState = .Mapped ∧
      UnmapInternal device backend status w =
        { buffer := { w.buffer with
            mMapCallback := nullptr
            mMapUserdata := 0
            mState := .Unmapped },
          trace := w.trace ++
            (if w.buffer.mMapCallback = nullptr then []
              else [Event.mapCallback w.buffer.mMapCallback
                (if device.lost then .DeviceLost else status) w.buffer.mMapUserdata
                { w.buffer with mMapCallback := nullptr }]) ++
            [Event.hook .UnmapImpl []] }) ∨
    (device.alive = true ∧ w.buffer.mState = .MappedAtCreation ∧
      ∃ (staging : Option StagingBufferBase) (events : List Event),
        UnmapInternal device backend status w =
          { buffer := { w.buffer with mStagingBuffer := staging, mState := .Unmapped },
            trace := w.trace ++ events } ∧
        ∀ e ∈ events, e.isMapCallback = false ∧ e.isHook .DestroyImpl = false) := by
  cases hv : ValidateUnmap device w.buffer with
  | error e =>
    left
    refine ⟨?_, e, UnmapInternal_invalid _ _ _ _ _ hE hv⟩
    by_contra hcon
    push_neg at hcon
    obtain ⟨hA, hU, hD⟩ := hcon
    have hok : ValidateUnmap device w.buffer = .ok () := by
      rw [ValidateUnmap_ok_iff]
      refine ⟨by simpa using hA, hE, ?_⟩
      cases hS : w.buffer.mState <;> simp_all
    rw [hok] at hv
    cases hv
  | ok u =>
    obtain ⟨hA, -, hS⟩ := (ValidateUnmap_ok_iff _ _).mp hv
    right
    rcases hS with hS | hS
    · left
      exact ⟨hA, hS, UnmapInternal_mapped _ _ _ _ hA hE hS⟩
    · right
      exact ⟨hA, hS, UnmapInternal_mappedAtCreation _ _ _ _ hA hE hS⟩

theorem APIDestroy_valid_cases (device : DeviceBase) (backend : BufferBackend) (w : World)
    (hE : w.buffer.isError = false) :
    (w.buffer.mState = .Destroyed ∧ APIDestroy device backend w = w) ∨
    (w.buffer.mState = .Mapped ∧ device.alive = true ∧
      APIDestroy device backend w =
        { buffer := { w.buffer with
            mMapCallback := nullptr
            mMapUserdata := 0
            mState := .Destroyed },
          trace := w.trace ++
            (if w.buffer.mMapCallback = nullptr then []
              else [Event.mapCallback w.buffer.mMapCallback
                (if device.lost then .DeviceLost else .DestroyedBeforeCallback)
                w.buffer.mMapUserdata
                { w.buffer with mMapCallback := nullptr }]) ++
            [Event.hook .UnmapImpl [], Event.hook .DestroyImpl []] }) ∨
    (w.buffer.mState ≠ .Destroyed ∧
      (w.buffer.mState = .Mapped → device.alive = false) ∧
      ∃ (staging : Option StagingBufferBase) (events : List Event),
        APIDestroy device backend w =
          { buffer := { w.buffer with mStagingBuffer := staging, mState := .Destroyed },
            trace := w.trace ++ events ++ [Event.hook .DestroyImpl []] } ∧
        ∀ e ∈ events, e.isMapCallback = false ∧ e.isHook .DestroyImpl = false) := by
  cases hS : w.buffer.mState with
  | Destroyed => exact Or.inl ⟨rfl, APIDestroy_destroyed _ _ _ hE hS⟩
  | Unmapped =>
    right; right
    refine ⟨by simp, by simp, w.buffer.mStagingBuffer, [], ?_, by simp⟩
    rw [APIDestroy_unmapped _ _ _ hE hS]
    simp
  | Mapped =>
    cases hA : device.alive
    · right; right
      refine ⟨by simp, by simp, w.buffer.mStagingBuffer, [Event.consumedError .deviceIsLost],
        ?_, by simp [Event.isMapCallback, Event.isHook]⟩
      rw [APIDestroy_mapped_dead _ _ _ hA hE hS]
      simp
    · right; left
      exact ⟨rfl, rfl, APIDestroy_mapped_alive _ _ _ hA hE hS⟩
  | MappedAtCreation =>
    right; right
    exact ⟨by simp, by simp, APIDestroy_mappedAtCreation _ _ _ hE hS⟩

theorem step_error_buffer (c : Call) (w : World) (hE : w.buffer.isError = true)
    (hP : c.isPublic = true) :
    (step c w).buffer.isError = true ∧
      ∃ events, (step c w).trace = w.trace ++ events ∧
        ∀ e ∈ events, e.isContractViolation = false := by
  obtain ⟨device, backend, op⟩ := c
  cases op with
  | mapAsync mode offset size callback userdata =>
    simp only [step]
    rcases APIMapAsync_cases device backend mode offset size callback userdata w with
      ⟨e, st, h⟩ | ⟨hv, -⟩ | ⟨hv, -⟩
    · rw [h]
      refine ⟨hE, _, by simp only [List.append_assoc]; rfl, ?_⟩
      by_cases h0 : size = 0 <;> by_cases hc : callback = nullptr <;>
        simp [h0, hc, Event.isContractViolation]
    · rw [hE] at hv; cases hv
    · rw [hE] at hv; cases hv
  | getMappedRange offset size =>
    simp only [step, APIGetMappedRange]
    rcases GetMappedRange_world backend offset size true w with h | h
    · rw [h]; exact ⟨hE, [], by simp, by simp⟩
    · rw [h]; exact ⟨hE, _, rfl, by simp [Event.isContractViolation]⟩
  | getConstMappedRange offset size =>
    simp only [step, APIGetConstMappedRange]
    rcases GetMappedRange_world backend offset size false w with h | h
    · rw [h]; exact ⟨hE, [], by simp, by simp⟩
    · rw [h]; exact ⟨hE, _, rfl, by simp [Event.isContractViolation]⟩
  | unmap =>
    simp only [step, APIUnmap, Unmap]
    rw [UnmapInternal_error_buffer _ _ _ _ hE]
    exact ⟨hE, _, rfl, by simp [Event.isContractViolation]⟩
  | destroy =>
    simp only [step]
    rw [APIDestroy_error_buffer _ _ _ hE]
    exact ⟨hE, _, rfl, by simp [Event.isContractViolation]⟩
  | mapRequestCompleted mapID status =>
    simp [Call.isPublic] at hP


theorem step_isError (c : Call) (w : World) :
    (step c w).buffer.isError = w.buffer.isError := by
  obtain ⟨device, backend, op⟩ := c
  cases op with
  | mapAsync mode offset size callback userdata =>
    simp only [step]
    rcases APIMapAsync_cases device backend mode offset size callback userdata w with
      ⟨e, st, h⟩ | ⟨-, -, sz, h⟩ | ⟨-, -, sz, e, h⟩ <;> rw [h]
  | getMappedRange offset size =>
    simp only [step, APIGetMappedRange]
    rcases GetMappedRange_world backend offset size true w with h | h <;> rw [h]
  | getConstMappedRange offset size =>
    simp only [step, APIGetConstMappedRange]
    rcases GetMappedRange_world backend offset size false w with h | h <;> rw [h]
  | unmap =>
    simp only [step, APIUnmap, Unmap]
    cases hE : w.buffer.isError
    · rcases UnmapInternal_valid_cases device backend .UnmappedBeforeCallback w hE with
        ⟨-, e, h⟩ | ⟨-, -, h⟩ | ⟨-, -, st, ev, h, -⟩ <;> rw [h] <;> exact hE
    · rw [UnmapInternal_error_buffer _ _ _ _ hE]; exact hE
  | destroy =>
    simp only [step]
    cases hE : w.buffer.isError
    · rcases APIDestroy_valid_cases device backend w hE with
        ⟨-, h⟩ | ⟨-, -, h⟩ | ⟨-, -, st, ev, h, -⟩ <;> rw [h] <;> exact hE
    · rw [APIDestroy_error_buffer _ _ _ hE]; exact hE
  | mapRequestCompleted mapID status =>
    simp only [step, OnMapRequestCompleted]
    obtain ⟨cb, -, h⟩ := CallMapCallback_buffer device mapID status w
    rw [h]

theorem step_destroyed (c : Call) (w : World) (hS : w.buffer.mState = .Destroyed)
    (h : w.buffer.isError = false ∨ c.op ≠ .unmap) :
    (step c w).buffer.mState = .Destroyed := by
  obtain ⟨device, backend, op⟩ := c
  cases op with
  | mapAsync mode offset size callback userdata =>
    simp only [step]
    rcases APIMapAsync_cases device backend mode offset size callback userdata w with
      ⟨e, st, h⟩ | ⟨-, hU, -⟩ | ⟨-, hU, -⟩
    · rw [h]; exact hS
    · rw [hS] at hU; cases hU
    · rw [hS] at hU; cases hU
  | getMappedRange offset size =>
    simp only [step, APIGetMappedRange]
    rcases GetMappedRange_world backend offset size true w with h | h <;> rw [h] <;> exact hS
  | getConstMappedRange offset size =>
    simp only [step, APIGetConstMappedRange]
    rcases GetMappedRange_world backend offset size false w with h | h <;> rw [h] <;> exact hS
  | unmap =>
    simp only [step, APIUnmap, Unmap]
    rcases h with hE | hne
    · rcases UnmapInternal_valid_cases device backend .UnmappedBeforeCallback w hE with
        ⟨-, e, h⟩ | ⟨-, hM, -⟩ | ⟨-, hM, -⟩
      · rw [h]; exact hS
      · rw [hS] at hM; cases hM
      · rw [hS] at hM; cases hM
    · exact absurd rfl hne
  | destroy =>
    simp only [step]
    cases hE : w.buffer.isError
    · rw [APIDestroy_destroyed _ _ _ hE hS]; exact hS
    · rw [APIDestroy_error_buffer _ _ _ hE]
  | mapRequestCompleted mapID status =>
    simp only [step, OnMapRequestCompleted]
    obtain ⟨cb, -, h⟩ := CallMapCallback_buffer device mapID status w
    rw [h]; exact hS

theorem step_destroy_state (c : Call) (w : World) (hop : c.op = .destroy) :
    (step c w).buffer.mState = .Destroyed := by
  obtain ⟨device, backend, op⟩ := c
  simp only at hop
  subst hop
  simp only [step]
  cases hE : w.buffer.isError
  · rcases APIDestroy_valid_cases device backend w hE with
      ⟨hS, h⟩ | ⟨-, -, h⟩ | ⟨-, -, st, ev, h, -⟩
    · rw [h]; exact hS
    · rw [h]
    · rw [h]
  · rw [APIDestroy_error_buffer _ _ _ hE]

theorem step_destroyImplCalls (c : Call) (w : World) (hE : w.buffer.isError = false) :
    (step c w).destroyImplCalls = w.destroyImplCalls +
        (if c.op = .destroy ∧ w.buffer.mState ≠ .Destroyed then 1 else 0) ∧
    (c.op ≠ .destroy → w.buffer.mState ≠ .Destroyed →
      (step c w).buffer.mState ≠ .Destroyed) := by
  obtain ⟨device, backend, op⟩ := c
  cases op with
  | mapAsync mode offset size callback userdata =>
    simp only [step]
    rcases APIMapAsync_cases device backend mode offset size callback userdata w with
      ⟨e, st, h⟩ | ⟨-, -, sz, h⟩ | ⟨-, -, sz, e, h⟩ <;> rw [h] <;>
      by_cases h0 : size = 0 <;> by_cases hc : callback = nullptr <;>
      simp [World.destroyImplCalls, List.countP_append, List.countP_cons, Event.isHook, h0, hc]
  | getMappedRange offset size =>
    simp only [step, APIGetMappedRange]
    rcases GetMappedRange_world backend offset size true w with h | h <;> rw [h] <;>
      simp [World.destroyImplCalls, List.countP_append, List.countP_cons, Event.isHook]
  | getConstMappedRange offset size =>
    simp only [step, APIGetConstMappedRange]
    rcases GetMappedRange_world backend offset size false w with h | h <;> rw [h] <;>
      simp [World.destroyImplCalls, List.countP_append, List.countP_cons, Event.isHook]
  | unmap =>
    simp only [step, APIUnmap, Unmap]
    rcases UnmapInternal_valid_cases device backend .UnmappedBeforeCallback w hE with
      ⟨-, e, h⟩ | ⟨-, -, h⟩ | ⟨-, -, st, ev, h, hq⟩
    · rw [h]
      simp [World.destroyImplCalls, List.countP_append, List.countP_cons, Event.isHook]
    · rw [h]
      by_cases hc : w.buffer.mMapCallback = nullptr <;>
        simp [World.destroyImplCalls, List.countP_append, List.countP_cons, Event.isHook, hc]
    · rw [h]
      simp [World.destroyImplCalls, List.countP_append, countP_isHook_of_quiet ev hq]
  | destroy =>
    simp only [step]
    rcases APIDestroy_valid_cases device backend w hE with
      ⟨hS, h⟩ | ⟨hS, -, h⟩ | ⟨hS, -, st, ev, h, hq⟩
    · rw [h]
      simp [hS]
    · rw [h]
      by_cases hc : w.buffer.mMapCallback = nullptr <;>
        simp [World.destroyImplCalls, List.countP_append, List.countP_cons, Event.isHook, hc,
          hS]
    · rw [h]
      simp [World.destroyImplCalls, List.countP_append, List.countP_cons, Event.isHook,
        countP_isHook_of_quiet ev hq, hS]
  | mapRequestCompleted mapID status =>
    simp only [step, OnMapRequestCompleted]
    rw [CallMapCallback_eq]
    split <;>
      simp [World.destroyImplCalls, List.countP_append, List.countP_cons, Event.isHook, hE]

theorem run_isError (calls : List Call) (w : World) :
    (run calls w).buffer.isError = w.buffer.isError := by
  induction calls generalizing w with
  | nil => rfl
  | cons c cs ih => rw [run_cons, ih, step_isError]

theorem run_destroyed (calls : List Call) (w : World) (hE : w.buffer.isError = false)
    (hS : w.buffer.mState = .Destroyed) :
    (run calls w).buffer.mState = .Destroyed ∧
      (run calls w).destroyImplCalls = w.destroyImplCalls := by
  induction calls generalizing w with
  | nil => exact ⟨hS, rfl⟩
  | cons c cs ih =>
    rw [run_cons]
    have h1 := step_destroyed c w hS (Or.inl hE)
    have h2 := (step_destroyImplCalls c w hE).1
    have h3 := ih (step c w) (by rw [step_isError]; exact hE) h1
    refine ⟨h3.1, ?_⟩
    rw [h3.2, h2]
    simp [hS]

theorem run_without_destroy (calls : List Call) (w : World) (hE : w.buffer.isError = false)
    (hS : w.buffer.mState ≠ .Destroyed) (hN : ∀ c ∈ calls, c.op ≠ .destroy) :
    (run calls w).buffer.mState ≠ .Destroyed ∧
      (run calls w).destroyImplCalls = w.destroyImplCalls := by
  induction calls generalizing w with
  | nil => exact ⟨hS, rfl⟩
  | cons c cs ih =>
    rw [run_cons]
    have hc := hN c (List.mem_cons_self _ _)
    have h1 := (step_destroyImplCalls c w hE).2 hc hS
    have h2 := (step_destroyImplCalls c w hE).1
    have h3 := ih (step c w) (by rw [step_isError]; exact hE) h1
      (fun x hx => hN x (List.mem_cons_of_mem _ hx))
    refine ⟨h3.1, ?_⟩
    rw [h3.2, h2]
    simp [hc]

theorem run_with_destroy (calls : List Call) (w : World) (hE : w.buffer.isError = false)
    (hS : w.buffer.mState ≠ .Destroyed) (hD : ∃ c ∈ calls, c.op = .destroy) :
    (run calls w).destroyImplCalls = w.destroyImplCalls + 1 := by
  induction calls generalizing w with
  | nil => obtain ⟨c, hc, -⟩ := hD; cases hc
  | cons c cs ih =>
    rw [run_cons]
    have h2 := (step_destroyImplCalls c w hE).1
    have hE' : (step c w).buffer.isError = false := by rw [step_isError]; exact hE
    by_cases hc : c.op = .destroy
    · have h1 := step_destroy_state c w hc
      rw [(run_destroyed cs (step c w) hE' h1).2, h2]
      simp [hc, hS]
    · have h1 := (step_destroyImplCalls c w hE).2 hc hS
      have hD' : ∃ x ∈ cs, x.op = .destroy := by
        obtain ⟨x, hx, hxo⟩ := hD
        rcases List.mem_cons.mp hx with rfl | hx
        · exact absurd hxo hc
        · exact ⟨x, hx, hxo⟩
      rw [ih (step c w) hE' h1 hD', h2]
      simp [hc]

theorem hasBit_lor_disjoint (u k bit : Nat) (h : k &&& bit = 0) :
    hasBit (u ||| k) bit = hasBit u bit := by
  unfold hasBit
  rw [Nat.and_distrib_right, h, Nat.or_zero]

theorem BufferBase_new_mUsage (device : DeviceBase) (descriptor : BufferDescriptor) :
    (BufferBase.new device descriptor).mUsage =
      (descriptor.usage
        ||| (if hasBit descriptor.usage BufferUsage.Storage then kReadOnlyStorageBuffer else 0))
        ||| (if hasBit descriptor.usage BufferUsage.QueryResolve ||
              (hasBit descriptor.usage BufferUsage.Indirect && device.validationEnabled)
            then kInternalStorageBuffer else 0) := by
  have h1 : ∀ u, hasBit (u ||| kReadOnlyStorageBuffer) BufferUsage.QueryResolve
      = hasBit u BufferUsage.QueryResolve := fun u => hasBit_lor_disjoint u _ _ (by decide)
  have h2 : ∀ u, hasBit (u ||| kReadOnlyStorageBuffer) BufferUsage.Indirect
      = hasBit u BufferUsage.Indirect := fun u => hasBit_lor_disjoint u _ _ (by decide)
  have h3 : ∀ u, hasBit (u ||| kInternalStorageBuffer) BufferUsage.Indirect
      = hasBit u BufferUsage.Indirect := fun u => hasBit_lor_disjoint u _ _ (by decide)
  unfold BufferBase.new
  cases hS : hasBit descriptor.usage BufferUsage.Storage <;>
  cases hQ : hasBit descriptor.usage BufferUsage.QueryResolve <;>
  cases hI : hasBit descriptor.usage BufferUsage.Indirect <;>
  cases hV : device.validationEnabled <;>
  simp [BufferBase.initial, hS, hQ, hI, hV, h1, h2, h3, Nat.or_assoc]

theorem IsSubset_lor (u k : Nat) : IsSubset u (u ||| k) = true := by
  unfold IsSubset
  have h : u &&& (u ||| k) = u := by
    apply Nat.eq_of_testBit_eq
    intro i
    simp only [Nat.testBit_and, Nat.testBit_or]
    cases u.testBit i <;> simp
  simp [h]

/-! ### A destroyed valid buffer -/

theorem step_destroyed_buffer (c : Call) (w : World) (hE : w.buffer.isError = false)
    (hS : w.buffer.mState = .Destroyed) (hN : c.completes w.buffer.mLastMapID = false) :
    (step c w).buffer = w.buffer := by
  obtain ⟨device, backend, op⟩ := c
  cases op with
  | mapAsync mode offset size callback userdata =>
    simp only [step]
    rcases APIMapAsync_cases device backend mode offset size callback userdata w with
      ⟨e, st, h⟩ | ⟨-, hU, -⟩ | ⟨-, hU, -⟩
    · rw [h]
    · rw [hS] at hU; cases hU
    · rw [hS] at hU; cases hU
  | getMappedRange offset size =>
    simp only [step, APIGetMappedRange]
    rcases GetMappedRange_world backend offset size true w with h | h <;> rw [h]
  | getConstMappedRange offset size =>
    simp only [step, APIGetConstMappedRange]
    rcases GetMappedRange_world backend offset size false w with h | h <;> rw [h]
  | unmap =>
    simp only [step, APIUnmap, Unmap]
    cases hv : ValidateUnmap device w.buffer with
    | error e => rw [UnmapInternal_invalid _ _ _ _ e hE hv]
    | ok u =>
      have h := ((ValidateUnmap_ok_iff device w.buffer).mp hv).2.2
      rw [hS] at h
      rcases h with h | h <;> cases h
  | destroy =>
    simp only [step]
    rw [APIDestroy_destroyed _ _ _ hE hS]
  | mapRequestCompleted mapID status =>
    have hN' : ¬ mapID = w.buffer.mLastMapID := by simpa [Call.completes] using hN
    simp only [step, OnMapRequestCompleted, CallMapCallback_eq]
    simp [hN']

theorem run_destroyed_buffer (calls : List Call) (w : World) (hE : w.buffer.isError = false)
    (hS : w.buffer.mState = .Destroyed)
    (hN : ∀ c ∈ calls, c.completes w.buffer.mLastMapID = false) :
    (run calls w).buffer = w.buffer := by
  induction calls generalizing w with
  | nil => rfl
  | cons c cs ih =>
    rw [run_cons]
    have h1 := step_destroyed_buffer c w hE hS (hN c (List.mem_cons_self _ _))
    rw [ih (step c w) (by rw [h1]; exact hE) (by rw [h1]; exact hS)
      (fun x hx => by rw [h1]; exact hN x (List.mem_cons_of_mem _ hx)), h1]

/-! ### Unmapping a buffer mapped at creation -/

theorem GetAllocatedSize_fst (w : World) :
    (GetAllocatedSize w).1 = w.buffer.mAllocatedSize := by
  unfold GetAllocatedSize ASSERT World.emit
  cases w.buffer.isError <;> by_cases h : w.buffer.mAllocatedSize = 0 <;> simp [h]

theorem UnmapInternal_mappedAtCreation_eq (device : DeviceBase) (backend : BufferBackend)
    (status : WGPUBufferMapAsyncStatus) (w : World)
    (hA : device.alive = true) (hE : w.buffer.isError = false)
    (hS : w.buffer.mState = .MappedAtCreation)
    (hI : w.buffer.mStagingBuffer.isSome = true → w.buffer.mSize ≠ 0) :
    UnmapInternal device backend status w =
      match w.buffer.mStagingBuffer with
      | some staging =>
        match backend.copyFromStagingToBuffer with
        | .ok _ =>
          { buffer := { w.buffer with
              mStagingBuffer := none
              mState := .Unmapped },
            trace := w.trace ++
              (if w.buffer.mAllocatedSize = 0 then [Event.assertFailed] else []) ++
              [Event.copyFromStagingToBuffer (some staging) 0 0 w.buffer.mAllocatedSize,
                Event.releaseStagingBuffer (some staging)] }
        | .error e =>
          { buffer := { w.buffer with mState := .Unmapped },
            trace := w.trace ++
              (if w.buffer.mAllocatedSize = 0 then [Event.assertFailed] else []) ++
              [Event.copyFromStagingToBuffer (some staging) 0 0 w.buffer.mAllocatedSize,
                Event.consumedError e] }
      | none =>
        if w.buffer.mSize ≠ 0 then
          { buffer := { w.buffer with mState := .Unmapped },
            trace := w.trace ++
              (if backend.isCPUWritableAtCreation then [] else [Event.assertFailed]) ++
              [Event.hook .UnmapImpl []] }
        else { buffer := { w.buffer with mState := .Unmapped }, trace := w.trace } := by
  have hv : ValidateUnmap device w.buffer = .ok () :=
    (ValidateUnmap_ok_iff _ _).mpr ⟨hA, hE, Or.inr hS⟩
  rw [UnmapInternal_valid_eq _ _ _ _ hE, hv]
  simp only [hS]
  cases hst : w.buffer.mStagingBuffer with
  | none =>
    by_cases h0 : w.buffer.mSize = 0
    · simp [h0, hst]
    · cases hw : backend.isCPUWritableAtCreation <;>
        simp [h0, hst, hE, ASSERT, UnmapImpl, World.emit]
  | some s =>
    have h0 : w.buffer.mSize ≠ 0 := hI (by simp [hst])
    by_cases ha : w.buffer.mAllocatedSize = 0 <;>
      cases hc : backend.copyFromStagingToBuffer <;>
      simp [h0, hst, hE, ha, hc, ASSERT, CopyFromStagingBuffer, ConsumedError, World.emit,
        GetAllocatedSize]

/-! ### Mapping at creation -/

theorem MapAtCreationInternal_eq (backend : BufferBackend) (w : World)
    (hE : w.buffer.isError = false) (h0 : w.buffer.mSize ≠ 0) :
    MapAtCreationInternal backend w =
      if backend.isCPUWritableAtCreation then
        (backend.mapAtCreationImpl,
          { buffer := { w.buffer with
              mState := .MappedAtCreation
              mMapOffset := 0
              mMapSize := w.buffer.mSize },
            trace := w.trace ++
              [Event.hook .IsCPUWritableAtCreation [], Event.hook .MapAtCreationImpl []] })
      else
        match backend.createStagingBuffer w.buffer.mAllocatedSize with
        | .error e =>
          (.error e,
            { buffer := { w.buffer with
                mState := .MappedAtCreation
                mMapOffset := 0
                mMapSize := w.buffer.mSize },
              trace := w.trace ++ [Event.hook .IsCPUWritableAtCreation []] ++
                (if w.buffer.mAllocatedSize = 0 then [Event.assertFailed] else []) ++
                [Event.createStagingBuffer w.buffer.mAllocatedSize] })
        | .ok staging =>
          (.ok (),
            { buffer := { w.buffer with
                mState := .MappedAtCreation
                mMapOffset := 0
                mMapSize := w.buffer.mSize
                mStagingBuffer := some staging },
              trace := w.trace ++ [Event.hook .IsCPUWritableAtCreation []] ++
                (if w.buffer.mAllocatedSize = 0 then [Event.assertFailed] else []) ++
                [Event.createStagingBuffer w.buffer.mAllocatedSize] }) := by
  unfold MapAtCreationInternal
  simp only [ASSERT, hE, Bool.not_false, if_true, h0, if_false, IsCPUWritableAtCreation,
    Bool.false_eq_true, MapAtCreationImpl, GetAllocatedSize, World.emit]
  cases hw : backend.isCPUWritableAtCreation
  · by_cases ha : w.buffer.mAllocatedSize = 0
    · cases hc : backend.createStagingBuffer w.buffer.mAllocatedSize <;>
        rw [ha] at hc <;> simp [ha, hc]
    · cases hc : backend.createStagingBuffer w.buffer.mAllocatedSize <;> simp [ha, hc]
  · simp

/-! ### The staging buffer over a run -/

theorem UnmapInternal_staging_none (device : DeviceBase) (backend : BufferBackend)
    (status : WGPUBufferMapAsyncStatus) (w : World) (hE : w.buffer.isError = false)
    (hN : w.buffer.mStagingBuffer = none) :
    (UnmapInternal device backend status w).buffer.mStagingBuffer = none := by
  cases hv : ValidateUnmap device w.buffer with
  | error e => rw [UnmapInternal_invalid _ _ _ _ e hE hv]; exact hN
  | ok u =>
    obtain ⟨hA, -, hS | hS⟩ := (ValidateUnmap_ok_iff device w.buffer).mp hv
    · rw [UnmapInternal_mapped _ _ _ _ hA hE hS]; exact hN
    · rw [UnmapInternal_mappedAtCreation_eq _ _ _ _ hA hE hS (by simp [hN]), hN]
      by_cases h0 : w.buffer.mSize = 0 <;> simp [h0, hN]

theorem UnmapInternal_staging (device : DeviceBase) (backend : BufferBackend)
    (status : WGPUBufferMapAsyncStatus) (w : World) (hE : w.buffer.isError = false)
    (hJ : w.buffer.mStagingBuffer.isSome = true →
      w.buffer.mState = .MappedAtCreation ∧ w.buffer.mSize ≠ 0)
    (hC : backend.copyFromStagingToBuffer = .ok ()) :
    (UnmapInternal device backend status w).buffer.mStagingBuffer.isSome = true →
      (UnmapInternal device backend status w).buffer.mState = .MappedAtCreation ∧
        (UnmapInternal device backend status w).buffer.mSize ≠ 0 := by
  cases hv : ValidateUnmap device w.buffer with
  | error e => rw [UnmapInternal_invalid _ _ _ _ e hE hv]; exact hJ
  | ok u =>
    obtain ⟨hA, -, hS | hS⟩ := (ValidateUnmap_ok_iff device w.buffer).mp hv
    · rw [UnmapInternal_mapped _ _ _ _ hA hE hS]
      intro h
      have h2 := (hJ h).1
      rw [hS] at h2
      cases h2
    · rw [UnmapInternal_mappedAtCreation_eq _ _ _ _ hA hE hS (fun h => (hJ h).2), hC]
      cases hst : w.buffer.mStagingBuffer with
      | none => by_cases h0 : w.buffer.mSize = 0 <;> simp [h0, hst]
      | some s => simp

theorem APIDestroy_staging (device : DeviceBase) (backend : BufferBackend) (w : World)
    (hE : w.buffer.isError = false)
    (hJ : w.buffer.mStagingBuffer.isSome = true →
      w.buffer.mState = .MappedAtCreation ∧ w.buffer.mSize ≠ 0) :
    (APIDestroy device backend w).buffer.mStagingBuffer = none := by
  have hN : w.buffer.mState ≠ .MappedAtCreation → w.buffer.mStagingBuffer = none := by
    intro h
    cases hst : w.buffer.mStagingBuffer with
    | none => rfl
    | some s => exact absurd (hJ (by simp [hst])).1 h
  rw [APIDestroy_valid_eq _ _ _ hE, DestroyInternal_eq]
  cases hS : w.buffer.mState with
  | Unmapped => exact hN (by simp [hS])
  | Destroyed => exact hN (by simp [hS])
  | Mapped => exact UnmapInternal_staging_none _ _ _ _ hE (hN (by simp [hS]))
  | MappedAtCreation =>
    cases hst : w.buffer.mStagingBuffer with
    | some s => simp
    | none =>
      by_cases h0 : w.buffer.mSize = 0
      · simp [h0, hst]
      · simp only [Option.isSome_none, Bool.false_eq_true, if_false, ne_eq, h0,
          not_false_eq_true, if_true]
        apply UnmapInternal_staging_none
        · unfold ASSERT; split <;> simp [World.emit, hE]
        · unfold ASSERT; split <;> simp [World.emit, hst]

theorem step_staging (c : Call) (w : World) (hE : w.buffer.isError = false)
    (hJ : w.buffer.mStagingBuffer.isSome = true →
      w.buffer.mState = .MappedAtCreation ∧ w.buffer.mSize ≠ 0)
    (hC : c.backend.copyFromStagingToBuffer = .ok ()) :
    (step c w).buffer.mStagingBuffer.isSome = true →
      (step c w).buffer.mState = .MappedAtCreation ∧ (step c w).buffer.mSize ≠ 0 := by
  obtain ⟨device, backend, op⟩ := c
  cases op with
  | mapAsync mode offset size callback userdata =>
    simp only [step]
    rcases APIMapAsync_cases device backend mode offset size callback userdata w with
      ⟨e, st, h⟩ | ⟨-, hU, sz, h⟩ | ⟨-, hU, sz, e, h⟩
    · rw [h]; exact hJ
    · rw [h]
      intro hs
      have h2 := (hJ hs).1
      rw [hU] at h2
      cases h2
    · rw [h]
      intro hs
      have h2 := (hJ hs).1
      rw [hU] at h2
      cases h2
  | getMappedRange offset size =>
    simp only [step, APIGetMappedRange]
    rcases GetMappedRange_world backend offset size true w with h | h <;> rw [h] <;> exact hJ
  | getConstMappedRange offset size =>
    simp only [step, APIGetConstMappedRange]
    rcases GetMappedRange_world backend offset size false w with h | h <;> rw [h] <;>
      exact hJ
  | unmap =>
    simp only [step, APIUnmap, Unmap]
    exact UnmapInternal_staging _ _ _ _ hE hJ hC
  | destroy =>
    simp only [step]
    intro hs
    rw [APIDestroy_staging _ _ _ hE hJ] at hs
    cases hs
  | mapRequestCompleted mapID status =>
    simp only [step, OnMapRequestCompleted]
    obtain ⟨cb, -, h⟩ := CallMapCallback_buffer device mapID status w
    rw [h]
    exact hJ

theorem run_staging (calls : List Call) (w : World) (hE : w.buffer.isError = false)
    (hJ : w.buffer.mStagingBuffer.isSome = true →
      w.buffer.mState = .MappedAtCreation ∧ w.buffer.mSize ≠ 0)
    (hC : ∀ c ∈ calls, c.backend.copyFromStagingToBuffer = .ok ()) :
    (run calls w).buffer.mStagingBuffer.isSome = true →
      (run calls w).buffer.mState = .MappedAtCreation ∧ (run calls w).buffer.mSize ≠ 0 := by
  induction calls generalizing w with
  | nil => exact hJ
  | cons c cs ih =>
    rw [run_cons]
    exact ih (step c w) (by rw [step_isError]; exact hE)
      (step_staging c w hE hJ (hC c (List.mem_cons_self _ _)))
      (fun x hx => hC x (List.mem_cons_of_mem _ hx))

theorem MapAtCreation_staging (device : DeviceBase) (backend : BufferBackend) (w : World)
    (hE : w.buffer.isError = false) (hN : w.buffer.mStagingBuffer = none) :
    (MapAtCreation device backend w).2.buffer.isError = false ∧
      ((MapAtCreation device backend w).2.buffer.mStagingBuffer.isSome = true →
        (MapAtCreation device backend w).2.buffer.mState = .MappedAtCreation ∧
          (MapAtCreation device backend w).2.buffer.mSize ≠ 0) := by
  by_cases h0 : w.buffer.mSize = 0
  · unfold MapAtCreation MapAtCreationInternal
    simp [h0, hE, hN, ASSERT]
  · unfold MapAtCreation
    rw [MapAtCreationInternal_eq backend w hE h0]
    cases hw : backend.isCPUWritableAtCreation
    · simp only [Bool.false_eq_true, if_false]
      cases hc : backend.createStagingBuffer w.buffer.mAllocatedSize with
      | error e => simp [hE, hN]
      | ok staging =>
        by_cases ha : w.buffer.mAllocatedSize = 0 <;>
          by_cases hs : staging.size = w.buffer.mAllocatedSize <;>
          cases hl : device.lazyClearResourceOnFirstUse <;>
          cases hz : device.nonzeroClearResourcesOnCreationForTesting <;>
          (try rw [ha] at hs) <;>
          simp [h0, hE, ha, hs, GetAllocatedSize, ASSERT, World.emit, SetIsDataInitialized]
    · simp only [if_true]
      cases hm : backend.mapAtCreationImpl with
      | error e => simp [hE, hN]
      | ok u =>
        by_cases ha : w.buffer.mAllocatedSize = 0 <;>
          cases hl : device.lazyClearResourceOnFirstUse <;>
          cases hz : device.nonzeroClearResourcesOnCreationForTesting <;>
          simp [h0, hE, hN, ha, GetAllocatedSize, ASSERT, World.emit, SetIsDataInitialized,
            GetMappedPointerImpl]

theorem staging_invariant_of_successful_copies (device : DeviceBase)
    (backend : BufferBackend) (mappedAtCreation : Bool) (calls : List Call) (w : World)
    (hE : w.buffer.isError = false) (hN : w.buffer.mStagingBuffer = none)
    (hC : ∀ c ∈ calls, c.backend.copyFromStagingToBuffer = .ok ()) :
    (run calls (if mappedAtCreation then (MapAtCreation device backend w).2
        else w)).buffer.mStagingBuffer.isSome = true →
      (run calls (if mappedAtCreation then (MapAtCreation device backend w).2
          else w)).buffer.mState = .MappedAtCreation ∧
        (run calls (if mappedAtCreation then (MapAtCreation device backend w).2
          else w)).buffer.mSize ≠ 0 := by
  cases mappedAtCreation with
  | false =>
    simp only [Bool.false_eq_true, if_false]
    exact run_staging calls w hE (by simp [hN]) hC
  | true =>
    simp only [if_true]
    obtain ⟨h1, h2⟩ := MapAtCreation_staging device backend w hE hN
    exact run_staging calls _ h1 h2 hC

/-! ### Application callbacks that call back into the buffer -/

theorem Reentrant_CallMapCallback_inert (device : DeviceBase) (mapID : Nat)
    (status : WGPUBufferMapAsyncStatus) (w : World) :
    Reentrant.CallMapCallback Application.inert device mapID status w
      = CallMapCallback device mapID status w := rfl

theorem Reentrant_validateAndMap_inert (device : DeviceBase) (backend : BufferBackend)
    (mode offset size callback userdata : Nat) (w : World) :
    Reentrant.APIMapAsync.validateAndMap Application.inert device backend mode offset size
        callback userdata w
      = APIMapAsync.validateAndMap device backend mode offset size callback userdata w := rfl

theorem Reentrant_APIMapAsync_inert (device : DeviceBase) (backend : BufferBackend)
    (mode offset size callback userdata : Nat) (w : World) :
    Reentrant.APIMapAsync Application.inert device backend mode offset size callback
        userdata w
      = APIMapAsync device backend mode offset size callback userdata w := rfl

theorem Reentrant_UnmapInternal_inert (device : DeviceBase) (backend : BufferBackend)
    (status : WGPUBufferMapAsyncStatus) (w : World) :
    Reentrant.UnmapInternal Application.inert device backend status w
      = UnmapInternal device backend status w := rfl

theorem Reentrant_Unmap_inert (device : DeviceBase) (backend : BufferBackend) (w : World) :
    Reentrant.Unmap Application.inert device backend w = Unmap device backend w := rfl

theorem Reentrant_APIDestroy_inert (device : DeviceBase) (backend : BufferBackend)
    (w : World) :
    Reentrant.APIDestroy Application.inert device backend w = APIDestroy device backend w :=
  rfl

theorem Reentrant_UnmapInternal_valid_eq (app : Application) (device : DeviceBase)
    (backend : BufferBackend) (status : WGPUBufferMapAsyncStatus) (w : World)
    (hE : w.buffer.isError = false) :
    Reentrant.UnmapInternal app device backend status w =
      match ValidateUnmap device w.buffer with
      | .error e => w.emit (.consumedError e)
      | .ok _ =>
        match w.buffer.mState with
        | .Mapped =>
          { buffer := { (UnmapImpl (Reentrant.CallMapCallback app device w.buffer.mLastMapID
                status w)).buffer with
              mMapCallback := nullptr
              mMapUserdata := 0
              mState := .Unmapped },
            trace := (UnmapImpl (Reentrant.CallMapCallback app device w.buffer.mLastMapID
              status w)).trace }
        | .MappedAtCreation =>
          if w.buffer.mStagingBuffer.isSome then
            { buffer := { (ConsumedError (CopyFromStagingBuffer backend w).1
                (CopyFromStagingBuffer backend w).2).2.buffer with mState := .Unmapped },
              trace := (ConsumedError (CopyFromStagingBuffer backend w).1
                (CopyFromStagingBuffer backend w).2).2.trace }
          else if w.buffer.mSize ≠ 0 then
            { buffer := { (UnmapImpl (ASSERT backend.isCPUWritableAtCreation w)).buffer
                with mState := .Unmapped },
              trace := (UnmapImpl (ASSERT backend.isCPUWritableAtCreation w)).trace }
          else { buffer := { w.buffer with mState := .Unmapped }, trace := w.trace }
        | _ => { buffer := { w.buffer with mState := .Unmapped }, trace := w.trace } := by
  unfold Reentrant.UnmapInternal
  simp only [hE, Bool.false_eq_true, if_false]
  cases hv : ValidateUnmap device w.buffer with
  | error e => simp [ConsumedError]
  | ok u =>
    simp only [ConsumedError, Bool.false_eq_true, if_false, ASSERT, hE, Bool.not_false, if_true]
    cases hS : w.buffer.mState <;> simp only []
    all_goals first
      | (simp [hE]; done)
      | (split <;> first | (simp [hE]; done) | (split <;> simp [hE]))

theorem Reentrant_run_nil (app : Application) (w : World) : Reentrant.run app [] w = w := rfl

/-- C1: `ValidateMapAsync(mode, offset, size)` succeeds if and only if the device is alive,
the buffer is not an error object, `offset <= mSize`, `offset % 8 == 0`, `size % 4 == 0`,
`size <= mSize - offset`, the state is `Unmapped`, exactly one of the Read and Write bits
is set in `mode`, and the usage contains `MapRead` when the Read bit is set and `MapWrite`
when the Write bit is set. Whenever `offset <= mSize`, the 64-bit subtraction
`mSize - offset` does not wrap, and the size test is `offset + size <= mSize`. -/
theorem ValidateMapAsync_succeeds_iff (device : DeviceBase) (self : BufferBase)
    (mode offset size : Nat) (hSize : self.mSize < 2 ^ 64) :
    ((ValidateMapAsync device self mode offset size).1 = .ok () ↔
      device.alive = true ∧ self.isError = false ∧ offset ≤ self.mSize ∧ offset % 8 = 0 ∧
      size % 4 = 0 ∧ size ≤ self.mSize - offset ∧ self.mState = .Unmapped ∧
      (hasBit mode MapMode.Read ≠ hasBit mode MapMode.Write) ∧
      (hasBit mode MapMode.Read = true → hasBit self.mUsage BufferUsage.MapRead = true) ∧
      (hasBit mode MapMode.Write = true → hasBit self.mUsage BufferUsage.MapWrite = true)) ∧
    (offset ≤ self.mSize →
      ((u64sub self.mSize offset : Nat) : Int) = (self.mSize : Int) - (offset : Int) ∧
      (size ≤ self.mSize - offset ↔ offset + size ≤ self.mSize)) := by
  refine ⟨?_, fun hle => ⟨?_, by omega⟩⟩
  · unfold ValidateMapAsync DeviceBase.ValidateIsAlive DeviceBase.ValidateObject
    cases hA : device.alive <;> simp
    cases hE : self.isError <;> simp
    by_cases h3 : offset > self.mSize
    · simp [h3]
    have h3' : offset ≤ self.mSize := by omega
    rw [u64sub_eq_sub hSize h3']
    by_cases h4 : offset % 8 = 0 <;> simp [h3, h4]
    by_cases h5 : size % 4 = 0 <;> simp [h5]
    by_cases h6 : size ≤ self.mSize - offset
    swap
    · have h6n : self.mSize - offset < size := by omega
      simp [h6n, h6]
    have h6' : ¬ (self.mSize - offset < size) := by omega
    simp only [h6', if_false, h3', h6, true_and]
    cases hS : self.mState <;> simp
    cases hR : hasBit mode MapMode.Read <;> cases hW : hasBit mode MapMode.Write <;> simp
    · cases hU : hasBit self.mUsage BufferUsage.MapWrite <;> simp
    · cases hU : hasBit self.mUsage BufferUsage.MapRead <;> simp
  · rw [u64sub_eq_sub hSize hle]; omega

/-- Witness of C1 on the 16-byte example buffer, read mode, range `[0, 16)`. -/
theorem ValidateMapAsync_succeeds_iff_witness :
    exampleBuffer.mSize < 2 ^ 64 ∧
    (((ValidateMapAsync exampleDevice exampleBuffer 1 0 16).1 = .ok () ↔
      exampleDevice.alive = true ∧ exampleBuffer.isError = false ∧
      0 ≤ exampleBuffer.mSize ∧ 0 % 8 = 0 ∧
      16 % 4 = 0 ∧ 16 ≤ exampleBuffer.mSize - 0 ∧ exampleBuffer.mState = .Unmapped ∧
      (hasBit 1 MapMode.Read ≠ hasBit 1 MapMode.Write) ∧
      (hasBit 1 MapMode.Read = true → hasBit exampleBuffer.mUsage BufferUsage.MapRead = true) ∧
      (hasBit 1 MapMode.Write = true →
        hasBit exampleBuffer.mUsage BufferUsage.MapWrite = true)) ∧
    (0 ≤ exampleBuffer.mSize →
      ((u64sub exampleBuffer.mSize 0 : Nat) : Int) = (exampleBuffer.mSize : Int) - ((0 : Nat) : Int) ∧
      (16 ≤ exampleBuffer.mSize - 0 ↔ 0 + 16 ≤ exampleBuffer.mSize))) :=
  ⟨by decide, ValidateMapAsync_succeeds_iff exampleDevice exampleBuffer 1 0 16 (by decide)⟩

/-- C2: the status written by `ValidateMapAsync` is `Success` exactly when validation
succeeds; the outcome is that of the first failing check of the list 1-9 taken in order;
the status is `DeviceLost` exactly when the device-alive check fails, and `Error` exactly
when the device is alive and a later check is the first to fail. -/
theorem ValidateMapAsync_first_failure (device : DeviceBase) (self : BufferBase)
    (mode offset size : Nat) (hSize : self.mSize < 2 ^ 64) :
    ValidateMapAsync device self mode offset size
        = mapAsyncFirstFailure device self mode offset size ∧
      ((ValidateMapAsync device self mode offset size).2 = .Success ↔
        (ValidateMapAsync device self mode offset size).1 = .ok ()) ∧
      ((ValidateMapAsync device self mode offset size).2 = .DeviceLost ↔
        device.alive = false) ∧
      ((ValidateMapAsync device self mode offset size).2 = .Error ↔
        device.alive = true ∧ (ValidateMapAsync device self mode offset size).1 ≠ .ok ()) := by
  unfold mapAsyncFirstFailure mapAsyncChecks ValidateMapAsync DeviceBase.ValidateIsAlive
    DeviceBase.ValidateObject
  cases hA : device.alive <;> simp
  cases hE : self.isError <;> simp
  by_cases h3 : offset > self.mSize
  · have h3n : ¬ offset ≤ self.mSize := by omega
    simp [h3, h3n]
  have h3' : offset ≤ self.mSize := by omega
  rw [u64sub_eq_sub hSize h3']
  by_cases h4 : offset % 8 = 0 <;> simp [h3, h3', h4]
  by_cases h5 : size % 4 = 0 <;> simp [h5]
  by_cases h6 : size ≤ self.mSize - offset
  swap
  · have h6n : self.mSize - offset < size := by omega
    have h6i : ¬ ((size : Int) ≤ (self.mSize : Int) - (offset : Int)) := by omega
    simp [h6n, h6i]
  have h6' : ¬ (self.mSize - offset < size) := by omega
  have h6i : (size : Int) ≤ (self.mSize : Int) - (offset : Int) := by omega
  simp only [h6', h6i, if_false]
  cases hS : self.mState <;> simp
  cases hR : hasBit mode MapMode.Read <;> cases hW : hasBit mode MapMode.Write <;> simp
  · cases hU : hasBit self.mUsage BufferUsage.MapWrite <;> simp
  · cases hU : hasBit self.mUsage BufferUsage.MapRead <;> simp

/-- Witness of C2 on the 16-byte example buffer with write mode, which its usage lacks. -/
theorem ValidateMapAsync_first_failure_witness :
    exampleBuffer.mSize < 2 ^ 64 ∧
    (ValidateMapAsync exampleDevice exampleBuffer 2 0 16
        = mapAsyncFirstFailure exampleDevice exampleBuffer 2 0 16 ∧
      ((ValidateMapAsync exampleDevice exampleBuffer 2 0 16).2 = .Success ↔
        (ValidateMapAsync exampleDevice exampleBuffer 2 0 16).1 = .ok ()) ∧
      ((ValidateMapAsync exampleDevice exampleBuffer 2 0 16).2 = .DeviceLost ↔
        exampleDevice.alive = false) ∧
      ((ValidateMapAsync exampleDevice exampleBuffer 2 0 16).2 = .Error ↔
        exampleDevice.alive = true ∧
          (ValidateMapAsync exampleDevice exampleBuffer 2 0 16).1 ≠ .ok ())) :=
  ⟨by decide, ValidateMapAsync_first_failure exampleDevice exampleBuffer 2 0 16 (by decide)⟩

/-- C3: when the validation of an `APIMapAsync` call fails, every field of the buffer is
unchanged, and the call produces exactly: the deprecation warning (when `size == 0`), the
validation error handed to the device, and, when the callback passed in is not null, one
call of that callback with the validation status and the given userdata, made while the
buffer is unchanged. No backend hook is called and no task is tracked. -/
theorem APIMapAsync_validation_failure (device : DeviceBase) (backend : BufferBackend)
    (mode offset size callback userdata : Nat) (w : World) (e : ErrorData)
    (hfail : (ValidateMapAsync device w.buffer mode offset
      (APIMapAsync.defaultSize offset size w).1).1 = .error e) :
    (APIMapAsync device backend mode offset size callback userdata w).buffer = w.buffer ∧
    (APIMapAsync device backend mode offset size callback userdata w).trace
      = w.trace ++ (if size = 0 then [Event.deprecationWarning] else [])
          ++ [Event.consumedError e]
          ++ (if callback = nullptr then []
              else [Event.mapCallback callback
                (ValidateMapAsync device w.buffer mode offset
                  (APIMapAsync.defaultSize offset size w).1).2 userdata w.buffer]) := by
  have hb := defaultSize_buffer offset size w
  have ht := defaultSize_trace offset size w
  unfold APIMapAsync APIMapAsync.validateAndMap
  generalize APIMapAsync.defaultSize offset size w = p at *
  obtain ⟨sz, w1⟩ := p
  simp only at hb ht hfail ⊢
  rw [hb]
  generalize ValidateMapAsync device w.buffer mode offset sz = v at *
  obtain ⟨res, st⟩ := v
  simp only at hfail
  subst hfail
  by_cases hc : callback = nullptr <;> simp [ConsumedError, World.emit, hc, hb, ht]

/-- Witness of C3: mapping the 16-byte `MapRead | CopyDst` buffer for writing fails with
status `Error`, delivered at once to callback `77` with userdata `88`. -/
theorem APIMapAsync_validation_failure_witness :
    (ValidateMapAsync exampleDevice exampleWorld.buffer 2 0
      (APIMapAsync.defaultSize 0 16 exampleWorld).1).1
        = .error (.usageDoesNotContain BufferUsage.MapWrite) ∧
    (APIMapAsync exampleDevice exampleBackend 2 0 16 77 88 exampleWorld).buffer
      = exampleWorld.buffer ∧
    (APIMapAsync exampleDevice exampleBackend 2 0 16 77 88 exampleWorld).trace
      = exampleWorld.trace ++ (if 16 = 0 then [Event.deprecationWarning] else [])
          ++ [Event.consumedError (.usageDoesNotContain BufferUsage.MapWrite)]
          ++ (if 77 = nullptr then []
              else [Event.mapCallback 77
                (ValidateMapAsync exampleDevice exampleWorld.buffer 2 0
                  (APIMapAsync.defaultSize 0 16 exampleWorld).1).2 88 exampleWorld.buffer]) :=
  ⟨by decide, APIMapAsync_validation_failure exampleDevice exampleBackend 2 0 16 77 88
    exampleWorld (.usageDoesNotContain BufferUsage.MapWrite) (by decide)⟩

/-- C4: when the validation of an `APIMapAsync` call succeeds and the backend
`MapAsyncImpl` succeeds, the last request id becomes the previous id plus one, the map
window becomes `(mode, offset, resolved size)` (the resolved size being `mSize - offset`
for `size == 0` and for the whole-size sentinel, and `size` otherwise), the stored callback
and userdata become those passed in, the state becomes `Mapped`, and the call produces
exactly: the deprecation warning (when `size == 0`), the `MapAsyncImpl` call, and one task
with the new request id tracked at the pending command serial; no callback is called. -/
theorem APIMapAsync_success (device : DeviceBase) (backend : BufferBackend)
    (mode offset size callback userdata : Nat) (w : World)
    (hSize : w.buffer.mSize < 2 ^ 64)
    (hok : (ValidateMapAsync device w.buffer mode offset
      (APIMapAsync.defaultSize offset size w).1).1 = .ok ())
    (himpl : backend.mapAsyncImpl mode offset (APIMapAsync.defaultSize offset size w).1 = .ok ()) :
    (APIMapAsync.defaultSize offset size w).1
      = (if size = 0 ∨ size = kWholeMapSize then w.buffer.mSize - offset else size) ∧
    (APIMapAsync device backend mode offset size callback userdata w).buffer
      = { w.buffer with
          mLastMapID := w.buffer.mLastMapID + 1
          mMapMode := mode
          mMapOffset := offset
          mMapSize := (APIMapAsync.defaultSize offset size w).1
          mMapCallback := callback
          mMapUserdata := userdata
          mState := .Mapped } ∧
    (APIMapAsync device backend mode offset size callback userdata w).trace
      = w.trace ++ (if size = 0 then [Event.deprecationWarning] else [])
          ++ [Event.hook .MapAsyncImpl [mode, offset, (APIMapAsync.defaultSize offset size w).1],
              Event.trackTask (w.buffer.mLastMapID + 1) device.pendingCommandSerial] := by
  obtain ⟨_, hE, hle, _, _, _, _⟩ := ValidateMapAsync_ok_imp hok
  refine ⟨?_, ?_⟩
  · rw [defaultSize_fst]
    simp only [hle, and_true]
    split
    · exact u64sub_eq_sub hSize hle
    · rename_i hn
      push_neg at hn
      simp [hn.1]
  have hb := defaultSize_buffer offset size w
  have ht := defaultSize_trace offset size w
  unfold APIMapAsync APIMapAsync.validateAndMap
  generalize APIMapAsync.defaultSize offset size w = p at *
  obtain ⟨sz, w1⟩ := p
  simp only at hb ht hok himpl ⊢
  rw [hb]
  generalize ValidateMapAsync device w.buffer mode offset sz = v at *
  obtain ⟨res, st⟩ := v
  simp only at hok
  subst hok
  simp [ConsumedError, World.emit, ASSERT, MapAsyncImpl, hb, ht, hE, himpl]

/-- Witness of C4: mapping `[0, 16)` of the example buffer for reading. -/
theorem APIMapAsync_success_witness :
    exampleWorld.buffer.mSize < 2 ^ 64 ∧
    (ValidateMapAsync exampleDevice exampleWorld.buffer 1 0
      (APIMapAsync.defaultSize 0 16 exampleWorld).1).1 = .ok () ∧
    exampleBackend.mapAsyncImpl 1 0 (APIMapAsync.defaultSize 0 16 exampleWorld).1 = .ok () ∧
    (APIMapAsync exampleDevice exampleBackend 1 0 16 77 88 exampleWorld).buffer.mLastMapID
      = 1 ∧
    (APIMapAsync exampleDevice exampleBackend 1 0 16 77 88 exampleWorld).trace
      = [Event.hook .MapAsyncImpl [1, 0, 16], Event.trackTask 1 7] :=
  ⟨by decide, by decide, by decide,
    (congrArg BufferBase.mLastMapID (APIMapAsync_success exampleDevice exampleBackend 1 0 16
      77 88 exampleWorld (by decide) (by decide) (by decide)).2.1).trans (by decide),
    (APIMapAsync_success exampleDevice exampleBackend 1 0 16 77 88 exampleWorld
      (by decide) (by decide) (by decide)).2.2.trans (by decide)⟩

/-- C5 (as stated, refuted): with `offset = 0` and `size = 0` on the valid unmapped
16-byte buffer, all the conditions of the claim hold (`0 % 8 == 0`, `0 % 4 == 0`,
`0 + 0 <= 16`, live device, read mode, `MapRead` usage), yet after `APIMapAsync` and the
completion of request 1 the stored map size is 16, not 0, and `GetMappedRange(8, 8)` is
non-null although `[8, 16)` is not inside `[0, 0)`. -/
theorem APIMapAsync_zero_size_counterexample :
    ((0 : Nat) % 8 = 0 ∧ (0 : Nat) % 4 = 0 ∧ 0 + 0 ≤ exampleWorld.buffer.mSize ∧
      exampleDevice.alive = true ∧ exampleWorld.buffer.isError = false ∧
      exampleWorld.buffer.mState = .Unmapped ∧
      hasBit 1 MapMode.Read ≠ hasBit 1 MapMode.Write ∧
      hasBit 1 MapMode.Read = true ∧
      hasBit exampleWorld.buffer.mUsage BufferUsage.MapRead = true) ∧
    (OnMapRequestCompleted exampleDevice 1 .Success
      (APIMapAsync exampleDevice exampleBackend 1 0 0 77 88 exampleWorld)).buffer.mMapOffset
        = 0 ∧
    (OnMapRequestCompleted exampleDevice 1 .Success
      (APIMapAsync exampleDevice exampleBackend 1 0 0 77 88 exampleWorld)).buffer.mMapSize
        = 16 ∧
    ¬ ((OnMapRequestCompleted exampleDevice 1 .Success
      (APIMapAsync exampleDevice exampleBackend 1 0 0 77 88 exampleWorld)).buffer.mMapSize
        = 0) ∧
    (GetMappedRange exampleBackend 8 8 false
      (OnMapRequestCompleted exampleDevice 1 .Success
        (APIMapAsync exampleDevice exampleBackend 1 0 0 77 88 exampleWorld))).1 ≠ nullptr ∧
    ¬ (8 + 8 ≤ 0 + 0) := by
  decide

/-- C5 (amended): for `offset % 8 == 0`, `size % 4 == 0` and `offset + size <= mSize`, on a
valid `Unmapped` buffer on a live device with matching mode and usage, the size that
`APIMapAsync(mode, offset, size)` validates and stores is `size` itself when `size != 0`
and `mSize - offset` when `size == 0`; it is `size` whenever `size != 0` or
`offset == mSize`. When this size is a multiple of 4, `APIMapAsync` followed by a
completion leaves the buffer `Mapped` with stored map offset `offset` and this stored map
size; `GetMappedRange(o, s)` is then non-null only for ranges inside the window, and every
aligned range inside it passes `CanGetMappedRange` for reading. When it is not (which
needs `size == 0` and `offset < mSize`), the call leaves the buffer as it was, the state
stays `Unmapped` over the completion, and `GetMappedRange` returns null for every range. -/
theorem APIMapAsync_then_completion_window (device : DeviceBase) (backend : BufferBackend)
    (mode offset size callback userdata : Nat) (w : World)
    (device' : DeviceBase) (mapID : Nat) (status : WGPUBufferMapAsyncStatus)
    (hSize : w.buffer.mSize < 2 ^ 64)
    (hAlive : device.alive = true) (hValid : w.buffer.isError = false)
    (hState : w.buffer.mState = .Unmapped) (hOff : offset % 8 = 0) (hSz : size % 4 = 0)
    (hFit : offset + size ≤ w.buffer.mSize)
    (hMode : hasBit mode MapMode.Read ≠ hasBit mode MapMode.Write)
    (hRead : hasBit mode MapMode.Read = true →
      hasBit w.buffer.mUsage BufferUsage.MapRead = true)
    (hWrite : hasBit mode MapMode.Write = true →
      hasBit w.buffer.mUsage BufferUsage.MapWrite = true) :
    (APIMapAsync.defaultSize offset size w).1
        = (if size = 0 then w.buffer.mSize - offset else size)
      ∧ (size ≠ 0 ∨ offset = w.buffer.mSize →
        (APIMapAsync.defaultSize offset size w).1 = size)
      ∧ ((APIMapAsync.defaultSize offset size w).1 % 4 = 0 →
        (OnMapRequestCompleted device' mapID status
          (APIMapAsync device backend mode offset size callback userdata w)).buffer.mState
            = .Mapped ∧
        (OnMapRequestCompleted device' mapID status
          (APIMapAsync device backend mode offset size callback userdata w)).buffer.mMapOffset
            = offset ∧
        (OnMapRequestCompleted device' mapID status
          (APIMapAsync device backend mode offset size callback userdata w)).buffer.mMapSize
            = (APIMapAsync.defaultSize offset size w).1 ∧
        (∀ (backend' : BufferBackend) (o s : Nat) (writable : Bool), o < 2 ^ 64 →
          (GetMappedRange backend' o s writable
            (OnMapRequestCompleted device' mapID status
              (APIMapAsync device backend mode offset size callback userdata w))).1
                ≠ nullptr →
          offset ≤ o ∧ o + s ≤ offset + (APIMapAsync.defaultSize offset size w).1) ∧
        (∀ o s : Nat, o % 8 = 0 → s % 4 = 0 → offset ≤ o →
          o + s ≤ offset + (APIMapAsync.defaultSize offset size w).1 →
          CanGetMappedRange
            (OnMapRequestCompleted device' mapID status
              (APIMapAsync device backend mode offset size callback userdata w)).buffer
            false o s = true))
      ∧ ((APIMapAsync.defaultSize offset size w).1 % 4 ≠ 0 →
        (size = 0 ∧ offset < w.buffer.mSize) ∧
        (APIMapAsync device backend mode offset size callback userdata w).buffer
          = w.buffer ∧
        (OnMapRequestCompleted device' mapID status
          (APIMapAsync device backend mode offset size callback userdata w)).buffer.mState
            = .Unmapped ∧
        (∀ (backend' : BufferBackend) (o s : Nat) (writable : Bool),
          (GetMappedRange backend' o s writable
            (OnMapRequestCompleted device' mapID status
              (APIMapAsync device backend mode offset size callback userdata w))).1
                = nullptr)) := by
  have hne : size ≠ kWholeMapSize := by
    intro h
    have := kWholeMapSize_mod
    omega
  have hle : offset ≤ w.buffer.mSize := by omega
  have hd : (APIMapAsync.defaultSize offset size w).1
      = (if size = 0 then w.buffer.mSize - offset else size) := by
    rw [defaultSize_fst]
    by_cases h0 : size = 0
    · simp [h0, hle, u64sub_eq_sub hSize hle]
    · simp [h0, hne]
  have hd2 : size ≠ 0 ∨ offset = w.buffer.mSize →
      (APIMapAsync.defaultSize offset size w).1 = size := by
    intro h
    rw [hd]
    by_cases h0 : size = 0
    · rcases h with h | h
      · exact absurd h0 h
      · simp [h0, h]
    · simp [h0]
  have hfit : offset + (APIMapAsync.defaultSize offset size w).1 ≤ w.buffer.mSize := by
    rw [hd]; split <;> omega
  refine ⟨hd, hd2, ?_, ?_⟩
  · intro h4
    have hok : (ValidateMapAsync device w.buffer mode offset
        (APIMapAsync.defaultSize offset size w).1).1 = .ok () :=
      ValidateMapAsync_ok_of hSize hAlive hValid hState hOff h4 hfit hMode hRead hWrite
    obtain ⟨cb, -, hb⟩ := APIMapAsync_ok_buffer backend callback userdata hok
    obtain ⟨cb', -, hb'⟩ := CallMapCallback_buffer device' mapID status
      (APIMapAsync device backend mode offset size callback userdata w)
    unfold OnMapRequestCompleted
    rw [hb] at hb'
    have hS : (CallMapCallback device' mapID status
        (APIMapAsync device backend mode offset size callback userdata w)).buffer.mState
        = .Mapped := by rw [hb']
    have hO : (CallMapCallback device' mapID status
        (APIMapAsync device backend mode offset size callback userdata w)).buffer.mMapOffset
        = offset := by rw [hb']
    have hM : (CallMapCallback device' mapID status
        (APIMapAsync device backend mode offset size callback userdata w)).buffer.mMapSize
        = (APIMapAsync.defaultSize offset size w).1 := by rw [hb']
    have hMlt : (CallMapCallback device' mapID status
        (APIMapAsync device backend mode offset size callback userdata w)).buffer.mMapSize
        < 2 ^ 64 := by rw [hM]; omega
    refine ⟨hS, hO, hM, ?_, ?_⟩
    · intro backend' o s writable ho hnn
      have h := (rangeTest_iff _ o s ho hMlt).mp (GetMappedRange_nonnull hnn).1
      rw [hO, hM] at h
      exact ⟨h.2.2.1, h.2.2.2⟩
    · intro o s h8 h4' hlo hhi
      have ho : o < 2 ^ 64 := by omega
      have h := (rangeTest_iff _ o s ho hMlt).mpr
        (by rw [hO, hM]; exact ⟨h8, h4', hlo, hhi⟩)
      unfold CanGetMappedRange
      simp [h, hS]
  · intro h4
    have hz : size = 0 ∧ offset < w.buffer.mSize := by
      by_cases h0 : size = 0
      · refine ⟨h0, ?_⟩
        rw [hd] at h4
        simp only [h0, if_true] at h4
        omega
      · rw [hd] at h4
        simp only [h0, if_false] at h4
        exact absurd hSz h4
    have hfail : ∃ e, (ValidateMapAsync device w.buffer mode offset
        (APIMapAsync.defaultSize offset size w).1).1 = .error e := by
      cases hv : (ValidateMapAsync device w.buffer mode offset
          (APIMapAsync.defaultSize offset size w).1).1 with
      | error e => exact ⟨e, rfl⟩
      | ok u => exact absurd (ValidateMapAsync_ok_imp hv).2.2.2.2.1 h4
    obtain ⟨e, he⟩ := hfail
    have hb : (APIMapAsync device backend mode offset size callback userdata w).buffer
        = w.buffer := APIMapAsync_error_buffer he
    obtain ⟨cb', -, hb'⟩ := CallMapCallback_buffer device' mapID status
      (APIMapAsync device backend mode offset size callback userdata w)
    unfold OnMapRequestCompleted
    rw [hb] at hb'
    have hS : (CallMapCallback device' mapID status
        (APIMapAsync device backend mode offset size callback userdata w)).buffer.mState
        = .Unmapped := by rw [hb']; exact hState
    refine ⟨hz, hb, hS, ?_⟩
    intro backend' o s writable
    rw [GetMappedRange_of_not_mapped _ _ _ _ _ (Or.inl hS)]

/-- Witness of C5 (amended): mapping `[8, 16)` of the example buffer for reading, and
mapping at `offset = 16 = mSize` with `size = 0`, where the stored window is `(16, 0)`. -/
theorem APIMapAsync_then_completion_window_witness :
    (exampleWorld.buffer.mSize < 2 ^ 64 ∧ exampleDevice.alive = true ∧
      exampleWorld.buffer.isError = false ∧ exampleWorld.buffer.mState = .Unmapped ∧
      8 % 8 = 0 ∧ 8 % 4 = 0 ∧ 8 + 8 ≤ exampleWorld.buffer.mSize ∧
      16 % 8 = 0 ∧ 0 % 4 = 0 ∧ 16 + 0 ≤ exampleWorld.buffer.mSize ∧
      hasBit 1 MapMode.Read ≠ hasBit 1 MapMode.Write ∧
      (hasBit 1 MapMode.Read = true →
        hasBit exampleWorld.buffer.mUsage BufferUsage.MapRead = true) ∧
      (hasBit 1 MapMode.Write = true →
        hasBit exampleWorld.buffer.mUsage BufferUsage.MapWrite = true)) ∧
    ((OnMapRequestCompleted exampleDevice 1 .Success
      (APIMapAsync exampleDevice exampleBackend 1 8 8 77 88 exampleWorld)).buffer.mMapOffset
        = 8 ∧
    (OnMapRequestCompleted exampleDevice 1 .Success
      (APIMapAsync exampleDevice exampleBackend 1 8 8 77 88 exampleWorld)).buffer.mMapSize
        = 8) ∧
    ((OnMapRequestCompleted exampleDevice 1 .Success
      (APIMapAsync exampleDevice exampleBackend 1 16 0 77 88 exampleWorld)).buffer.mMapOffset
        = 16 ∧
    (OnMapRequestCompleted exampleDevice 1 .Success
      (APIMapAsync exampleDevice exampleBackend 1 16 0 77 88 exampleWorld)).buffer.mMapSize
        = 0) :=
  ⟨by decide,
    ⟨((APIMapAsync_then_completion_window exampleDevice exampleBackend 1 8 8 77 88
      exampleWorld exampleDevice 1 .Success (by decide) (by decide) (by decide) (by decide)
      (by decide) (by decide) (by decide) (by decide) (by decide)
      (by decide)).2.2.1 (by decide)).2.1,
    (((APIMapAsync_then_completion_window exampleDevice exampleBackend 1 8 8 77 88
      exampleWorld exampleDevice 1 .Success (by decide) (by decide) (by decide) (by decide)
      (by decide) (by decide) (by decide) (by decide) (by decide)
      (by decide)).2.2.1 (by decide)).2.2.1).trans (by decide)⟩,
    ⟨((APIMapAsync_then_completion_window exampleDevice exampleBackend 1 16 0 77 88
      exampleWorld exampleDevice 1 .Success (by decide) (by decide) (by decide) (by decide)
      (by decide) (by decide) (by decide) (by decide) (by decide)
      (by decide)).2.2.1 (by decide)).2.1,
    (((APIMapAsync_then_completion_window exampleDevice exampleBackend 1 16 0 77 88
      exampleWorld exampleDevice 1 .Success (by decide) (by decide) (by decide) (by decide)
      (by decide) (by decide) (by decide) (by decide) (by decide)
      (by decide)).2.2.1 (by decide)).2.2.1).trans (by decide)⟩⟩

/-- C6: `APIMapAsync` called with `size == 0` is the call with `size == kWholeMapSize`
made after the deprecation warning: it leaves the same buffer, and its effects are those
of that call preceded by the warning. For `size == kWholeMapSize` and `offset <= mSize`
the size that is validated, and stored as the map size on success, is `mSize - offset`;
for `offset > mSize` the size stays the sentinel, validation fails and the buffer is
unchanged. -/
theorem APIMapAsync_default_size (device : DeviceBase) (backend : BufferBackend)
    (mode offset callback userdata : Nat) (w : World) (hSize : w.buffer.mSize < 2 ^ 64) :
    APIMapAsync device backend mode offset 0 callback userdata w
      = APIMapAsync device backend mode offset kWholeMapSize callback userdata
          (w.emit .deprecationWarning) ∧
    (APIMapAsync device backend mode offset 0 callback userdata w).buffer
      = (APIMapAsync device backend mode offset kWholeMapSize callback userdata w).buffer ∧
    (APIMapAsync device backend mode offset 0 callback userdata w).trace
      = w.trace ++ [Event.deprecationWarning] ++
        (APIMapAsync device backend mode offset kWholeMapSize callback userdata w).trace.drop
          w.trace.length ∧
    (APIMapAsync device backend mode offset kWholeMapSize callback userdata w).trace
      = w.trace ++
        (APIMapAsync device backend mode offset kWholeMapSize callback userdata w).trace.drop
          w.trace.length ∧
    (offset ≤ w.buffer.mSize →
      APIMapAsync device backend mode offset kWholeMapSize callback userdata w
        = APIMapAsync.validateAndMap device backend mode offset (w.buffer.mSize - offset)
            callback userdata w ∧
      ((ValidateMapAsync device w.buffer mode offset (w.buffer.mSize - offset)).1 = .ok () →
        (APIMapAsync device backend mode offset kWholeMapSize callback userdata
          w).buffer.mMapSize = w.buffer.mSize - offset ∧
        (APIMapAsync device backend mode offset kWholeMapSize callback userdata
          w).buffer.mState = .Mapped)) ∧
    (offset > w.buffer.mSize →
      APIMapAsync device backend mode offset kWholeMapSize callback userdata w
        = APIMapAsync.validateAndMap device backend mode offset kWholeMapSize
            callback userdata w ∧
      (ValidateMapAsync device w.buffer mode offset kWholeMapSize).1 ≠ .ok () ∧
      (APIMapAsync device backend mode offset kWholeMapSize callback userdata w).buffer
        = w.buffer) := by
  have hk := kWholeMapSize_ne_zero
  obtain ⟨b, t⟩ := w
  simp only at hSize
  have hframe := APIMapAsync_frame device backend mode offset kWholeMapSize callback userdata b
  have h0 : APIMapAsync device backend mode offset 0 callback userdata
        { buffer := b, trace := t }
      = APIMapAsync device backend mode offset kWholeMapSize callback userdata
          { buffer := b, trace := t ++ [Event.deprecationWarning] } := by
    rw [APIMapAsync_eq_validateAndMap, APIMapAsync_eq_validateAndMap, defaultSize_fst,
      defaultSize_fst]
    simp [hk]
  have hW : ∀ sz, (APIMapAsync.defaultSize offset kWholeMapSize
      { buffer := b, trace := t }).1 = sz →
      APIMapAsync device backend mode offset kWholeMapSize callback userdata
        { buffer := b, trace := t }
      = APIMapAsync.validateAndMap device backend mode offset sz callback userdata
        { buffer := b, trace := t } := by
    intro sz hsz
    rw [APIMapAsync_eq_validateAndMap, hsz]
    simp [hk]
  refine ⟨h0, ?_, ?_, ?_, ?_, ?_⟩
  · rw [h0, hframe, hframe t]
  · rw [h0, hframe, hframe t]
    simp
  · rw [hframe t]
    simp
  · intro hle
    have hle' : offset ≤ b.mSize := hle
    have hsz : (APIMapAsync.defaultSize offset kWholeMapSize
        { buffer := b, trace := t }).1 = b.mSize - offset := by
      rw [defaultSize_fst]
      simp [hle, u64sub_eq_sub hSize hle]
    refine ⟨hW _ hsz, fun hok => ?_⟩
    rw [hW _ hsz, validateAndMap_ok hok]
    cases backend.mapAsyncImpl mode offset (b.mSize - offset) <;> exact ⟨rfl, rfl⟩
  · intro hgt
    have hgt' : offset > b.mSize := hgt
    have hsz : (APIMapAsync.defaultSize offset kWholeMapSize
        { buffer := b, trace := t }).1 = kWholeMapSize := by
      rw [defaultSize_fst]
      have : ¬ offset ≤ b.mSize := by omega
      simp [this, hk]
    have hfail : (ValidateMapAsync device b mode offset kWholeMapSize).1 ≠ .ok () := by
      intro hok
      have := (ValidateMapAsync_ok_imp hok).2.2.1
      omega
    refine ⟨hW _ hsz, hfail, ?_⟩
    cases hv : (ValidateMapAsync device b mode offset kWholeMapSize).1 with
    | ok u => exact absurd hv hfail
    | error e =>
      rw [hW _ hsz, validateAndMap_error (w := ⟨b, t⟩) hv]

/-- Witness of C6 on the example buffer with `offset = 0`. -/
theorem APIMapAsync_default_size_witness :
    exampleWorld.buffer.mSize < 2 ^ 64 ∧
    (APIMapAsync exampleDevice exampleBackend 1 0 0 77 88 exampleWorld).buffer
      = (APIMapAsync exampleDevice exampleBackend 1 0 kWholeMapSize 77 88
          exampleWorld).buffer ∧
    (APIMapAsync exampleDevice exampleBackend 1 0 kWholeMapSize 77 88
      exampleWorld).buffer.mMapSize = 16 :=
  ⟨by decide,
    (APIMapAsync_default_size exampleDevice exampleBackend 1 0 77 88 exampleWorld
      (by decide)).2.1,
    (((APIMapAsync_default_size exampleDevice exampleBackend 1 0 77 88 exampleWorld
      (by decide)).2.2.2.2.1 (by decide)).2 (by decide)).1⟩

/-- C7: after an `APIMapAsync` whose validation succeeded, and after any sequence of
completion notifications (none included), the buffer is `Mapped` with the window and the
request id of that request; every further `APIMapAsync` call, whatever its arguments and
the answers of the device, fails validation, with the failure "already mapped" whenever
its arguments pass checks 1-6, and leaves every field of the buffer (window, stored
callback, request id) unchanged. More generally `ValidateMapAsync` fails for every input
whenever the state is `Mapped`, `MappedAtCreation` or `Destroyed`. -/
theorem APIMapAsync_while_mapped (device : DeviceBase) (backend : BufferBackend)
    (mode offset size callback userdata : Nat) (w : World)
    (completions : List (DeviceBase × Nat × WGPUBufferMapAsyncStatus))
    (device2 : DeviceBase) (backend2 : BufferBackend)
    (mode2 offset2 size2 callback2 userdata2 : Nat)
    (hSize : w.buffer.mSize < 2 ^ 64)
    (hok : (ValidateMapAsync device w.buffer mode offset
      (APIMapAsync.defaultSize offset size w).1).1 = .ok ()) :
    ((runCompletions completions
        (APIMapAsync device backend mode offset size callback userdata w)).buffer.mState
      = .Mapped ∧
    (runCompletions completions
        (APIMapAsync device backend mode offset size callback userdata w)).buffer.mMapMode
      = mode ∧
    (runCompletions completions
        (APIMapAsync device backend mode offset size callback userdata w)).buffer.mMapOffset
      = offset ∧
    (runCompletions completions
        (APIMapAsync device backend mode offset size callback userdata w)).buffer.mMapSize
      = (APIMapAsync.defaultSize offset size w).1 ∧
    (runCompletions completions
        (APIMapAsync device backend mode offset size callback userdata w)).buffer.mLastMapID
      = w.buffer.mLastMapID + 1) ∧
    (ValidateMapAsync device2
      (runCompletions completions
        (APIMapAsync device backend mode offset size callback userdata w)).buffer
      mode2 offset2
      (APIMapAsync.defaultSize offset2 size2
        (runCompletions completions
          (APIMapAsync device backend mode offset size callback userdata w))).1).1
      ≠ .ok () ∧
    (device2.alive = true → offset2 ≤ w.buffer.mSize → offset2 % 8 = 0 →
      (APIMapAsync.defaultSize offset2 size2
        (runCompletions completions
          (APIMapAsync device backend mode offset size callback userdata w))).1 % 4 = 0 →
      (APIMapAsync.defaultSize offset2 size2
        (runCompletions completions
          (APIMapAsync device backend mode offset size callback userdata w))).1
        ≤ w.buffer.mSize - offset2 →
      (ValidateMapAsync device2
        (runCompletions completions
          (APIMapAsync device backend mode offset size callback userdata w)).buffer
        mode2 offset2
        (APIMapAsync.defaultSize offset2 size2
          (runCompletions completions
            (APIMapAsync device backend mode offset size callback userdata w))).1).1
        = .error .alreadyMapped) ∧
    (APIMapAsync device2 backend2 mode2 offset2 size2 callback2 userdata2
      (runCompletions completions
        (APIMapAsync device backend mode offset size callback userdata w))).buffer
      = (runCompletions completions
        (APIMapAsync device backend mode offset size callback userdata w)).buffer ∧
    (∀ (d : DeviceBase) (self : BufferBase) (m o s : Nat),
      self.mState = .Mapped ∨ self.mState = .MappedAtCreation ∨ self.mState = .Destroyed →
        (ValidateMapAsync d self m o s).1 ≠ .ok ()) := by
  obtain ⟨_, hE, -⟩ := ValidateMapAsync_ok_imp hok
  obtain ⟨cb, -, hb⟩ := APIMapAsync_ok_buffer backend callback userdata hok
  obtain ⟨cb', -, hb'⟩ := runCompletions_buffer completions
    (APIMapAsync device backend mode offset size callback userdata w)
  rw [hb] at hb'
  generalize runCompletions completions
    (APIMapAsync device backend mode offset size callback userdata w) = w2 at *
  have hS : w2.buffer.mState = .Mapped := by rw [hb']
  have hV : w2.buffer.isError = false := by rw [hb']; exact hE
  have hSz : w2.buffer.mSize = w.buffer.mSize := by rw [hb']
  have hfail : (ValidateMapAsync device2 w2.buffer mode2 offset2
      (APIMapAsync.defaultSize offset2 size2 w2).1).1 ≠ .ok () :=
    ValidateMapAsync_not_unmapped (by rw [hS]; decide)
  refine ⟨⟨hS, ?_, ?_, ?_, ?_⟩, hfail, ?_, ?_, ?_⟩
  · rw [hb']
  · rw [hb']
  · rw [hb']
  · rw [hb']
  · intro hA h3 h4 h5 h6
    exact ValidateMapAsync_alreadyMapped (by rw [hSz]; exact hSize) hA hV
      (by rw [hSz]; exact h3) h4 h5 (by rw [hSz]; exact h6) (Or.inl hS)
  · cases hv : (ValidateMapAsync device2 w2.buffer mode2 offset2
        (APIMapAsync.defaultSize offset2 size2 w2).1).1 with
    | ok u => exact absurd hv hfail
    | error e => exact APIMapAsync_error_buffer hv
  · intro d self m o s hst
    apply ValidateMapAsync_not_unmapped
    rcases hst with h | h | h <;> rw [h] <;> decide

/-- Witness of C7: the example buffer is mapped by request 1, the request completes, and
a second `APIMapAsync` of the same range leaves the buffer unchanged. -/
theorem APIMapAsync_while_mapped_witness :
    (exampleWorld.buffer.mSize < 2 ^ 64 ∧
      (ValidateMapAsync exampleDevice exampleWorld.buffer 1 0
        (APIMapAsync.defaultSize 0 16 exampleWorld).1).1 = .ok ()) ∧
    (APIMapAsync exampleDevice exampleBackend 1 0 16 55 66
      (runCompletions [(exampleDevice, 1, .Success)]
        (APIMapAsync exampleDevice exampleBackend 1 0 16 77 88 exampleWorld))).buffer
      = (runCompletions [(exampleDevice, 1, .Success)]
        (APIMapAsync exampleDevice exampleBackend 1 0 16 77 88 exampleWorld)).buffer :=
  ⟨by decide,
    (APIMapAsync_while_mapped exampleDevice exampleBackend 1 0 16 77 88 exampleWorld
      [(exampleDevice, 1, .Success)] exampleDevice exampleBackend 1 0 16 55 66
      (by decide) (by decide)).2.2.2.1⟩

/-- C8: `CanGetMappedRange(writable, offset, size)` returns true if and only if
`offset % 8 == 0`, `size % 4 == 0`, `size <= mMapSize`, `offset >= mMapOffset`,
`offset - mMapOffset <= mMapSize - size`, and the state is `MappedAtCreation`, or `Mapped`
with `writable` false or the map mode including Write. In the states `Unmapped` and
`Destroyed` it returns false for every input, and `GetMappedRange` returns null, touching
nothing, whenever `CanGetMappedRange` is false. -/
theorem CanGetMappedRange_iff (self : BufferBase) (writable : Bool) (offset size : Nat)
    (hOffset : offset < 2 ^ 64) (hMap : self.mMapSize < 2 ^ 64) :
    (CanGetMappedRange self writable offset size = true ↔
      (offset % 8 = 0 ∧ size % 4 = 0 ∧ size ≤ self.mMapSize ∧ offset ≥ self.mMapOffset ∧
        offset - self.mMapOffset ≤ self.mMapSize - size) ∧
      (self.mState = .MappedAtCreation ∨
        (self.mState = .Mapped ∧
          (writable = false ∨ hasBit self.mMapMode MapMode.Write = true)))) ∧
    (self.mState = .Unmapped ∨ self.mState = .Destroyed →
      ∀ (wr : Bool) (o s : Nat), CanGetMappedRange self wr o s = false) ∧
    (∀ (backend : BufferBackend) (w : World) (wr : Bool) (o s : Nat),
      CanGetMappedRange w.buffer wr o s = false →
        GetMappedRange backend o s wr w = (nullptr, w)) := by
  refine ⟨?_, ?_, ?_⟩
  · unfold CanGetMappedRange
    have hr := rangeTest_iff self offset size hOffset hMap
    by_cases ht : CanGetMappedRange.rangeTest self offset size = true
    · have hc := hr.mp ht
      have hc' : offset % 8 = 0 ∧ size % 4 = 0 ∧ size ≤ self.mMapSize ∧
          offset ≥ self.mMapOffset ∧ offset - self.mMapOffset ≤ self.mMapSize - size := by
        omega
      simp only [ht, Bool.not_true, if_false, hc', true_and]
      cases hS : self.mState <;> cases writable <;> simp
    · have hc' : ¬ (offset % 8 = 0 ∧ size % 4 = 0 ∧ size ≤ self.mMapSize ∧
          offset ≥ self.mMapOffset ∧ offset - self.mMapOffset ≤ self.mMapSize - size) := by
        intro hc
        apply ht
        rw [hr]
        omega
      have htf : CanGetMappedRange.rangeTest self offset size = false := by
        simpa using ht
      simp only [htf, Bool.not_false, if_true]
      constructor
      · intro h; cases h
      · rintro ⟨hc, -⟩; exact absurd hc hc'
  · intro hS wr o s
    unfold CanGetMappedRange
    rcases hS with hS | hS <;> simp [hS]
  · intro backend w wr o s hfalse
    unfold GetMappedRange
    simp [hfalse]

/-- Witness of C8: the range `[8, 16)` of the window `[0, 16)` mapped for reading. -/
theorem CanGetMappedRange_iff_witness :
    (8 : Nat) < 2 ^ 64 ∧ exampleMapped.mMapSize < 2 ^ 64 ∧
    CanGetMappedRange exampleMapped false 8 8 = true ∧
    CanGetMappedRange exampleMapped true 8 8 = false ∧
    (exampleMapped.mState = .Unmapped ∨ exampleMapped.mState = .Destroyed →
      ∀ (wr : Bool) (o s : Nat), CanGetMappedRange exampleMapped wr o s = false) :=
  ⟨by decide, by decide,
    (CanGetMappedRange_iff exampleMapped false 8 8 (by decide) (by decide)).1.mpr
      (by decide),
    by decide,
    (CanGetMappedRange_iff exampleMapped false 8 8 (by decide) (by decide)).2.1⟩

/-- C9: the range test of `CanGetMappedRange` is exact over 64-bit unsigned integers.
Where the two subtractions are evaluated their subtrahend is not the larger operand, so
the wrapped results are the integer differences; for aligned `offset` and `size` the test
passes if and only if `mMapOffset <= offset` and `offset + size <= mMapOffset + mMapSize`
in unbounded integers; a range ending at `mMapOffset + mMapSize` is accepted, one ending
4 bytes later is rejected; every non-null result of `GetMappedRange` is a sub-range of the
map window. -/
theorem CanGetMappedRange_rangeTest_exact (self : BufferBase) (offset size : Nat)
    (hOffset : offset < 2 ^ 64) (hMap : self.mMapSize < 2 ^ 64) :
    (¬ (size > self.mMapSize ∨ offset < self.mMapOffset) →
      self.mMapOffset ≤ offset ∧ size ≤ self.mMapSize ∧
      ((u64sub offset self.mMapOffset : Nat) : Int)
        = (offset : Int) - (self.mMapOffset : Int) ∧
      ((u64sub self.mMapSize size : Nat) : Int) = (self.mMapSize : Int) - (size : Int)) ∧
    (offset % 8 = 0 → size % 4 = 0 →
      (CanGetMappedRange.rangeTest self offset size = true ↔
        self.mMapOffset ≤ offset ∧ offset + size ≤ self.mMapOffset + self.mMapSize)) ∧
    (offset % 8 = 0 → size % 4 = 0 → self.mMapOffset ≤ offset →
      offset + size = self.mMapOffset + self.mMapSize →
        CanGetMappedRange.rangeTest self offset size = true) ∧
    (offset + size = self.mMapOffset + self.mMapSize + 4 →
      CanGetMappedRange.rangeTest self offset size = false) ∧
    (∀ (backend : BufferBackend) (writable : Bool) (trace : List Event),
      (GetMappedRange backend offset size writable { buffer := self, trace := trace }).1
          ≠ nullptr →
        self.mMapOffset ≤ offset ∧ offset + size ≤ self.mMapOffset + self.mMapSize) := by
  have hr := rangeTest_iff self offset size hOffset hMap
  refine ⟨?_, ?_, ?_, ?_, ?_⟩
  · intro hguard
    have ho : self.mMapOffset ≤ offset := by omega
    have hs : size ≤ self.mMapSize := by omega
    rw [u64sub_eq_sub hOffset ho, u64sub_eq_sub hMap hs]
    omega
  · intro h8 h4
    rw [hr]
    constructor
    · rintro ⟨-, -, a, b⟩; exact ⟨a, b⟩
    · rintro ⟨a, b⟩; exact ⟨h8, h4, a, b⟩
  · intro h8 h4 ho he
    rw [hr]
    exact ⟨h8, h4, ho, by omega⟩
  · intro he
    cases ht : CanGetMappedRange.rangeTest self offset size
    · rfl
    · have := hr.mp ht
      omega
  · intro backend writable trace hnn
    have := hr.mp (GetMappedRange_nonnull hnn).1
    exact ⟨this.2.2.1, this.2.2.2⟩

/-- Witness of C9: the range `[8, 16)` ends at the end of the window `[0, 16)`. -/
theorem CanGetMappedRange_rangeTest_exact_witness :
    (8 : Nat) < 2 ^ 64 ∧ exampleMapped.mMapSize < 2 ^ 64 ∧
    CanGetMappedRange.rangeTest exampleMapped 8 8 = true ∧
    CanGetMappedRange.rangeTest exampleMapped 8 12 = false :=
  ⟨by decide, by decide,
    (CanGetMappedRange_rangeTest_exact exampleMapped 8 8 (by decide) (by decide)).2.2.1
      (by decide) (by decide) (by decide) (by decide),
    (CanGetMappedRange_rangeTest_exact exampleMapped 8 12 (by decide) (by decide)).2.2.2.1
      (by decide)⟩

/-- C10: `OnMapRequestCompleted(id, status)` calls the stored callback if and only if a
callback is stored and `id` equals the last request id. When it does, it calls it exactly
once, with the stored userdata, with status `DeviceLost` if the device is lost and with
the delivered status otherwise, and the stored callback is already null at the moment of
the call. Otherwise it calls nothing and leaves the buffer as it is (a valid buffer's
world is unchanged altogether). In every case the state and the map window are unchanged. -/
theorem OnMapRequestCompleted_spec (device : DeviceBase) (mapID : Nat)
    (status : WGPUBufferMapAsyncStatus) (w : World) :
    (w.buffer.mMapCallback ≠ nullptr ∧ mapID = w.buffer.mLastMapID →
      (OnMapRequestCompleted device mapID status w).buffer
        = { w.buffer with mMapCallback := nullptr } ∧
      (OnMapRequestCompleted device mapID status w).trace
        = w.trace ++ (if w.buffer.isError then [Event.assertFailed] else []) ++
          [Event.mapCallback w.buffer.mMapCallback
            (if device.lost then .DeviceLost else status) w.buffer.mMapUserdata
            { w.buffer with mMapCallback := nullptr }]) ∧
    (¬ (w.buffer.mMapCallback ≠ nullptr ∧ mapID = w.buffer.mLastMapID) →
      (OnMapRequestCompleted device mapID status w).buffer = w.buffer ∧
      (OnMapRequestCompleted device mapID status w).trace
        = w.trace ++ (if w.buffer.isError then [Event.assertFailed] else []) ∧
      (w.buffer.isError = false → OnMapRequestCompleted device mapID status w = w)) ∧
    ((OnMapRequestCompleted device mapID status w).trace.countP Event.isMapCallback
      = w.trace.countP Event.isMapCallback +
        (if w.buffer.mMapCallback ≠ nullptr ∧ mapID = w.buffer.mLastMapID then 1 else 0)) ∧
    (OnMapRequestCompleted device mapID status w).buffer.mState = w.buffer.mState ∧
    (OnMapRequestCompleted device mapID status w).buffer.mMapMode = w.buffer.mMapMode ∧
    (OnMapRequestCompleted device mapID status w).buffer.mMapOffset = w.buffer.mMapOffset ∧
    (OnMapRequestCompleted device mapID status w).buffer.mMapSize = w.buffer.mMapSize := by
  unfold OnMapRequestCompleted
  rw [CallMapCallback_eq]
  by_cases hf : w.buffer.mMapCallback ≠ nullptr ∧ mapID = w.buffer.mLastMapID
  · rw [if_pos hf, if_pos hf]
    refine ⟨fun _ => ⟨rfl, rfl⟩, fun hn => absurd hf hn, ?_, rfl, rfl, rfl, rfl⟩
    cases hE : w.buffer.isError <;> simp [List.countP_append, Event.isMapCallback]
  · rw [if_neg hf, if_neg hf]
    refine ⟨fun h => absurd h hf, fun _ => ⟨rfl, rfl, fun hE => ?_⟩, ?_, rfl, rfl, rfl, rfl⟩
    · simp [hE]
    · cases hE : w.buffer.isError <;> simp [List.countP_append, Event.isMapCallback]

/-- Witness of C10: completing request 1 of the mapped example buffer calls callback `77`
once, with `Success` and userdata `88`, the stored callback being null by then. -/
theorem OnMapRequestCompleted_spec_witness :
    (exampleMapped.mMapCallback ≠ nullptr ∧ 1 = exampleMapped.mLastMapID) ∧
    (OnMapRequestCompleted exampleDevice 1 .Success
        { buffer := exampleMapped, trace := [] }).trace
      = [Event.mapCallback 77 .Success 88 { exampleMapped with mMapCallback := nullptr }] :=
  ⟨by decide,
    ((OnMapRequestCompleted_spec exampleDevice 1 .Success
      { buffer := exampleMapped, trace := [] }).1 (by decide)).2.trans (by decide)⟩

/-- For an application callback that does not act on the buffer (the functions outside
`Reentrant`): on a valid buffer on a live device, in state `Mapped` with a callback pending,
`Unmap` calls that callback exactly once, with `UnmappedBeforeCallback` and the stored
userdata, calls the backend `UnmapImpl` exactly once, clears the stored callback and
userdata, and ends in state `Unmapped`. Every `OnMapRequestCompleted` delivered afterwards
leaves the world as it is, so after any sequence of completions the callback has been
called exactly once in total. -/
theorem Unmap_pending (device : DeviceBase) (backend : BufferBackend) (w : World)
    (hAlive : device.alive = true) (hLost : device.lost = false)
    (hValid : w.buffer.isError = false) (hState : w.buffer.mState = .Mapped)
    (hPending : w.buffer.mMapCallback ≠ nullptr) :
    Unmap device backend w =
      { buffer := { w.buffer with
          mMapCallback := nullptr
          mMapUserdata := 0
          mState := .Unmapped },
        trace := w.trace ++
          [Event.mapCallback w.buffer.mMapCallback .UnmappedBeforeCallback
              w.buffer.mMapUserdata { w.buffer with mMapCallback := nullptr },
            Event.hook .UnmapImpl []] } ∧
    (Unmap device backend w).trace.countP Event.isMapCallback
      = w.trace.countP Event.isMapCallback + 1 ∧
    (Unmap device backend w).trace.countP (Event.isHook .UnmapImpl)
      = w.trace.countP (Event.isHook .UnmapImpl) + 1 ∧
    (∀ (device' : DeviceBase) (mapID : Nat) (status : WGPUBufferMapAsyncStatus),
      OnMapRequestCompleted device' mapID status (Unmap device backend w)
        = Unmap device backend w) ∧
    (∀ completions : List (DeviceBase × Nat × WGPUBufferMapAsyncStatus),
      (runCompletions completions (Unmap device backend w)).trace.countP Event.isMapCallback
        = w.trace.countP Event.isMapCallback + 1) := by
  have heq : Unmap device backend w =
      { buffer := { w.buffer with
          mMapCallback := nullptr
          mMapUserdata := 0
          mState := .Unmapped },
        trace := w.trace ++
          [Event.mapCallback w.buffer.mMapCallback .UnmappedBeforeCallback
              w.buffer.mMapUserdata { w.buffer with mMapCallback := nullptr },
            Event.hook .UnmapImpl []] } := by
    unfold Unmap
    rw [UnmapInternal_mapped _ _ _ _ hAlive hValid hState]
    simp [hPending, hLost]
  have hcount : (Unmap device backend w).trace.countP Event.isMapCallback
      = w.trace.countP Event.isMapCallback + 1 := by
    rw [heq]
    simp [List.countP_append, List.countP_cons, Event.isMapCallback]
  have hnoop : ∀ completions : List (DeviceBase × Nat × WGPUBufferMapAsyncStatus),
      runCompletions completions (Unmap device backend w) = Unmap device backend w := by
    intro cs
    apply runCompletions_no_callback
    · rw [heq]; exact hValid
    · rw [heq]
  refine ⟨heq, hcount, ?_, ?_, ?_⟩
  · rw [heq]
    simp [List.countP_append, List.countP_cons, Event.isHook]
  · intro device' mapID status
    have := hnoop [(device', mapID, status)]
    simpa [runCompletions] using this
  · intro cs
    rw [hnoop cs, hcount]

/-- An instance of `Unmap_pending`: unmapping the mapped example buffer while request 1 is
pending. -/
theorem Unmap_pending_witness :
    (exampleDevice.alive = true ∧ exampleDevice.lost = false ∧
      exampleMapped.isError = false ∧ exampleMapped.mState = .Mapped ∧
      exampleMapped.mMapCallback ≠ nullptr) ∧
    (Unmap exampleDevice exampleBackend { buffer := exampleMapped, trace := [] }).trace
      = [Event.mapCallback 77 .UnmappedBeforeCallback 88
          { exampleMapped with mMapCallback := nullptr },
        Event.hook .UnmapImpl []] ∧
    (Unmap exampleDevice exampleBackend
      { buffer := exampleMapped, trace := [] }).buffer.mState = .Unmapped :=
  ⟨by decide,
    (congrArg World.trace (Unmap_pending exampleDevice exampleBackend
      { buffer := exampleMapped, trace := [] } (by decide) (by decide) (by decide)
      (by decide) (by decide)).1).trans (by decide),
    (congrArg (fun x => x.buffer.mState) (Unmap_pending exampleDevice exampleBackend
      { buffer := exampleMapped, trace := [] } (by decide) (by decide) (by decide)
      (by decide) (by decide)).1).trans (by decide)⟩

/-- C13: on a valid buffer on a live device, in state `Mapped` with a callback pending,
`APIDestroy` calls that callback exactly once, with `DestroyedBeforeCallback` and the
stored userdata, while the buffer is still `Mapped`; it then calls `UnmapImpl` and
`DestroyImpl` and ends in state `Destroyed`, after which `APIGetMappedRange` and
`APIGetConstMappedRange` return null for every offset and size. -/
theorem APIDestroy_pending (device : DeviceBase) (backend : BufferBackend) (w : World)
    (hAlive : device.alive = true) (hLost : device.lost = false)
    (hValid : w.buffer.isError = false) (hState : w.buffer.mState = .Mapped)
    (hPending : w.buffer.mMapCallback ≠ nullptr) :
    APIDestroy device backend w =
      { buffer := { w.buffer with
          mMapCallback := nullptr
          mMapUserdata := 0
          mState := .Destroyed },
        trace := w.trace ++
          [Event.mapCallback w.buffer.mMapCallback .DestroyedBeforeCallback
              w.buffer.mMapUserdata { w.buffer with mMapCallback := nullptr },
            Event.hook .UnmapImpl [],
            Event.hook .DestroyImpl []] } ∧
    ({ w.buffer with mMapCallback := nullptr } : BufferBase).mState = .Mapped ∧
    (APIDestroy device backend w).trace.countP Event.isMapCallback
      = w.trace.countP Event.isMapCallback + 1 ∧
    (APIDestroy device backend w).buffer.mState = .Destroyed ∧
    (∀ (backend' : BufferBackend) (offset size : Nat),
      APIGetMappedRange backend' offset size (APIDestroy device backend w)
        = (nullptr, APIDestroy device backend w) ∧
      APIGetConstMappedRange backend' offset size (APIDestroy device backend w)
        = (nullptr, APIDestroy device backend w)) := by
  have heq : APIDestroy device backend w =
      { buffer := { w.buffer with
          mMapCallback := nullptr
          mMapUserdata := 0
          mState := .Destroyed },
        trace := w.trace ++
          [Event.mapCallback w.buffer.mMapCallback .DestroyedBeforeCallback
              w.buffer.mMapUserdata { w.buffer with mMapCallback := nullptr },
            Event.hook .UnmapImpl [],
            Event.hook .DestroyImpl []] } := by
    rw [APIDestroy_mapped_alive _ _ _ hAlive hValid hState]
    simp [hPending, hLost]
  have hS : (APIDestroy device backend w).buffer.mState = .Destroyed := by rw [heq]
  refine ⟨heq, hState, ?_, hS, ?_⟩
  · rw [heq]
    simp [List.countP_append, List.countP_cons, Event.isMapCallback]
  · intro backend' offset size
    unfold APIGetMappedRange APIGetConstMappedRange
    exact ⟨GetMappedRange_of_not_mapped _ _ _ _ _ (Or.inr hS),
      GetMappedRange_of_not_mapped _ _ _ _ _ (Or.inr hS)⟩

/-- Witness of C13: destroying the mapped example buffer while request 1 is pending. -/
theorem APIDestroy_pending_witness :
    (exampleDevice.alive = true ∧ exampleDevice.lost = false ∧
      exampleMapped.isError = false ∧ exampleMapped.mState = .Mapped ∧
      exampleMapped.mMapCallback ≠ nullptr) ∧
    (APIDestroy exampleDevice exampleBackend { buffer := exampleMapped, trace := [] }).trace
      = [Event.mapCallback 77 .DestroyedBeforeCallback 88
          { exampleMapped with mMapCallback := nullptr },
        Event.hook .UnmapImpl [], Event.hook .DestroyImpl []] ∧
    (APIDestroy exampleDevice exampleBackend
      { buffer := exampleMapped, trace := [] }).buffer.mState = .Destroyed :=
  ⟨by decide,
    (congrArg World.trace (APIDestroy_pending exampleDevice exampleBackend
      { buffer := exampleMapped, trace := [] } (by decide) (by decide) (by decide)
      (by decide) (by decide)).1).trans (by decide),
    (APIDestroy_pending exampleDevice exampleBackend
      { buffer := exampleMapped, trace := [] } (by decide) (by decide) (by decide)
      (by decide) (by decide)).2.2.2.1⟩

/-- For application callbacks that do not act on the buffer (the functions outside
`Reentrant`): on a valid buffer that is not yet destroyed, for every sequence of operations
that contains an `APIDestroy` (with any other operations before, between and after, and
any answers of the device), the backend `DestroyImpl` is called exactly once over the whole
sequence, and that call is made during the first `APIDestroy`; the state is `Destroyed`
right after each `APIDestroy` and at the end; and an `APIDestroy` that follows another one
leaves the world exactly as it was. -/
theorem DestroyImpl_exactly_once (pre post : List Call) (c : Call) (w : World)
    (hValid : w.buffer.isError = false) (hState : w.buffer.mState ≠ .Destroyed)
    (hDestroy : c.op = .destroy) :
    (run (pre ++ c :: post) w).destroyImplCalls = w.destroyImplCalls + 1 ∧
    ((∀ x ∈ pre, x.op ≠ .destroy) →
      (run pre w).destroyImplCalls = w.destroyImplCalls ∧
      (run (pre ++ [c]) w).destroyImplCalls = w.destroyImplCalls + 1) ∧
    (run (pre ++ [c]) w).buffer.mState = .Destroyed ∧
    (run (pre ++ c :: post) w).buffer.mState = .Destroyed ∧
    ((∃ x ∈ pre, x.op = .destroy) → run (pre ++ [c]) w = run pre w) := by
  have hE1 : (run pre w).buffer.isError = false := by rw [run_isError]; exact hValid
  have hS1 : (run (pre ++ [c]) w).buffer.mState = .Destroyed := by
    rw [run_append, run_cons, run_nil]
    exact step_destroy_state c _ hDestroy
  refine ⟨?_, ?_, hS1, ?_, ?_⟩
  · exact run_with_destroy _ w hValid hState
      ⟨c, List.mem_append.mpr (Or.inr (List.mem_cons_self _ _)), hDestroy⟩
  · intro hpre
    refine ⟨(run_without_destroy pre w hValid hState hpre).2, ?_⟩
    exact run_with_destroy _ w hValid hState
      ⟨c, List.mem_append.mpr (Or.inr (List.mem_cons_self _ _)), hDestroy⟩
  · have : pre ++ c :: post = (pre ++ [c]) ++ post := by simp
    rw [this, run_append]
    exact (run_destroyed post _ (by rw [run_isError]; exact hValid) hS1).1
  · rintro ⟨x, hx, hxo⟩
    obtain ⟨a, b, rfl⟩ := List.append_of_mem hx
    have hSa : (run (a ++ x :: b) w).buffer.mState = .Destroyed := by
      have : a ++ x :: b = (a ++ [x]) ++ b := by simp
      rw [this, run_append]
      refine (run_destroyed b _ (by rw [run_isError]; exact hValid) ?_).1
      rw [run_append, run_cons, run_nil]
      exact step_destroy_state x _ hxo
    rw [run_append, run_cons, run_nil]
    obtain ⟨device, backend, op⟩ := c
    simp only at hDestroy
    subst hDestroy
    simp only [step]
    exact APIDestroy_destroyed _ _ _ hE1 hSa

/-- An instance of `DestroyImpl_exactly_once`: the example buffer is mapped, completed,
unmapped, destroyed twice and notified once more; `DestroyImpl` is called once. -/
theorem DestroyImpl_exactly_once_witness :
    (exampleWorld.buffer.isError = false ∧ exampleWorld.buffer.mState ≠ .Destroyed ∧
      ({ device := exampleDevice, backend := exampleBackend, op := .destroy } : Call).op
        = .destroy) ∧
    (run (exampleCalls.take 3 ++
        { device := exampleDevice, backend := exampleBackend, op := .destroy } ::
          exampleCalls.drop 4) exampleWorld).destroyImplCalls
      = exampleWorld.destroyImplCalls + 1 :=
  ⟨by decide,
    (DestroyImpl_exactly_once (exampleCalls.take 3) (exampleCalls.drop 4)
      { device := exampleDevice, backend := exampleBackend, op := .destroy } exampleWorld
      (by decide) (by decide) rfl).1⟩

/-- C16: `ValidateBufferDescriptor` accepts a descriptor if and only if `nextInChain` is
null, `ValidateBufferUsage` accepts the usage, the usage does not contain `MapWrite` or is
a subset of `MapWrite | CopySrc`, the usage does not contain `MapRead` or is a subset of
`MapRead | CopyDst`, and `mappedAtCreation` is false or `size % 4 == 0`. In particular a
usage that contains both `MapRead` and `MapWrite` is rejected. -/
theorem ValidateBufferDescriptor_accepts_iff (ValidateBufferUsage : Nat → MaybeError)
    (descriptor : BufferDescriptor) :
    (ValidateBufferDescriptor ValidateBufferUsage descriptor = .ok () ↔
      descriptor.nextInChain = nullptr ∧
      ValidateBufferUsage descriptor.usage = .ok () ∧
      (hasBit descriptor.usage BufferUsage.MapWrite = false ∨
        IsSubset descriptor.usage (BufferUsage.MapWrite ||| BufferUsage.CopySrc) = true) ∧
      (hasBit descriptor.usage BufferUsage.MapRead = false ∨
        IsSubset descriptor.usage (BufferUsage.MapRead ||| BufferUsage.CopyDst) = true) ∧
      (descriptor.mappedAtCreation = false ∨ descriptor.size % 4 = 0)) ∧
    (hasBit descriptor.usage BufferUsage.MapRead = true →
      hasBit descriptor.usage BufferUsage.MapWrite = true →
        ValidateBufferDescriptor ValidateBufferUsage descriptor ≠ .ok ()) := by
  have hiff : ValidateBufferDescriptor ValidateBufferUsage descriptor = .ok () ↔
      descriptor.nextInChain = nullptr ∧
      ValidateBufferUsage descriptor.usage = .ok () ∧
      (hasBit descriptor.usage BufferUsage.MapWrite = false ∨
        IsSubset descriptor.usage (BufferUsage.MapWrite ||| BufferUsage.CopySrc) = true) ∧
      (hasBit descriptor.usage BufferUsage.MapRead = false ∨
        IsSubset descriptor.usage (BufferUsage.MapRead ||| BufferUsage.CopyDst) = true) ∧
      (descriptor.mappedAtCreation = false ∨ descriptor.size % 4 = 0) := by
    unfold ValidateBufferDescriptor
    by_cases hN : descriptor.nextInChain = nullptr
    swap
    · simp [hN]
    cases hU : ValidateBufferUsage descriptor.usage with
    | error e => simp [hN]
    | ok u =>
      cases hW : hasBit descriptor.usage BufferUsage.MapWrite <;>
        cases hWS : IsSubset descriptor.usage (BufferUsage.MapWrite ||| BufferUsage.CopySrc) <;>
        cases hR : hasBit descriptor.usage BufferUsage.MapRead <;>
        cases hRS : IsSubset descriptor.usage (BufferUsage.MapRead ||| BufferUsage.CopyDst) <;>
        cases hM : descriptor.mappedAtCreation <;>
        by_cases h4 : descriptor.size % 4 = 0 <;>
        simp [hN, h4, hW, hWS, hR, hRS, hM]
  refine ⟨hiff, fun hR hW hok => ?_⟩
  rcases (hiff.mp hok).2.2.1 with h | h
  · rw [hW] at h; cases h
  · exact not_subset_of_MapRead_MapWrite _ hR h

/-- Witness of C16: the usage `MapRead | MapWrite` is rejected. -/
theorem ValidateBufferDescriptor_accepts_iff_witness :
    (hasBit invalidDescriptor.usage BufferUsage.MapRead = true ∧
      hasBit invalidDescriptor.usage BufferUsage.MapWrite = true) ∧
    ValidateBufferDescriptor (fun _ => .ok ()) invalidDescriptor ≠ .ok () :=
  ⟨by decide,
    (ValidateBufferDescriptor_accepts_iff (fun _ => .ok ()) invalidDescriptor).2
      (by decide) (by decide)⟩

/-- C17: an error buffer made for a descriptor with `mappedAtCreation = true` and a size
that is non-zero and below the largest `size_t`, whose scratch allocation succeeded, starts
in state `MappedAtCreation` with map window `(0, size)`; `APIGetMappedRange(offset, len)`
returns the scratch base plus `offset`, which is not null, for every 8-aligned `offset` and
4-aligned `len` with `offset + len <= size` (the only hook it calls is
`GetMappedPointerImpl`), in particular the base itself for `(0, size)` when
`size % 4 == 0`. With `mappedAtCreation = false` it starts `Unmapped` and `GetMappedRange`
returns null. -/
theorem MakeError_mappedAtCreation (AllocNoThrow : Nat → Nat) (descriptor : BufferDescriptor) :
    (descriptor.mappedAtCreation = true → descriptor.size ≠ 0 →
      descriptor.size < SIZE_MAX → AllocNoThrow descriptor.size ≠ nullptr →
      (MakeError AllocNoThrow descriptor).isError = true ∧
      (MakeError AllocNoThrow descriptor).mState = .MappedAtCreation ∧
      (MakeError AllocNoThrow descriptor).mMapOffset = 0 ∧
      (MakeError AllocNoThrow descriptor).mMapSize = descriptor.size ∧
      (MakeError AllocNoThrow descriptor).mFakeMappedData = AllocNoThrow descriptor.size ∧
      (∀ (backend : BufferBackend) (trace : List Event) (offset len : Nat),
        offset % 8 = 0 → len % 4 = 0 → offset + len ≤ descriptor.size →
        APIGetMappedRange backend offset len
            { buffer := MakeError AllocNoThrow descriptor, trace := trace }
          = (AllocNoThrow descriptor.size + offset,
              { buffer := MakeError AllocNoThrow descriptor,
                trace := trace ++ [Event.hook .GetMappedPointerImpl []] }) ∧
        AllocNoThrow descriptor.size + offset ≠ nullptr) ∧
      (descriptor.size % 4 = 0 →
        ∀ (backend : BufferBackend) (trace : List Event),
          (APIGetMappedRange backend 0 descriptor.size
            { buffer := MakeError AllocNoThrow descriptor, trace := trace }).1
            = AllocNoThrow descriptor.size)) ∧
    (descriptor.mappedAtCreation = false →
      (MakeError AllocNoThrow descriptor).mState = .Unmapped ∧
      ∀ (backend : BufferBackend) (trace : List Event) (offset len : Nat) (writable : Bool),
        GetMappedRange backend offset len writable
            { buffer := MakeError AllocNoThrow descriptor, trace := trace }
          = (nullptr, { buffer := MakeError AllocNoThrow descriptor, trace := trace })) := by
  constructor
  · intro hM h0 hlt halloc
    have hb : MakeError AllocNoThrow descriptor =
        { BufferBase.initial true descriptor.size with
          mState := .MappedAtCreation
          mMapOffset := 0
          mMapSize := descriptor.size
          mFakeMappedData := AllocNoThrow descriptor.size } := by
      unfold MakeError ErrorBuffer.new BufferBase.newError
      simp [hM, h0, hlt, BufferBase.initial]
    have hget : ∀ (backend : BufferBackend) (trace : List Event) (offset len : Nat),
        offset % 8 = 0 → len % 4 = 0 → offset + len ≤ descriptor.size →
        APIGetMappedRange backend offset len
            { buffer := MakeError AllocNoThrow descriptor, trace := trace }
          = (AllocNoThrow descriptor.size + offset,
              { buffer := MakeError AllocNoThrow descriptor,
                trace := trace ++ [Event.hook .GetMappedPointerImpl []] }) := by
      intro backend trace offset len h8 h4 hfit
      have hsz : descriptor.size < 2 ^ 64 := by unfold SIZE_MAX at hlt; omega
      have hr : CanGetMappedRange.rangeTest (MakeError AllocNoThrow descriptor) offset len
          = true := by
        rw [rangeTest_iff _ _ _ (by omega) (by rw [hb]; exact hsz)]
        rw [hb]
        exact ⟨h8, h4, Nat.zero_le _, by simpa using hfit⟩
      have hc : CanGetMappedRange (MakeError AllocNoThrow descriptor) true offset len
          = true := by
        unfold CanGetMappedRange
        rw [hr]
        rw [hb]
        rfl
      unfold APIGetMappedRange GetMappedRange
      simp only [hc, Bool.not_true, Bool.false_eq_true, if_false]
      rw [hb]
      simp [BufferBase.initial, GetMappedPointerImpl, World.emit, h0, halloc]
    refine ⟨by rw [hb]; rfl, by rw [hb], by rw [hb], by rw [hb], by rw [hb], ?_, ?_⟩
    · intro backend trace offset len h8 h4 hfit
      refine ⟨hget backend trace offset len h8 h4 hfit, ?_⟩
      unfold nullptr at halloc ⊢
      omega
    · intro h4 backend trace
      rw [hget backend trace 0 descriptor.size (by decide) h4 (by omega)]
      simp
  · intro hM
    have hS : (MakeError AllocNoThrow descriptor).mState = .Unmapped := by
      unfold MakeError ErrorBuffer.new BufferBase.newError
      simp [hM, BufferBase.initial]
    refine ⟨hS, ?_⟩
    intro backend trace offset len writable
    exact GetMappedRange_of_not_mapped _ _ _ _ _ (Or.inl hS)

/-- Witness of C17: the error buffer of a 16-byte descriptor with the usage
`MapRead | MapWrite`, mapped at creation, with its scratch data at `5000`. -/
theorem MakeError_mappedAtCreation_witness :
    (invalidDescriptor.mappedAtCreation = true ∧ invalidDescriptor.size ≠ 0 ∧
      invalidDescriptor.size < SIZE_MAX ∧ (fun _ => 5000) invalidDescriptor.size ≠ nullptr ∧
      invalidDescriptor.size % 4 = 0) ∧
    (APIGetMappedRange exampleBackend 0 invalidDescriptor.size
      { buffer := MakeError (fun _ => 5000) invalidDescriptor, trace := [] }).1 = 5000 :=
  ⟨by decide,
    ((MakeError_mappedAtCreation (fun _ => 5000) invalidDescriptor).1 (by decide)
      (by decide) (by decide) (by decide)).2.2.2.2.2.2 (by decide) exampleBackend []⟩

/-- C18: on an error buffer, after every sequence of the public operations `APIMapAsync`,
`APIGetMappedRange`, `APIGetConstMappedRange`, `APIUnmap` and `APIDestroy` with any
arguments and any answers of the device, the buffer is still an error buffer and nothing
produced by the sequence is an `UNREACHABLE()` hook, a failed assertion (so that no
`ASSERT(!IsError())` is reached), or a call of a hook other than `GetMappedPointerImpl`. -/
theorem error_buffer_public_operations (calls : List Call) (w : World)
    (hError : w.buffer.isError = true) (hPublic : ∀ c ∈ calls, c.isPublic = true) :
    (run calls w).buffer.isError = true ∧
      ∃ events, (run calls w).trace = w.trace ++ events ∧
        (∀ e ∈ events, e.isContractViolation = false) ∧
        (∀ h, Event.unreachable h ∉ events) ∧
        Event.assertFailed ∉ events ∧
        (∀ h arguments, Event.hook h arguments ∈ events → h = .GetMappedPointerImpl) := by
  have key : ∀ (cs : List Call) (v : World), v.buffer.isError = true →
      (∀ c ∈ cs, c.isPublic = true) →
      (run cs v).buffer.isError = true ∧
        ∃ events, (run cs v).trace = v.trace ++ events ∧
          ∀ e ∈ events, e.isContractViolation = false := by
    intro cs
    induction cs with
    | nil => intro v hv _; exact ⟨hv, [], by simp [run_nil], by simp⟩
    | cons c cs ih =>
      intro v hv hp
      obtain ⟨h1, ev1, ht1, hq1⟩ := step_error_buffer c v hv (hp c (List.mem_cons_self _ _))
      obtain ⟨h2, ev2, ht2, hq2⟩ := ih (step c v) h1
        (fun x hx => hp x (List.mem_cons_of_mem _ hx))
      rw [run_cons]
      refine ⟨h2, ev1 ++ ev2, by rw [ht2, ht1, List.append_assoc], ?_⟩
      intro e he
      rcases List.mem_append.mp he with h | h
      · exact hq1 e h
      · exact hq2 e h
  obtain ⟨h1, events, ht, hq⟩ := key calls w hError hPublic
  refine ⟨h1, events, ht, hq, ?_, ?_, ?_⟩
  · intro h hmem
    have := hq _ hmem
    simp [Event.isContractViolation] at this
  · intro hmem
    have := hq _ hmem
    simp [Event.isContractViolation] at this
  · intro h arguments hmem
    have := hq _ hmem
    simpa [Event.isContractViolation] using this

/-- Witness of C18: map, read the range, unmap and destroy the example error buffer. -/
theorem error_buffer_public_operations_witness :
    (exampleErrorWorld.buffer.isError = true ∧
      ∀ c ∈ examplePublicCalls, c.isPublic = true) ∧
    (run examplePublicCalls exampleErrorWorld).buffer.isError = true :=
  ⟨⟨by decide, by decide⟩,
    (error_buffer_public_operations examplePublicCalls exampleErrorWorld (by decide)
      (by decide)).1⟩

/-- C19: on a valid buffer of size 0, `MapAtCreation` returns success and has no effect
on the outside (no staging buffer is created, no hook is called, no memory is filled); it
changes nothing in the buffer but the state, which becomes `MappedAtCreation`, and the map
window, which becomes `(0, 0)`: the staging buffer and the data-initialized flag are as
before. When there is no staging buffer, as in every buffer just constructed,
`GetMappedRange(0, 0)` then returns the non-null sentinel `0xCAFED00D`. -/
theorem MapAtCreation_zero_size (device : DeviceBase) (backend : BufferBackend) (w : World)
    (hValid : w.buffer.isError = false) (hZero : w.buffer.mSize = 0) :
    MapAtCreation device backend w =
      (.ok (), { buffer := { w.buffer with
                    mState := .MappedAtCreation
                    mMapOffset := 0
                    mMapSize := 0 },
                 trace := w.trace }) ∧
    (MapAtCreation device backend w).2.buffer.mStagingBuffer = w.buffer.mStagingBuffer ∧
    (MapAtCreation device backend w).2.buffer.mIsDataInitialized
      = w.buffer.mIsDataInitialized ∧
    (w.buffer.mStagingBuffer = none →
      ∀ (backend' : BufferBackend) (writable : Bool),
        GetMappedRange backend' 0 0 writable (MapAtCreation device backend w).2
          = (0xCAFED00D, (MapAtCreation device backend w).2) ∧
        (0xCAFED00D : Nat) ≠ nullptr) ∧
    (∀ (d : DeviceBase) (descriptor : BufferDescriptor), descriptor.size = 0 →
      (BufferBase.new d descriptor).isError = false ∧
      (BufferBase.new d descriptor).mSize = 0 ∧
      (BufferBase.new d descriptor).mStagingBuffer = none) := by
  have heq : MapAtCreation device backend w =
      (.ok (), { buffer := { w.buffer with
                    mState := .MappedAtCreation
                    mMapOffset := 0
                    mMapSize := 0 },
                 trace := w.trace }) := by
    unfold MapAtCreation MapAtCreationInternal
    simp [ASSERT, hValid, hZero]
  refine ⟨heq, by rw [heq], by rw [heq], ?_, ?_⟩
  · intro hst backend' writable
    refine ⟨?_, by decide⟩
    rw [heq]
    have hc : CanGetMappedRange
        { w.buffer with mState := .MappedAtCreation, mMapOffset := 0, mMapSize := 0 }
        writable 0 0 = true := by
      unfold CanGetMappedRange CanGetMappedRange.rangeTest
      simp [u64sub]
    unfold GetMappedRange
    simp only [hc, Bool.not_true, Bool.false_eq_true, if_false]
    simp [hst, hZero]
  · intro d descriptor hd
    unfold BufferBase.new BufferBase.initial
    refine ⟨?_, ?_, ?_⟩ <;> (simp only []; split <;> split <;> split <;> simp [hd])

/-- Witness of C19: a buffer just constructed for a descriptor of size 0. -/
theorem MapAtCreation_zero_size_witness :
    ((BufferBase.new exampleDevice zeroSizeDescriptor).isError = false ∧
      (BufferBase.new exampleDevice zeroSizeDescriptor).mSize = 0) ∧
    (MapAtCreation exampleDevice exampleBackend
      { buffer := BufferBase.new exampleDevice zeroSizeDescriptor, trace := [] }).1 = .ok () ∧
    (MapAtCreation exampleDevice exampleBackend
      { buffer := BufferBase.new exampleDevice zeroSizeDescriptor, trace := [] }).2.trace
        = [] :=
  ⟨by decide,
    congrArg Prod.fst (MapAtCreation_zero_size exampleDevice exampleBackend
      { buffer := BufferBase.new exampleDevice zeroSizeDescriptor, trace := [] }
      (by decide) (by decide)).1,
    congrArg (fun x => x.2.trace) (MapAtCreation_zero_size exampleDevice exampleBackend
      { buffer := BufferBase.new exampleDevice zeroSizeDescriptor, trace := [] }
      (by decide) (by decide)).1⟩

/-- C20: when the validation of an `APIMapAsync` call succeeds and the backend
`MapAsyncImpl` fails, the request id is incremented and the window stored, the state is
`Mapped`, the stored callback is null, and the call produces exactly: the deprecation
warning (when `size == 0`), the `MapAsyncImpl` call, its error handed to the device, and,
when the callback passed in is not null, one call of it with `DeviceLost` and the given
userdata. No task is tracked on the queue. -/
theorem APIMapAsync_backend_failure (device : DeviceBase) (backend : BufferBackend)
    (mode offset size callback userdata : Nat) (w : World) (e : ErrorData)
    (hok : (ValidateMapAsync device w.buffer mode offset
      (APIMapAsync.defaultSize offset size w).1).1 = .ok ())
    (himpl : backend.mapAsyncImpl mode offset (APIMapAsync.defaultSize offset size w).1
      = .error e) :
    (APIMapAsync device backend mode offset size callback userdata w).buffer
      = { w.buffer with
          mLastMapID := w.buffer.mLastMapID + 1
          mMapMode := mode
          mMapOffset := offset
          mMapSize := (APIMapAsync.defaultSize offset size w).1
          mMapCallback := nullptr
          mMapUserdata := userdata
          mState := .Mapped } ∧
    (APIMapAsync device backend mode offset size callback userdata w).trace
      = w.trace ++ (if size = 0 then [Event.deprecationWarning] else []) ++
          [Event.hook .MapAsyncImpl [mode, offset, (APIMapAsync.defaultSize offset size w).1],
            Event.consumedError e] ++
          (if callback = nullptr then []
            else [Event.mapCallback callback .DeviceLost userdata
              { w.buffer with
                mLastMapID := w.buffer.mLastMapID + 1
                mMapMode := mode
                mMapOffset := offset
                mMapSize := (APIMapAsync.defaultSize offset size w).1
                mMapCallback := nullptr
                mMapUserdata := userdata
                mState := .Mapped }]) ∧
    (APIMapAsync device backend mode offset size callback userdata w).trace.countP
        Event.isMapCallback
      = w.trace.countP Event.isMapCallback + (if callback = nullptr then 0 else 1) ∧
    (∀ id serial : Nat,
      Event.trackTask id serial ∈
          (APIMapAsync device backend mode offset size callback userdata w).trace →
        Event.trackTask id serial ∈ w.trace) := by
  have heq := APIMapAsync_eq_validateAndMap device backend mode offset size callback userdata w
  rw [validateAndMap_ok (w := ⟨w.buffer,
      w.trace ++ (if size = 0 then [Event.deprecationWarning] else [])⟩) hok, himpl] at heq
  simp only at heq
  refine ⟨by rw [heq], by rw [heq], ?_, ?_⟩
  · rw [heq]
    by_cases h0 : size = 0 <;> by_cases hc : callback = nullptr <;>
      simp [List.countP_append, List.countP_cons, Event.isMapCallback, h0, hc]
  · intro id serial hmem
    rw [heq] at hmem
    by_cases h0 : size = 0 <;> by_cases hc : callback = nullptr <;>
      simpa [h0, hc] using hmem

/-- Witness of C20: mapping `[0, 16)` of the example buffer on a backend whose
`MapAsyncImpl` fails. -/
theorem APIMapAsync_backend_failure_witness :
    ((ValidateMapAsync exampleDevice exampleWorld.buffer 1 0
        (APIMapAsync.defaultSize 0 16 exampleWorld).1).1 = .ok () ∧
      failingBackend.mapAsyncImpl 1 0 (APIMapAsync.defaultSize 0 16 exampleWorld).1
        = .error (.backend 1)) ∧
    (APIMapAsync exampleDevice failingBackend 1 0 16 77 88 exampleWorld).trace
      = [Event.hook .MapAsyncImpl [1, 0, 16], Event.consumedError (.backend 1),
          Event.mapCallback 77 .DeviceLost 88
            { exampleMapped with mMapCallback := nullptr }] :=
  ⟨by decide,
    (APIMapAsync_backend_failure exampleDevice failingBackend 1 0 16 77 88 exampleWorld
      (.backend 1) (by decide) (by decide)).2.1.trans (by decide)⟩

/-- C24: the usage stored by the constructor of a valid buffer is the usage `u` of the
descriptor, or-ed with the read-only-storage flag exactly when `u` contains `Storage`, and
with the internal-storage flag exactly when `u` contains `QueryResolve`, or contains
`Indirect` while validation is enabled. It is a superset of `u`, and bit by bit it is `u`
with at most bit 31 (read-only storage) and bit 30 (internal storage) added under these
conditions: no flag of `u` is removed and no other flag is added. -/
theorem BufferBase_new_usage (device : DeviceBase) (descriptor : BufferDescriptor) :
    (BufferBase.new device descriptor).mUsage =
        (descriptor.usage
          ||| (if hasBit descriptor.usage BufferUsage.Storage
                then kReadOnlyStorageBuffer else 0))
          ||| (if hasBit descriptor.usage BufferUsage.QueryResolve ||
                (hasBit descriptor.usage BufferUsage.Indirect && device.validationEnabled)
              then kInternalStorageBuffer else 0)
      ∧ IsSubset descriptor.usage (BufferBase.new device descriptor).mUsage = true
      ∧ ∀ i : Nat, (BufferBase.new device descriptor).mUsage.testBit i =
          (descriptor.usage.testBit i
            || (i == 31 && hasBit descriptor.usage BufferUsage.Storage)
            || (i == 30 && (hasBit descriptor.usage BufferUsage.QueryResolve ||
                  (hasBit descriptor.usage BufferUsage.Indirect &&
                    device.validationEnabled)))) := by
  have hRO : kReadOnlyStorageBuffer = 2 ^ 31 := by decide
  have hIn : kInternalStorageBuffer = 2 ^ 30 := by decide
  refine ⟨BufferBase_new_mUsage device descriptor, ?_, ?_⟩
  · rw [BufferBase_new_mUsage, Nat.or_assoc]
    exact IsSubset_lor _ _
  · intro i
    rw [BufferBase_new_mUsage]
    simp only [Nat.testBit_or]
    have h31 : ∀ c : Bool, (if c = true then kReadOnlyStorageBuffer else 0).testBit i
        = (i == 31 && c) := by
      intro c
      cases c
      · simp
      · simp only [if_true, Bool.and_true, hRO]
        rw [Nat.testBit_two_pow]
        by_cases h : i = 31
        · simp [h]
        · have h2 : ¬ 31 = i := fun e => h e.symm
          simp [h, h2]
    have h30 : ∀ c : Bool, (if c = true then kInternalStorageBuffer else 0).testBit i
        = (i == 30 && c) := by
      intro c
      cases c
      · simp
      · simp only [if_true, Bool.and_true, hIn]
        rw [Nat.testBit_two_pow]
        by_cases h : i = 30
        · simp [h]
        · have h2 : ¬ 30 = i := fun e => h e.symm
          simp [h, h2]
    rw [h31, h30]

/-- C25: on a valid buffer in state `Mapped` with a pending callback, while the device is
not alive: `Unmap` leaves the buffer as it is (still `Mapped`, callback still stored) and
its only effect is the validation error handed to the device, with no callback and no
`UnmapImpl`; `APIDestroy` only sets the state to `Destroyed`, its effects being that same
error and one `DestroyImpl`, with no callback and no `UnmapImpl`, and the callback stays
stored. It stays stored over any later calls that are not the notification for the pending
request, and that notification, when the device is lost or the status it brings is
`DeviceLost`, calls the callback once with `DeviceLost` and clears it. -/
theorem dead_device_Unmap_Destroy_pending (device later : DeviceBase)
    (backend : BufferBackend) (w : World) (calls : List Call)
    (status : WGPUBufferMapAsyncStatus)
    (hA : device.alive = false) (hE : w.buffer.isError = false)
    (hS : w.buffer.mState = .Mapped) (hC : w.buffer.mMapCallback ≠ nullptr)
    (hN : ∀ c ∈ calls, c.completes w.buffer.mLastMapID = false)
    (hL : later.lost = true ∨ status = .DeviceLost) :
    Unmap device backend w =
        { buffer := w.buffer, trace := w.trace ++ [Event.consumedError .deviceIsLost] }
      ∧ APIDestroy device backend w =
        { buffer := { w.buffer with mState := .Destroyed },
          trace := w.trace ++
            [Event.consumedError .deviceIsLost, Event.hook .DestroyImpl []] }
      ∧ (APIDestroy device backend w).destroyImplCalls = w.destroyImplCalls + 1
      ∧ (run calls (APIDestroy device backend w)).buffer
        = { w.buffer with mState := .Destroyed }
      ∧ OnMapRequestCompleted later w.buffer.mLastMapID status
          (run calls (APIDestroy device backend w)) =
        { buffer := { w.buffer with
            mState := .Destroyed
            mMapCallback := nullptr },
          trace := (run calls (APIDestroy device backend w)).trace ++
            [Event.mapCallback w.buffer.mMapCallback .DeviceLost w.buffer.mMapUserdata
              { w.buffer with
                mState := .Destroyed
                mMapCallback := nullptr }] } := by
  have hv : ValidateUnmap device w.buffer = .error .deviceIsLost := by
    simp [ValidateUnmap, DeviceBase.ValidateIsAlive, hA]
  have hD := APIDestroy_mapped_dead device backend w hA hE hS
  have hR : (run calls (APIDestroy device backend w)).buffer
      = { w.buffer with mState := .Destroyed } := by
    rw [run_destroyed_buffer calls _ (by rw [hD]; exact hE) (by rw [hD])
      (by rw [hD]; exact hN), hD]
  refine ⟨by rw [Unmap, UnmapInternal_invalid _ _ _ _ _ hE hv], hD, ?_, hR, ?_⟩
  · rw [hD]
    simp [World.destroyImplCalls, List.countP_append, List.countP_cons, Event.isHook]
  · have hst : (if later.lost = true then WGPUBufferMapAsyncStatus.DeviceLost else status)
        = .DeviceLost := by
      rcases hL with h | h <;> simp [h]
    rw [OnMapRequestCompleted, CallMapCallback_eq, hR]
    simp [hC, hE, hst]

theorem dead_device_Unmap_Destroy_pending_witness :
    lostDevice.alive = false ∧ exampleMapped.mState = .Mapped ∧
      exampleMapped.mMapCallback = 77 ∧
      OnMapRequestCompleted lostDevice 1 .Success
          (run [{ device := lostDevice, backend := exampleBackend, op := .unmap }]
            (APIDestroy lostDevice exampleBackend { buffer := exampleMapped, trace := [] })) =
        { buffer := { exampleMapped with
            mState := .Destroyed
            mMapCallback := nullptr },
          trace := [Event.consumedError .deviceIsLost, Event.hook .DestroyImpl [],
            Event.consumedError .deviceIsLost,
            Event.mapCallback 77 .DeviceLost 88
              { exampleMapped with
                mState := .Destroyed
                mMapCallback := nullptr }] } :=
  ⟨by decide, by decide, by decide,
    (dead_device_Unmap_Destroy_pending lostDevice lostDevice exampleBackend
      { buffer := exampleMapped, trace := [] }
      [{ device := lostDevice, backend := exampleBackend, op := .unmap }] .Success
      (by decide) (by decide) (by decide) (by decide) (by decide)
      (Or.inl (by decide))).2.2.2.2.trans (by decide)⟩

/-- C21: `Unmap` of a valid buffer in state `MappedAtCreation`, the device being alive
(a staging buffer being present only for a size other than 0). With a staging buffer it
requests one copy of `GetAllocatedSize()` bytes from offset 0 of the staging buffer to
offset 0 of the buffer and, when the copy succeeds, releases the staging buffer to the
uploader (when it fails the error is handed to the device); without one it calls
`UnmapImpl` once when the size is not 0 and makes no call when it is 0. These are all the
effects (apart from a failing assertion of the source), the state ends `Unmapped`, and
the application callback is not called. -/
theorem Unmap_mappedAtCreation (device : DeviceBase) (backend : BufferBackend) (w : World)
    (hA : device.alive = true) (hE : w.buffer.isError = false)
    (hS : w.buffer.mState = .MappedAtCreation)
    (hI : w.buffer.mStagingBuffer.isSome = true → w.buffer.mSize ≠ 0) :
    (GetAllocatedSize w).1 = w.buffer.mAllocatedSize
      ∧ Unmap device backend w =
        (match w.buffer.mStagingBuffer with
        | some staging =>
          match backend.copyFromStagingToBuffer with
          | .ok _ =>
            { buffer := { w.buffer with
                mStagingBuffer := none
                mState := .Unmapped },
              trace := w.trace ++
                (if w.buffer.mAllocatedSize = 0 then [Event.assertFailed] else []) ++
                [Event.copyFromStagingToBuffer (some staging) 0 0 w.buffer.mAllocatedSize,
                  Event.releaseStagingBuffer (some staging)] }
          | .error e =>
            { buffer := { w.buffer with mState := .Unmapped },
              trace := w.trace ++
                (if w.buffer.mAllocatedSize = 0 then [Event.assertFailed] else []) ++
                [Event.copyFromStagingToBuffer (some staging) 0 0 w.buffer.mAllocatedSize,
                  Event.consumedError e] }
        | none =>
          if w.buffer.mSize ≠ 0 then
            { buffer := { w.buffer with mState := .Unmapped },
              trace := w.trace ++
                (if backend.isCPUWritableAtCreation then [] else [Event.assertFailed]) ++
                [Event.hook .UnmapImpl []] }
          else { buffer := { w.buffer with mState := .Unmapped }, trace := w.trace })
      ∧ (Unmap device backend w).buffer.mState = .Unmapped
      ∧ (Unmap device backend w).trace.countP Event.isMapCallback
        = w.trace.countP Event.isMapCallback
      ∧ (Unmap device backend w).trace.countP (Event.isHook .UnmapImpl)
        = w.trace.countP (Event.isHook .UnmapImpl)
          + (if w.buffer.mStagingBuffer = none ∧ w.buffer.mSize ≠ 0 then 1 else 0) := by
  have h := UnmapInternal_mappedAtCreation_eq device backend .UnmappedBeforeCallback w
    hA hE hS hI
  refine ⟨GetAllocatedSize_fst w, h, ?_, ?_, ?_⟩ <;> rw [Unmap, h]
  · cases hst : w.buffer.mStagingBuffer with
    | none => by_cases h0 : w.buffer.mSize = 0 <;> simp [h0]
    | some s => cases hc : backend.copyFromStagingToBuffer <;> simp
  · cases hst : w.buffer.mStagingBuffer with
    | none =>
      by_cases h0 : w.buffer.mSize = 0 <;> cases hw : backend.isCPUWritableAtCreation <;>
        simp [h0, List.countP_append, List.countP_cons, Event.isMapCallback]
    | some s =>
      by_cases ha : w.buffer.mAllocatedSize = 0 <;>
        cases hc : backend.copyFromStagingToBuffer <;>
        simp [ha, List.countP_append, List.countP_cons, Event.isMapCallback]
  · cases hst : w.buffer.mStagingBuffer with
    | none =>
      by_cases h0 : w.buffer.mSize = 0 <;> cases hw : backend.isCPUWritableAtCreation <;>
        simp [h0, List.countP_append, List.countP_cons, Event.isHook]
    | some s =>
      by_cases ha : w.buffer.mAllocatedSize = 0 <;>
        cases hc : backend.copyFromStagingToBuffer <;>
        simp [ha, List.countP_append, List.countP_cons, Event.isHook]

theorem Unmap_mappedAtCreation_witness :
    exampleDevice.alive = true ∧ exampleStaged.mState = .MappedAtCreation ∧
      Unmap exampleDevice exampleBackend { buffer := exampleStaged, trace := [] } =
        { buffer := { exampleStaged with
            mStagingBuffer := none
            mState := .Unmapped },
          trace := [Event.copyFromStagingToBuffer (some { mappedPointer := 8192, size := 16 })
            0 0 16, Event.releaseStagingBuffer (some { mappedPointer := 8192, size := 16 })] } :=
  ⟨by decide, by decide,
    (Unmap_mappedAtCreation exampleDevice exampleBackend
      { buffer := exampleStaged, trace := [] } (by decide) (by decide) (by decide)
      (by decide)).2.1.trans (by decide)⟩

/-- C23: `MapAtCreation` on a valid buffer of size other than 0 that has no staging buffer
yet, the staging buffers of the device having the size asked for. The state becomes
`MappedAtCreation` with map window `(0, size)`. If `IsCPUWritableAtCreation()` it calls
`MapAtCreationImpl` and creates no staging buffer; otherwise it creates one staging buffer
of `GetAllocatedSize()` bytes and does not call `MapAtCreationImpl`; a failure of either is
returned. On success, with the lazy-clear toggle `GetAllocatedSize()` bytes at the exposed
pointer are set to 0 and the data-initialized flag becomes true; otherwise with the
non-zero-clear toggle they are set to 1 and the flag is unchanged; otherwise nothing is
written. These are all the effects (apart from a failing assertion on the allocated
size). -/
theorem MapAtCreation_nonzero_size (device : DeviceBase) (backend : BufferBackend)
    (w : World) (hE : w.buffer.isError = false) (h0 : w.buffer.mSize ≠ 0)
    (hN : w.buffer.mStagingBuffer = none)
    (hC : ∀ staging, backend.createStagingBuffer w.buffer.mAllocatedSize = .ok staging →
      staging.size = w.buffer.mAllocatedSize) :
    MapAtCreation device backend w =
        (if backend.isCPUWritableAtCreation then
          match backend.mapAtCreationImpl with
          | .error e =>
            (.error e,
              { buffer := { w.buffer with
                  mState := .MappedAtCreation
                  mMapOffset := 0
                  mMapSize := w.buffer.mSize },
                trace := w.trace ++
                  [Event.hook .IsCPUWritableAtCreation [],
                    Event.hook .MapAtCreationImpl []] })
          | .ok _ =>
            (.ok (),
              { buffer := { w.buffer with
                  mState := .MappedAtCreation
                  mMapOffset := 0
                  mMapSize := w.buffer.mSize
                  mIsDataInitialized :=
                    if device.lazyClearResourceOnFirstUse then true
                    else w.buffer.mIsDataInitialized },
                trace := w.trace ++
                  [Event.hook .IsCPUWritableAtCreation [], Event.hook .MapAtCreationImpl [],
                    Event.hook .GetMappedPointerImpl []] ++
                  (if w.buffer.mAllocatedSize = 0 then [Event.assertFailed] else []) ++
                  (if device.lazyClearResourceOnFirstUse then
                    [Event.memset backend.mappedPointerImpl 0 w.buffer.mAllocatedSize,
                      Event.incrementLazyClearCountForTesting]
                  else if device.nonzeroClearResourcesOnCreationForTesting then
                    [Event.memset backend.mappedPointerImpl 1 w.buffer.mAllocatedSize]
                  else []) })
        else
          match backend.createStagingBuffer w.buffer.mAllocatedSize with
          | .error e =>
            (.error e,
              { buffer := { w.buffer with
                  mState := .MappedAtCreation
                  mMapOffset := 0
                  mMapSize := w.buffer.mSize },
                trace := w.trace ++ [Event.hook .IsCPUWritableAtCreation []] ++
                  (if w.buffer.mAllocatedSize = 0 then [Event.assertFailed] else []) ++
                  [Event.createStagingBuffer w.buffer.mAllocatedSize] })
          | .ok staging =>
            (.ok (),
              { buffer := { w.buffer with
                  mState := .MappedAtCreation
                  mMapOffset := 0
                  mMapSize := w.buffer.mSize
                  mStagingBuffer := some staging
                  mIsDataInitialized :=
                    if device.lazyClearResourceOnFirstUse then true
                    else w.buffer.mIsDataInitialized },
                trace := w.trace ++ [Event.hook .IsCPUWritableAtCreation []] ++
                  (if w.buffer.mAllocatedSize = 0 then [Event.assertFailed] else []) ++
                  [Event.createStagingBuffer w.buffer.mAllocatedSize] ++
                  (if w.buffer.mAllocatedSize = 0 then [Event.assertFailed] else []) ++
                  (if device.lazyClearResourceOnFirstUse then
                    [Event.memset staging.mappedPointer 0 w.buffer.mAllocatedSize,
                      Event.incrementLazyClearCountForTesting]
                  else if device.nonzeroClearResourcesOnCreationForTesting then
                    [Event.memset staging.mappedPointer 1 w.buffer.mAllocatedSize]
                  else []) }))
      ∧ (GetAllocatedSize w).1 = w.buffer.mAllocatedSize
      ∧ (MapAtCreation device backend w).2.buffer.mState = .MappedAtCreation
      ∧ (MapAtCreation device backend w).2.buffer.mMapOffset = 0
      ∧ (MapAtCreation device backend w).2.buffer.mMapSize = w.buffer.mSize := by
  refine (and_iff_left_of_imp ?_).mpr ?_
  · intro h
    refine ⟨GetAllocatedSize_fst w, ?_, ?_, ?_⟩ <;> rw [h] <;>
      cases backend.isCPUWritableAtCreation <;>
      simp only [Bool.false_eq_true, if_false, if_true] <;>
      first
        | (cases backend.mapAtCreationImpl <;> rfl)
        | (cases backend.createStagingBuffer w.buffer.mAllocatedSize <;> rfl)
  · unfold MapAtCreation
    rw [MapAtCreationInternal_eq backend w hE h0]
    cases hw : backend.isCPUWritableAtCreation
    · simp only [Bool.false_eq_true, if_false]
      cases hc : backend.createStagingBuffer w.buffer.mAllocatedSize with
      | error e => rfl
      | ok staging =>
        have hsz := hC staging hc
        by_cases ha : w.buffer.mAllocatedSize = 0 <;>
          cases hl : device.lazyClearResourceOnFirstUse <;>
          cases hz : device.nonzeroClearResourcesOnCreationForTesting <;>
          simp [h0, hE, ha, hsz, GetAllocatedSize, ASSERT, World.emit, SetIsDataInitialized]
    · simp only [if_true]
      cases hm : backend.mapAtCreationImpl with
      | error e => rfl
      | ok u =>
        by_cases ha : w.buffer.mAllocatedSize = 0 <;>
          cases hl : device.lazyClearResourceOnFirstUse <;>
          cases hz : device.nonzeroClearResourcesOnCreationForTesting <;>
          simp [h0, hE, hN, ha, GetAllocatedSize, ASSERT, World.emit, SetIsDataInitialized,
            GetMappedPointerImpl]

theorem MapAtCreation_nonzero_size_witness :
    exampleWorld.buffer.isError = false ∧ exampleWorld.buffer.mSize ≠ 0 ∧
      MapAtCreation lazyClearDevice stagingBackend exampleWorld =
        (.ok (),
          { buffer := { exampleStaged with mIsDataInitialized := true },
            trace := [Event.hook .IsCPUWritableAtCreation [], Event.createStagingBuffer 16,
              Event.memset 8192 0 16, Event.incrementLazyClearCountForTesting] }) :=
  ⟨by decide, by decide,
    (MapAtCreation_nonzero_size lazyClearDevice stagingBackend exampleWorld (by decide)
      (by decide) (by decide) (fun staging h => by cases h; rfl)).1.trans (by decide)⟩

/-- C22: the run that breaks the invariant. The example buffer (valid, 16 bytes) is mapped
at creation on a backend that is not CPU-writable, so a staging buffer is created; `Unmap`
then requests the copy, `CopyFromStagingToBuffer` fails, and `CopyFromStagingBuffer`
returns before the staging buffer is released: the buffer is `Unmapped` and still holds
the staging buffer. A later `APIMapAsync` maps it with the staging buffer in place, and
`GetConstMappedRange` then returns the pointer of the staging buffer (`8192`), where the
same calls with a copy that succeeds return the pointer of the backend (`4096`); and
`APIDestroy` after the failed `Unmap` leaves the staging buffer in a `Destroyed` buffer. -/
theorem staging_buffer_kept_after_failed_copy :
    MapAtCreation exampleDevice stagingBackend exampleWorld =
        (.ok (),
          { buffer := exampleStaged,
            trace := [Event.hook .IsCPUWritableAtCreation [], Event.createStagingBuffer 16] })
      ∧ Unmap exampleDevice stagingBackend
          (MapAtCreation exampleDevice stagingBackend exampleWorld).2 =
        { buffer := { exampleStaged with mState := .Unmapped },
          trace := [Event.hook .IsCPUWritableAtCreation [], Event.createStagingBuffer 16,
            Event.copyFromStagingToBuffer (some { mappedPointer := 8192, size := 16 }) 0 0 16,
            Event.consumedError (.backend 2)] }
      ∧ (Unmap exampleDevice stagingBackend
          (MapAtCreation exampleDevice stagingBackend exampleWorld).2).buffer.mStagingBuffer
        = some { mappedPointer := 8192, size := 16 }
      ∧ (Unmap exampleDevice stagingBackend
          (MapAtCreation exampleDevice stagingBackend exampleWorld).2).buffer.mState
        = .Unmapped
      ∧ (APIGetConstMappedRange stagingBackend 0 16
          (APIMapAsync exampleDevice stagingBackend 1 0 16 77 88
            (Unmap exampleDevice stagingBackend
              (MapAtCreation exampleDevice stagingBackend exampleWorld).2))).1 = 8192
      ∧ (APIGetConstMappedRange stagingBackend 0 16
          (APIMapAsync exampleDevice stagingBackend 1 0 16 77 88
            (Unmap exampleDevice { stagingBackend with copyFromStagingToBuffer := .ok () }
              (MapAtCreation exampleDevice stagingBackend exampleWorld).2))).1 = 4096
      ∧ (APIDestroy exampleDevice stagingBackend
          (Unmap exampleDevice stagingBackend
            (MapAtCreation exampleDevice stagingBackend exampleWorld).2)).buffer =
        { exampleStaged with mState := .Destroyed } := by
  refine ⟨by decide, by decide, by decide, by decide, by decide, by decide, by decide⟩

/-- C12: the run that breaks the claim. The example buffer is valid and `Mapped` with
callback `77` pending, the device is live, and the callback calls `Unmap()` on the buffer
(the case the comment in `CallMapCallback` names). `Unmap` calls the callback once, with
`UnmappedBeforeCallback`; the `Unmap()` inside it finds the state still `Mapped` and the
stored callback null, calls `UnmapImpl` and sets `Unmapped`; when the callback returns,
the outer `UnmapInternal` calls `UnmapImpl` again. The backend sees two `UnmapImpl` calls
during the one `Unmap`, where the same call with a callback that does not act on the
buffer makes one. -/
theorem Unmap_callback_calls_Unmap :
    Reentrant.CallMapCallback unmapInCallback exampleDevice 1 .UnmappedBeforeCallback
        { buffer := exampleMapped, trace := [] } =
      { buffer := { exampleMapped with
          mMapCallback := nullptr
          mMapUserdata := 0
          mState := .Unmapped },
        trace := [Event.mapCallback 77 .UnmappedBeforeCallback 88
            { exampleMapped with mMapCallback := nullptr },
          Event.hook .UnmapImpl []] }
      ∧ Reentrant.Unmap unmapInCallback exampleDevice exampleBackend
          { buffer := exampleMapped, trace := [] } =
        { buffer := { exampleMapped with
            mMapCallback := nullptr
            mMapUserdata := 0
            mState := .Unmapped },
          trace := [Event.mapCallback 77 .UnmappedBeforeCallback 88
              { exampleMapped with mMapCallback := nullptr },
            Event.hook .UnmapImpl [], Event.hook .UnmapImpl []] }
      ∧ (Reentrant.Unmap unmapInCallback exampleDevice exampleBackend
          { buffer := exampleMapped, trace := [] }).trace.countP (Event.isHook .UnmapImpl) = 2
      ∧ (Reentrant.Unmap unmapInCallback exampleDevice exampleBackend
          { buffer := exampleMapped, trace := [] }).deliveries 77 88 = 1
      ∧ (Reentrant.Unmap Application.inert exampleDevice exampleBackend
          { buffer := exampleMapped, trace := [] }).trace.countP (Event.isHook .UnmapImpl)
        = 1 := by
  refine ⟨by decide, by decide, by decide, by decide, by decide⟩

/-- C15: the runs that break the claim. The example buffer is valid and `Mapped` with
callback `77` pending, the device is live, and the callback calls `Destroy()` on the
buffer. In `APIDestroy` the `Destroy()` inside the callback calls `DestroyImpl` and sets
`Destroyed`; when the callback returns, the outer `UnmapInternal` sets `Unmapped`, so the
outer `DestroyInternal` finds a state other than `Destroyed` and calls `DestroyImpl`
again. In `Unmap` followed by `APIDestroy`, the callback of the `Unmap` destroys the
buffer, the `Unmap` leaves it `Unmapped`, and the later `APIDestroy` calls `DestroyImpl`
again. `DestroyImpl` is called twice in both runs, where the same calls with a callback
that does not act on the buffer call it once. -/
theorem DestroyImpl_twice_callback_calls_Destroy :
    Reentrant.APIDestroy destroyInCallback exampleDevice exampleBackend
        { buffer := exampleMapped, trace := [] } =
      { buffer := { exampleMapped with
          mMapCallback := nullptr
          mMapUserdata := 0
          mState := .Destroyed },
        trace := [Event.mapCallback 77 .DestroyedBeforeCallback 88
            { exampleMapped with mMapCallback := nullptr },
          Event.hook .UnmapImpl [], Event.hook .DestroyImpl [],
          Event.hook .UnmapImpl [], Event.hook .DestroyImpl []] }
      ∧ (Reentrant.APIDestroy destroyInCallback exampleDevice exampleBackend
          { buffer := exampleMapped, trace := [] }).destroyImplCalls = 2
      ∧ Reentrant.Unmap destroyInCallback exampleDevice exampleBackend
          { buffer := exampleMapped, trace := [] } =
        { buffer := { exampleMapped with
            mMapCallback := nullptr
            mMapUserdata := 0
            mState := .Unmapped },
          trace := [Event.mapCallback 77 .UnmappedBeforeCallback 88
              { exampleMapped with mMapCallback := nullptr },
            Event.hook .UnmapImpl [], Event.hook .DestroyImpl [],
            Event.hook .UnmapImpl []] }
      ∧ (Reentrant.run destroyInCallback
          [{ device := exampleDevice, backend := exampleBackend, op := .unmap },
            { device := exampleDevice, backend := exampleBackend, op := .destroy }]
          { buffer := exampleMapped, trace := [] }).destroyImplCalls = 2
      ∧ (Reentrant.APIDestroy Application.inert exampleDevice exampleBackend
          { buffer := exampleMapped, trace := [] }).destroyImplCalls = 1
      ∧ (Reentrant.run Application.inert
          [{ device := exampleDevice, backend := exampleBackend, op := .unmap },
            { device := exampleDevice, backend := exampleBackend, op := .destroy }]
          { buffer := exampleMapped, trace := [] }).destroyImplCalls = 1 := by
  refine ⟨by decide, by decide, by decide, by decide, by decide, by decide⟩

--LEMMAS--
theorem Reentrant_UnmapInternal_mapped (app : Application) (device : DeviceBase)
    (backend : BufferBackend) (status : WGPUBufferMapAsyncStatus) (w : World)
    (hA : device.alive = true) (hE : w.buffer.isError = false)
    (hS : w.buffer.mState = .Mapped) :
    Reentrant.UnmapInternal app device backend status w =
      { buffer := { (Reentrant.CallMapCallback app device w.buffer.mLastMapID
            status w).buffer with
          mMapCallback := nullptr
          mMapUserdata := 0
          mState := .Unmapped },
        trace := (Reentrant.CallMapCallback app device w.buffer.mLastMapID status w).trace ++
          [if (Reentrant.CallMapCallback app device w.buffer.mLastMapID
              status w).buffer.isError then Event.unreachable .UnmapImpl
            else Event.hook .UnmapImpl []] } := by
  have hv : ValidateUnmap device w.buffer = .ok () :=
    (ValidateUnmap_ok_iff _ _).mpr ⟨hA, hE, Or.inl hS⟩
  rw [Reentrant_UnmapInternal_valid_eq _ _ _ _ _ hE, hv]
  simp only [hS, UnmapImpl, World.emit]
  split <;> simp_all

end dawn_native
